import Mathlib

/-!
# The fdbus message engine (`src/fdbus/CFdbMessage.cpp`)

A shallow embedding of `CFdbMessage`, `CFdbDebugMsg` and `CFdbBroadcastMsg`.

* A message is a record of its C++ members; member functions are functions
  that take the message and return the new message together with the return
  value and the list of calls made to collaborators (context, session).
* `int32_t` members are `Int`, with `toInt32` where a value is narrowed;
  `uint32_t` flag words and ids are `Nat`.
* The header file `CFdbMessage.h`, the generated protobuf header and the
  collaborators (context, session, endpoint, logger) are not part of the
  sources: their constants are the fields of `Consts`, their behaviour the
  fields of `CFdbContext`, `CFdbSession`, `CFdbBasePayload` and `Proto`.
-/

namespace Fdbus

/-! ## Machine integers -/

/-- Conversion of an integer to `int32_t` (two's complement wrap). -/
def toInt32 (x : Int) : Int := (x + 2147483648) % 4294967296 - 2147483648

/-- Conversion of an integer to `uint32_t`. -/
def toUInt32 (x : Int) : Int := x % 4294967296

/-! ## Constants of the missing headers -/

/-- The thirteen one-bit flags of the flag word named in `CFdbMessage.cpp`. -/
inductive Flag where
  | Error | Status | InitialResponse | Debug
  | HeadOk | NoReplyExpected | AutoReply | SyncReply | Replied
  | ExternalBuffer | Endpoint | EnableLog | ManualUpdate
  deriving DecidableEq, Repr

/-- Every flag. -/
def Flag.all : List Flag :=
  [.Error, .Status, .InitialResponse, .Debug, .HeadOk, .NoReplyExpected, .AutoReply,
   .SyncReply, .Replied, .ExternalBuffer, .Endpoint, .EnableLog, .ManualUpdate]

/-- Modelled from the spec: which flags `MSG_GLOBAL_FLAG_MASK` of the missing
`CFdbMessage.h` holds; the spec lists Error, Status, InitialResponse and Debug
as global (on the wire) and the others as local. -/
def Flag.isGlobal : Flag → Bool
  | .Error | .Status | .InitialResponse | .Debug => true
  | _ => false

/-- Constants that `CFdbMessage.cpp` takes from headers that are not part of the
sources.  Every flag is one bit of the 32-bit flag word; `bit` gives its position. -/
structure Consts where
  /-- Shift of the encoding field, `MSG_FLAG_ENCODING`. -/
  MSG_FLAG_ENCODING : Nat
  MSG_FLAG_ENCODING_MASK : Nat
  MSG_FLAG_ENC_PROTOBUF : Nat
  MSG_GLOBAL_FLAG_MASK : Nat
  bit : Flag → Nat
  mMaxHeadSize : Int
  /-- Value returned by `maxReservedSize()`. -/
  maxReservedSize : Int
  FDB_INVALID_ID : Nat
  FDB_ST_OK : Int
  FDB_ST_AUTO_REPLY_OK : Int
  FDB_ST_INVALID_ID : Int
  FDB_ST_TIMEOUT : Int
  FDB_CODE_SUBSCRIBE : Nat
  FDB_CODE_UNSUBSCRIBE : Nat
  FDB_CODE_UPDATE : Nat

namespace Consts

def MSG_FLAG_ERROR (K : Consts) : Nat := 1 <<< K.bit .Error
def MSG_FLAG_STATUS (K : Consts) : Nat := 1 <<< K.bit .Status
def MSG_FLAG_INITIAL_RESPONSE (K : Consts) : Nat := 1 <<< K.bit .InitialResponse
def MSG_FLAG_DEBUG (K : Consts) : Nat := 1 <<< K.bit .Debug
def MSG_FLAG_HEAD_OK (K : Consts) : Nat := 1 <<< K.bit .HeadOk
def MSG_FLAG_NOREPLY_EXPECTED (K : Consts) : Nat := 1 <<< K.bit .NoReplyExpected
def MSG_FLAG_AUTO_REPLY (K : Consts) : Nat := 1 <<< K.bit .AutoReply
def MSG_FLAG_SYNC_REPLY (K : Consts) : Nat := 1 <<< K.bit .SyncReply
def MSG_FLAG_REPLIED (K : Consts) : Nat := 1 <<< K.bit .Replied
def MSG_FLAG_EXTERNAL_BUFFER (K : Consts) : Nat := 1 <<< K.bit .ExternalBuffer
def MSG_FLAG_ENDPOINT (K : Consts) : Nat := 1 <<< K.bit .Endpoint
def MSG_FLAG_ENABLE_LOG (K : Consts) : Nat := 1 <<< K.bit .EnableLog
def MSG_FLAG_MANUAL_UPDATE (K : Consts) : Nat := 1 <<< K.bit .ManualUpdate

/-- Modelled from the spec: the layout of the flag word in the missing
`CFdbMessage.h`.  The thirteen flags are distinct bits of a 32-bit word, the
global mask holds the four on-wire flags and the encoding field and none of the
local flags, and the encoding field holds no flag. -/
def wf (K : Consts) : Prop :=
  (Flag.all.map K.bit).Nodup ∧
  (∀ f ∈ Flag.all, K.bit f < 32) ∧
  (∀ f ∈ Flag.all, K.MSG_GLOBAL_FLAG_MASK.testBit (K.bit f) = f.isGlobal) ∧
  (∀ f ∈ Flag.all, K.MSG_FLAG_ENCODING_MASK.testBit (K.bit f) = false) ∧
  K.MSG_FLAG_ENCODING_MASK &&& K.MSG_GLOBAL_FLAG_MASK = K.MSG_FLAG_ENCODING_MASK ∧
  K.MSG_FLAG_ENC_PROTOBUF &&& K.MSG_FLAG_ENCODING_MASK = K.MSG_FLAG_ENC_PROTOBUF ∧
  K.MSG_GLOBAL_FLAG_MASK < 4294967296

instance (K : Consts) : Decidable K.wf := by
  unfold wf; infer_instance

end Consts

/-- Modelled from the spec: `mPrefixSize` of the missing `CFdbMessage.h`; the
prefix is two big-endian `u32`, `prefixSize = 8`. -/
def mPrefixSize : Int := 8

/-- Modelled from the spec: `isValidFdbId` of the missing headers; an id is
valid when it is not the sentinel `FDB_INVALID_ID`. -/
def isValidFdbId (K : Consts) (id : Nat) : Bool := id != K.FDB_INVALID_ID

/-! Modelled from the spec: the ordinals of `FdbMessageType`
(0 Unknown, 1 Request, 2 Reply, 3 SubscribeRequest, 4 Broadcast,
5 SidebandRequest, 6 SidebandReply, 7 Status). -/

/-- Modelled from the spec: ordinal of `MT_UNKNOWN` in the missing generated header. -/
def MT_UNKNOWN : Nat := 0
/-- Modelled from the spec: ordinal of `MT_REQUEST` in the missing generated header. -/
def MT_REQUEST : Nat := 1
/-- Modelled from the spec: ordinal of `MT_REPLY` in the missing generated header. -/
def MT_REPLY : Nat := 2
/-- Modelled from the spec: ordinal of `MT_SUBSCRIBE_REQ` in the missing generated header. -/
def MT_SUBSCRIBE_REQ : Nat := 3
/-- Modelled from the spec: ordinal of `MT_BROADCAST` in the missing generated header. -/
def MT_BROADCAST : Nat := 4
/-- Modelled from the spec: ordinal of `MT_SIDEBAND_REQUEST` in the missing generated header. -/
def MT_SIDEBAND_REQUEST : Nat := 5
/-- Modelled from the spec: ordinal of `MT_SIDEBAND_REPLY` in the missing generated header. -/
def MT_SIDEBAND_REPLY : Nat := 6
/-- Modelled from the spec: ordinal of `MT_STATUS` in the missing generated header. -/
def MT_STATUS : Nat := 7
/-- Modelled from the spec: `MT_MAX`, one past the last published ordinal. -/
def MT_MAX : Nat := 8

def FDB_MSG_TX_SYNC : Nat := 1 <<< 0
def FDB_MSG_TX_NO_REPLY : Nat := 1 <<< 1

/-! ## Flag words -/

/-- The C test `flag & mask`, true when some bit of the mask is set. -/
def hasFlag (flag mask : Nat) : Bool := (flag &&& mask) != 0

/-- The C statement `flag |= mask`. -/
def setFlag (flag mask : Nat) : Nat := flag ||| mask

/-- The C statement `flag &= ~mask` on a 32-bit word. -/
def clearFlag (flag mask : Nat) : Nat := flag &&& (4294967295 ^^^ mask)

/-! ## Buffers and the frame prefix -/

/-- Memory reachable from a buffer pointer: the byte at each offset. -/
abbrev Buffer := Int → Nat

def Buffer.write (b : Buffer) (addr : Int) (v : Nat) : Buffer :=
  fun a => if a = addr then v else b a

/-- Copy of a byte list to consecutive addresses (`memcpy`, stream output). -/
def Buffer.writeBytes (b : Buffer) (addr : Int) : List Nat → Buffer
  | [] => b
  | v :: vs => Buffer.writeBytes (b.write addr v) (addr + 1) vs

/-- The frame prefix `CFdbMsgPrefix`: two `uint32_t`. -/
structure CFdbMsgPrefix where
  mTotalLength : Int
  mHeadLength : Int

/-- The four bytes of a `u32`, most significant first. -/
def u32Bytes (v : Int) : List Nat :=
  let u := (toUInt32 v).toNat
  [u / 16777216 % 256, u / 65536 % 256, u / 256 % 256, u % 256]

/-- The `u32` stored most significant byte first at an address. -/
def readU32 (b : Buffer) (addr : Int) : Int :=
  ((b addr % 256 * 16777216 + b (addr + 1) % 256 * 65536
    + b (addr + 2) % 256 * 256 + b (addr + 3) % 256 : Nat) : Int)

/-- Modelled from the spec: `CFdbMsgPrefix::serialize` of the missing
`CFdbMessage.h`; `totalLength: u32` big-endian, then `headLength: u32`
big-endian. -/
def CFdbMsgPrefix.serialize (p : CFdbMsgPrefix) (b : Buffer) (addr : Int) : Buffer :=
  b.writeBytes addr (u32Bytes p.mTotalLength ++ u32Bytes p.mHeadLength)

/-- Modelled from the spec: `CFdbMsgPrefix::deserialize` of the missing
`CFdbMessage.h`, the inverse of `serialize`. -/
def CFdbMsgPrefix.deserialize (b : Buffer) (addr : Int) : CFdbMsgPrefix :=
  { mTotalLength := readU32 b addr, mHeadLength := readU32 b (addr + 4) }

/-- The C string `s.c_str()` as a string: the characters before the first NUL. -/
def c_str (s : String) : String :=
  String.mk (s.toList.takeWhile (fun c => c != Char.ofNat 0))

/-! ## Data model -/

/-- The timer `CMessageTimer`; `mSession` is the session id of the session it
points to (`none` is the null pointer). -/
structure CMessageTimer where
  interval : Int
  mSession : Option Nat
  mMsgSn : Nat
  attached : Bool

/-- Constructor `CMessageTimer(interval)`. -/
def CMessageTimer.new (K : Consts) (interval : Int) : CMessageTimer :=
  { interval := interval, mSession := none, mMsgSn := K.FDB_INVALID_ID, attached := false }

/-- The members of `CFdbMessage`, with those of the subclasses `CFdbDebugMsg`
(the four time stamps) and `CFdbBroadcastMsg` (`mFilter`); `isDebugMsg` and
`isBroadcastMsg` tell the dynamic class, which selects the virtual functions. -/
structure CFdbMessage where
  mType : Nat
  mCode : Nat
  mSn : Nat
  mPayloadSize : Int
  mHeadSize : Int
  mOffset : Int
  mExtraSize : Int
  mSid : Nat
  mOid : Nat
  mEpid : Nat
  mBuffer : Option Buffer
  mFlag : Nat
  mTimer : Option CMessageTimer
  mSenderName : String
  mStringData : Option String
  isDebugMsg : Bool
  mSendTime : Nat
  mArriveTime : Nat
  mReplyTime : Nat
  mReceiveTime : Nat
  isBroadcastMsg : Bool
  mFilter : String

/-- The generated record `NFdbBase::FdbMessageHeader`; optional fields are
`Option`, `payload_size` is a `u32`. -/
structure FdbMessageHeader where
  type : Nat
  serial_number : Nat
  code : Nat
  flag : Nat
  object_id : Nat
  payload_size : Int
  sender_name : Option String
  broadcast_filter : Option String
  send_or_arrive_time : Option Nat
  reply_time : Option Nat

/-- A payload `CFdbBasePayload` as the message code sees it: `ByteSize()` and
the result of `SerializeToCodedStream` (`none` when it fails or throws). -/
structure CFdbBasePayload where
  byteSize : Int
  bytes : Option (List Nat)

/-- The protobuf library and generated code, which are outside the sources. -/
structure Proto where
  /-- The call `msg_hdr.ByteSize()`. -/
  headByteSize : FdbMessageHeader → Int
  /-- The call `msg_hdr.SerializeToCodedStream`, `none` when it fails or throws. -/
  headBytes : FdbMessageHeader → Option (List Nat)
  /-- The payload built from an `FdbMsgErrorInfo` with the given code and description. -/
  errorInfo : Int → Option String → CFdbBasePayload

/-- What the message code uses of `CFdbSession`; a send may change the message
(it is handed over by pointer). -/
structure CFdbSession where
  sid : Nat
  getEndpointName : String
  /-- The call `sendMessage(CFdbMessage *)`. -/
  sendMessage : CFdbMessage → Bool × CFdbMessage
  /-- The call `sendMessage(CBaseJob::Ptr &)`. -/
  sendMessageRef : CFdbMessage → Bool × CFdbMessage

/-- What the message code uses of `CFdbBaseObject`. -/
structure CFdbBaseObject where
  getDefaultSession : Nat
  epid : Nat
  objId : Nat
  name : String

/-- What the message code uses of `CBaseEndpoint`. -/
structure CBaseEndpoint where
  epid : Nat
  preferredPeer : Option CFdbSession

/-- What the message code uses of `CLogProducer`. -/
structure CLogProducer where
  checkLogEnabled : CFdbMessage → CFdbBaseObject → Bool → Bool
  printToString : CFdbBasePayload → Option String

/-- What the message code uses of the singleton `CFdbContext` and of the
run-time system: the results of the enqueue calls, the lookups, the contents of
newly allocated memory, the clock. -/
structure CFdbContext where
  isSelf : Bool
  sendSync : CFdbMessage → Bool
  sendAsync : CFdbMessage → Bool
  sendAsyncEndeavor : CFdbMessage → Bool
  getEndpoint : Nat → Option CBaseEndpoint
  getSession : Nat → Option CFdbSession
  getLogger : Option CLogProducer
  freshBuffer : Buffer
  getNanoSecTimer : Nat

/-- Calls a member function makes to its collaborators, with the message as
it is at the call. -/
inductive Event where
  | ctxSendSync (m : CFdbMessage)
  | ctxSendAsync (m : CFdbMessage)
  | ctxSendAsyncEndeavor (m : CFdbMessage)
  | sessionSendMessage (sid : Nat) (m : CFdbMessage)
  | sessionSendMessageRef (sid : Nat) (m : CFdbMessage)
  | onAsyncError (code : Int) (reason : String)
  | timerAttach (t : CMessageTimer)
  | objectBroadcast (obj : CFdbBaseObject) (m : CFdbMessage)
  | objectBroadcastTo (obj : CFdbBaseObject) (sid : Nat) (m : CFdbMessage)

/-- Is the event a call of `session->sendMessage`. -/
def Event.isSessionSend : Event → Bool
  | .sessionSendMessage _ _ => true
  | .sessionSendMessageRef _ _ => true
  | _ => false

/-- Is the event an enqueue to the context. -/
def Event.isCtxEnqueue : Event → Bool
  | .ctxSendSync _ => true
  | .ctxSendAsync _ => true
  | .ctxSendAsyncEndeavor _ => true
  | _ => false

/-- The message an event hands over, if any. -/
def Event.msg? : Event → Option CFdbMessage
  | .ctxSendSync m => some m
  | .ctxSendAsync m => some m
  | .ctxSendAsyncEndeavor m => some m
  | .sessionSendMessage _ m => some m
  | .sessionSendMessageRef _ m => some m
  | _ => none

namespace CFdbMessage

/-! ## Constructors

A constructor runs on raw storage `raw`; members it does not initialise keep
the value found there. -/

/-- Constructor `CFdbMessage(code, enc)`. -/
def new (K : Consts) (raw : CFdbMessage) (code enc : Nat) : CFdbMessage :=
  { raw with
    mType := MT_REQUEST, mCode := code, mSn := K.FDB_INVALID_ID, mPayloadSize := 0,
    mHeadSize := 0, mOffset := 0, mExtraSize := 0, mSid := K.FDB_INVALID_ID,
    mOid := K.FDB_INVALID_ID, mBuffer := none,
    mFlag := (enc <<< K.MSG_FLAG_ENCODING) &&& K.MSG_FLAG_ENCODING_MASK,
    mTimer := none, mSenderName := "", mStringData := none,
    isDebugMsg := false, isBroadcastMsg := false, mFilter := "" }

/-- Member `setDestination(obj, alt_sid)`. -/
def setDestination (K : Consts) (m : CFdbMessage) (obj : CFdbBaseObject) (alt_sid : Nat) :
    CFdbMessage :=
  let sid := obj.getDefaultSession
  let m1 :=
    if isValidFdbId K alt_sid then
      { m with mSid := alt_sid, mFlag := clearFlag m.mFlag K.MSG_FLAG_ENDPOINT }
    else if isValidFdbId K sid then
      { m with mSid := sid, mFlag := clearFlag m.mFlag K.MSG_FLAG_ENDPOINT }
    else
      { m with mEpid := obj.epid, mFlag := setFlag m.mFlag K.MSG_FLAG_ENDPOINT }
  { m1 with mOid := obj.objId }

/-- Constructor `CFdbMessage(code, obj, alt_receiver, enc)`; it has no
initialiser for `mSid` and `mOid`. -/
def newTo (K : Consts) (raw : CFdbMessage) (code : Nat) (obj : CFdbBaseObject)
    (alt_receiver enc : Nat) : CFdbMessage :=
  setDestination K
    { raw with
      mType := MT_REQUEST, mCode := code, mSn := K.FDB_INVALID_ID, mPayloadSize := 0,
      mHeadSize := 0, mOffset := 0, mExtraSize := 0, mBuffer := none,
      mFlag := (enc <<< K.MSG_FLAG_ENCODING) &&& K.MSG_FLAG_ENCODING_MASK,
      mTimer := none, mSenderName := "", mStringData := none,
      isDebugMsg := false, isBroadcastMsg := false, mFilter := "" }
    obj alt_receiver

/-- Constructor `CFdbMessage(code, msg, enc)`. -/
def newFrom (K : Consts) (raw : CFdbMessage) (code : Nat) (msg : CFdbMessage) (enc : Nat) :
    CFdbMessage :=
  { raw with
    mType := MT_BROADCAST, mCode := code, mSn := msg.mSn, mPayloadSize := 0,
    mHeadSize := 0, mOffset := 0, mExtraSize := 0, mSid := msg.mSid, mOid := msg.mOid,
    mBuffer := none,
    mFlag := (enc <<< K.MSG_FLAG_ENCODING) &&& K.MSG_FLAG_ENCODING_MASK,
    mTimer := none, mSenderName := msg.mSenderName, mStringData := none,
    isDebugMsg := false, isBroadcastMsg := false, mFilter := "" }

/-- The decoding constructor `CFdbMessage(head, prefix, buffer, sid)`.  The
members are initialised in the order written, so `mExtraSize` is computed from
the narrowed `mHeadSize` and `mPayloadSize`; the subtraction is done in 32 bits.
The sender name is assigned from `head.sender_name().c_str()`. -/
def newDecoded (K : Consts) (raw : CFdbMessage) (head : FdbMessageHeader)
    (pfx : CFdbMsgPrefix) (buffer : Option Buffer) (sid : Nat) : CFdbMessage :=
  let payloadSize := toInt32 head.payload_size
  let headSize := toInt32 pfx.mHeadLength
  let extraSize := toInt32 (pfx.mTotalLength - mPrefixSize - headSize - payloadSize)
  { raw with
    mType := MT_REPLY, mCode := head.code, mSn := head.serial_number,
    mPayloadSize := payloadSize, mHeadSize := headSize, mOffset := 0,
    mExtraSize := if extraSize < 0 then 0 else extraSize,
    mSid := sid, mOid := head.object_id, mBuffer := buffer,
    mFlag := setFlag (head.flag &&& K.MSG_GLOBAL_FLAG_MASK) K.MSG_FLAG_EXTERNAL_BUFFER,
    mTimer := none, mStringData := none,
    mSenderName := match head.sender_name with
      | some n => c_str n
      | none => "",
    isDebugMsg := false, isBroadcastMsg := false, mFilter := "" }

/-! ## Buffer handling and payload serialization -/

/-- Member `freeRawBuffer()`. -/
def freeRawBuffer (m : CFdbMessage) : CFdbMessage :=
  match m.mBuffer with
  | some _ => { m with mBuffer := none }
  | none => m

/-- Member `releaseBuffer()`. -/
def releaseBuffer (K : Consts) (m : CFdbMessage) : CFdbMessage :=
  if hasFlag m.mFlag K.MSG_FLAG_EXTERNAL_BUFFER then
    freeRawBuffer m
  else
    match m.mBuffer with
    | some _ => { m with mBuffer := none }
    | none => m

/-- Member `setLogData(const char *)`. -/
def setLogData (K : Consts) (m : CFdbMessage) (log_data : Option String) : CFdbMessage :=
  let m1 := { m with mStringData := none }
  match log_data with
  | some s => { m1 with mStringData := some s, mFlag := setFlag m1.mFlag K.MSG_FLAG_ENABLE_LOG }
  | none => m1

/-- Member `setLogData(std::string *)`. -/
def setLogDataPtr (m : CFdbMessage) (log_data : Option String) : CFdbMessage :=
  { m with mStringData := log_data }

/-- Member `checkLogEnabled(object, lock)`. -/
def checkLogEnabled (K : Consts) (ctx : CFdbContext) (m : CFdbMessage)
    (object : CFdbBaseObject) (lock : Bool) : CFdbMessage :=
  if !hasFlag m.mFlag K.MSG_FLAG_ENABLE_LOG then
    match ctx.getLogger with
    | some logger =>
      if logger.checkLogEnabled m object lock then
        { m with mFlag := setFlag m.mFlag K.MSG_FLAG_ENABLE_LOG }
      else m
    | none => m
  else m

/-- Member `allocCopyRawBuffer(src, payload_size)`; `none` when the call does
not return: `new uint8_t[total_size]` throws for a negative `total_size`, and a
`memcpy` of a negative length is undefined. -/
def allocCopyRawBuffer (K : Consts) (ctx : CFdbContext) (m : CFdbMessage)
    (src : Option (List Nat)) (payload_size : Int) : Option (Bool × CFdbMessage) :=
  let total_size := toInt32 (K.maxReservedSize + payload_size + m.mExtraSize)
  if total_size < 0 then none
  else
    let buf : Buffer := ctx.freshBuffer
    match src with
    | some bytes =>
      if payload_size < 0 then none
      else
        let copied := buf.writeBytes K.maxReservedSize (bytes.take payload_size.toNat)
        some (true, { m with mBuffer := some copied })
    | none => some (true, { m with mBuffer := some buf })

/-- Member `serialize(const CFdbBasePayload &data, const CFdbBaseObject *object)`.
The allocation `new uint8_t[maxReservedSize() + mPayloadSize + mExtraSize]`
throws for a negative size; the `catch` then returns false and the buffer stays
null. -/
def serialize (K : Consts) (ctx : CFdbContext) (m : CFdbMessage) (data : CFdbBasePayload)
    (object : Option CFdbBaseObject) : Bool × CFdbMessage :=
  let m1 := { m with mOffset := 0, mHeadSize := K.mMaxHeadSize }
  let m2 := releaseBuffer K m1
  let m3 := { m2 with mFlag := clearFlag m2.mFlag K.MSG_FLAG_EXTERNAL_BUFFER }
  let m4 := { m3 with mPayloadSize := toInt32 data.byteSize }
  if toInt32 (K.maxReservedSize + m4.mPayloadSize + m4.mExtraSize) < 0 then (false, m4)
  else
    let m5 := { m4 with mBuffer := some ctx.freshBuffer }
    match data.bytes with
    | none => (false, m5)
    | some bytes =>
      let written :=
        ctx.freshBuffer.writeBytes K.maxReservedSize (bytes.take m5.mPayloadSize.toNat)
      let m6 := { m5 with mBuffer := some written }
      let m7 := match object with
        | some obj => checkLogEnabled K ctx m6 obj true
        | none => m6
      if hasFlag m7.mFlag K.MSG_FLAG_ENABLE_LOG then
        match ctx.getLogger with
        | some logger =>
          match logger.printToString data with
          | some log_data => (true, setLogDataPtr m7 (some log_data))
          | none => (true, m7)
        | none => (true, m7)
      else (true, m7)

/-- Member `serialize(const void *buffer, int32_t size, const CFdbBaseObject *object)`;
`none` when `allocCopyRawBuffer` does not return. -/
def serializeRaw (K : Consts) (ctx : CFdbContext) (m : CFdbMessage)
    (buffer : Option (List Nat)) (size : Int) (object : Option CFdbBaseObject) :
    Option (Bool × CFdbMessage) :=
  let m1 := { m with mOffset := 0, mHeadSize := K.mMaxHeadSize }
  let m2 := match object with
    | some obj => checkLogEnabled K ctx m1 obj true
    | none => m1
  let m3 := releaseBuffer K m2
  let m4 := { m3 with mFlag := setFlag m3.mFlag K.MSG_FLAG_EXTERNAL_BUFFER }
  let m5 := { m4 with mPayloadSize := size }
  allocCopyRawBuffer K ctx m5 buffer m5.mPayloadSize

/-- Modelled from the spec: `getRawDataSize()` of the missing `CFdbMessage.h`,
the frame length `prefixSize + headSize + payloadSize + extraSize`. -/
def getRawDataSize (m : CFdbMessage) : Int :=
  mPrefixSize + m.mHeadSize + m.mPayloadSize + m.mExtraSize

/-- Modelled from the spec: `getRawBuffer()` of the missing `CFdbMessage.h`
is `mBuffer + mOffset`, the start of the prefix; this is its offset. -/
def getRawBufferOffset (m : CFdbMessage) : Int := m.mOffset

/-! ## Header encoding -/

/-- Virtual `getFilter()`: the filter of a `CFdbBroadcastMsg`, null otherwise. -/
def getFilter (m : CFdbMessage) : Option String :=
  if m.isBroadcastMsg then some m.mFilter else none

/-- Virtual `encodeDebugInfo(msg_hdr, session)`: `CFdbDebugMsg::encodeDebugInfo`
for a debug message, the empty base version otherwise. -/
def encodeDebugInfo (ctx : CFdbContext) (m : CFdbMessage) (msg_hdr : FdbMessageHeader) :
    CFdbMessage × FdbMessageHeader :=
  if m.isDebugMsg then
    if msg_hdr.type = MT_REPLY ∨ msg_hdr.type = MT_STATUS then
      (m, { msg_hdr with send_or_arrive_time := some m.mArriveTime,
                         reply_time := some ctx.getNanoSecTimer })
    else if msg_hdr.type = MT_REQUEST ∨ msg_hdr.type = MT_SUBSCRIBE_REQ
        ∨ msg_hdr.type = MT_BROADCAST then
      let m1 := { m with mSendTime := ctx.getNanoSecTimer }
      (m1, { msg_hdr with send_or_arrive_time := some m1.mSendTime })
    else (m, msg_hdr)
  else (m, msg_hdr)

/-- The header `msg_hdr` that `buildHeader` fills in (the part of `buildHeader`
before `ByteSize()`), with the message as `encodeDebugInfo` leaves it. -/
def buildHeader_msg_hdr (K : Consts) (ctx : CFdbContext) (m : CFdbMessage)
    (session : CFdbSession) : CFdbMessage × FdbMessageHeader :=
  let h0 : FdbMessageHeader :=
    { type := m.mType, serial_number := m.mSn, code := m.mCode,
      flag := m.mFlag &&& K.MSG_GLOBAL_FLAG_MASK, object_id := m.mOid,
      payload_size := toUInt32 m.mPayloadSize,
      sender_name := none, broadcast_filter := none,
      send_or_arrive_time := none, reply_time := none }
  let (m1, h1) := encodeDebugInfo ctx m h0
  let h2 :=
    if m1.mSenderName.isEmpty then { h1 with sender_name := some session.getEndpointName }
    else { h1 with sender_name := some m1.mSenderName }
  let h3 :=
    if m1.mType = MT_BROADCAST then
      match getFilter m1 with
      | some filter => if filter ≠ "" then { h2 with broadcast_filter := some filter } else h2
      | none => h2
    else h2
  (m1, h3)

/-- The prefix `buildHeader` writes: `CFdbMsgPrefix(getRawDataSize(), mHeadSize)`. -/
def buildHeader_msgPrefix (m : CFdbMessage) : CFdbMsgPrefix :=
  { mTotalLength := toUInt32 (getRawDataSize m), mHeadLength := toUInt32 m.mHeadSize }

/-- Member `buildHeader(session)`.  The writes go through `mBuffer`; a null
`mBuffer` stays null here (in C++ the write through it is undefined). -/
def buildHeader (K : Consts) (P : Proto) (ctx : CFdbContext) (m : CFdbMessage)
    (session : CFdbSession) : Bool × CFdbMessage :=
  if hasFlag m.mFlag K.MSG_FLAG_HEAD_OK then (true, m)
  else
    let (m1, msg_hdr) := buildHeader_msg_hdr K ctx m session
    let head_size := toInt32 (P.headByteSize msg_hdr)
    if head_size > K.mMaxHeadSize then (false, m1)
    else
      let m2 := { m1 with mHeadSize := head_size }
      let head_offset := K.maxReservedSize - head_size
      let prefix_offset := head_offset - mPrefixSize
      let m3 := { m2 with mOffset := prefix_offset }
      match P.headBytes msg_hdr with
      | none => (false, m3)
      | some bytes =>
        let withHead := m3.mBuffer.map
          (fun b => b.writeBytes head_offset (bytes.take head_size.toNat))
        let m4 := { m3 with mBuffer := withHead }
        let pfx := buildHeader_msgPrefix m4
        let withPrefix := m4.mBuffer.map (fun b => pfx.serialize b (getRawBufferOffset m4))
        let m5 := { m4 with mBuffer := withPrefix }
        (true, { m5 with mFlag := setFlag m5.mFlag K.MSG_FLAG_HEAD_OK })

/-! ## Sessions, replies and status -/

/-- Member `getSession()`: the session found and the message as it is left. -/
def getSession (K : Consts) (ctx : CFdbContext) (m : CFdbMessage) :
    Option CFdbSession × CFdbMessage :=
  if hasFlag m.mFlag K.MSG_FLAG_ENDPOINT then
    let session := match ctx.getEndpoint m.mEpid with
      | some endpoint => endpoint.preferredPeer
      | none => none
    match session with
    | some s => (some s, { m with mFlag := clearFlag m.mFlag K.MSG_FLAG_ENDPOINT, mSid := s.sid })
    | none => (none, m)
  else (ctx.getSession m.mSid, m)

/-- Member `setErrorMsg(type, error_code, description)`. -/
def setErrorMsg (K : Consts) (P : Proto) (ctx : CFdbContext) (m : CFdbMessage)
    (type : Nat) (error_code : Int) (description : Option String) : CFdbMessage :=
  let m1 := if type ≠ MT_UNKNOWN then { m with mType := type } else m
  let m2 :=
    if error_code < K.FDB_ST_AUTO_REPLY_OK ∨ error_code > K.FDB_ST_OK then
      { m1 with mFlag := setFlag m1.mFlag K.MSG_FLAG_ERROR }
    else m1
  let m3 := { m2 with mFlag := setFlag m2.mFlag (K.MSG_FLAG_STATUS ||| K.MSG_FLAG_REPLIED) }
  (serialize K ctx m3 (P.errorInfo error_code description) none).2

/-- Member `feedback(msg_ref, data, type)`. -/
def feedback (K : Consts) (ctx : CFdbContext) (m : CFdbMessage) (data : CFdbBasePayload)
    (type : Nat) : Bool × CFdbMessage × List Event :=
  if hasFlag m.mFlag K.MSG_FLAG_NOREPLY_EXPECTED then (false, m, [])
  else
    let (ok, m1) := serialize K ctx m data none
    if !ok then (false, m1, [])
    else
      let m2 := { m1 with mType := type }
      let m3 := { m2 with mFlag := clearFlag m2.mFlag K.MSG_FLAG_ENCODING_MASK }
      let replied := setFlag m3.mFlag (K.MSG_FLAG_REPLIED ||| K.MSG_FLAG_ENC_PROTOBUF)
      let m4 := { m3 with mFlag := replied }
      if !ctx.sendAsyncEndeavor m4 then
        (false, { m4 with mFlag := clearFlag m4.mFlag K.MSG_FLAG_REPLIED },
          [Event.ctxSendAsyncEndeavor m4])
      else (true, m4, [Event.ctxSendAsyncEndeavor m4])

/-- Static `reply(msg_ref, data)`. -/
def reply (K : Consts) (ctx : CFdbContext) (fdb_msg : CFdbMessage) (data : CFdbBasePayload) :
    Bool × CFdbMessage × List Event :=
  feedback K ctx fdb_msg data MT_REPLY

/-- Static `reply(msg_ref, buffer, size, enc, log_data)`; `none` when the call
does not return, because `serialize(buffer, size)` does not. -/
def replyRaw (K : Consts) (ctx : CFdbContext) (fdb_msg : CFdbMessage)
    (buffer : Option (List Nat)) (size : Int) (enc : Nat) (log_data : Option String) :
    Option (Bool × CFdbMessage × List Event) :=
  if hasFlag fdb_msg.mFlag K.MSG_FLAG_NOREPLY_EXPECTED then some (false, fdb_msg, [])
  else
    match serializeRaw K ctx fdb_msg buffer size none with
    | none => none
    | some (ok, m1) =>
      if !ok then some (false, m1, [])
      else
        let m2 := setLogData K m1 log_data
        let m3 := { m2 with mType := MT_REPLY }
        let m4 := { m3 with mFlag := clearFlag m3.mFlag K.MSG_FLAG_ENCODING_MASK }
        let replied := setFlag m4.mFlag
          (K.MSG_FLAG_REPLIED ||| ((enc <<< K.MSG_FLAG_ENCODING) &&& K.MSG_FLAG_ENCODING_MASK))
        let m5 := { m4 with mFlag := replied }
        if !ctx.sendAsyncEndeavor m5 then
          some (false, { m5 with mFlag := clearFlag m5.mFlag K.MSG_FLAG_REPLIED },
            [Event.ctxSendAsyncEndeavor m5])
        else some (true, m5, [Event.ctxSendAsyncEndeavor m5])

/-- Static `replySideband(msg_ref, data)`. -/
def replySideband (K : Consts) (ctx : CFdbContext) (fdb_msg : CFdbMessage)
    (data : CFdbBasePayload) : Bool × CFdbMessage × List Event :=
  feedback K ctx fdb_msg data MT_SIDEBAND_REPLY

/-- Static `status(msg_ref, error_code, description)`. -/
def status (K : Consts) (P : Proto) (ctx : CFdbContext) (fdb_msg : CFdbMessage)
    (error_code : Int) (description : Option String) : Bool × CFdbMessage × List Event :=
  if hasFlag fdb_msg.mFlag K.MSG_FLAG_NOREPLY_EXPECTED then (false, fdb_msg, [])
  else
    let m1 := setErrorMsg K P ctx fdb_msg MT_STATUS error_code description
    if !ctx.sendAsyncEndeavor m1 then (false, m1, [Event.ctxSendAsyncEndeavor m1])
    else (true, m1, [Event.ctxSendAsyncEndeavor m1])

/-- Member `doReply(ref)`. -/
def doReply (K : Consts) (ctx : CFdbContext) (m : CFdbMessage) : CFdbMessage × List Event :=
  if !hasFlag m.mFlag K.MSG_FLAG_NOREPLY_EXPECTED then
    let (session, m1) := getSession K ctx m
    match session with
    | some s => ((s.sendMessage m1).2, [Event.sessionSendMessage s.sid m1])
    | none => (m1, [])
  else (m, [])

/-- Member `doStatus(ref)`. -/
def doStatus (K : Consts) (ctx : CFdbContext) (m : CFdbMessage) : CFdbMessage × List Event :=
  doReply K ctx m

/-- Member `sendStatus(session, error_code, description)`. -/
def sendStatus (K : Consts) (P : Proto) (ctx : CFdbContext) (m : CFdbMessage)
    (session : CFdbSession) (error_code : Int) (description : Option String) :
    CFdbMessage × List Event :=
  if !hasFlag m.mFlag K.MSG_FLAG_NOREPLY_EXPECTED then
    let m1 := setErrorMsg K P ctx m MT_STATUS error_code description
    ((session.sendMessage m1).2, [Event.sessionSendMessage session.sid m1])
  else (m, [])

/-- Member `sendAutoReply(session, error_code, description)`. -/
def sendAutoReply (K : Consts) (P : Proto) (ctx : CFdbContext) (m : CFdbMessage)
    (session : CFdbSession) (error_code : Int) (description : Option String) :
    CFdbMessage × List Event :=
  if m.mFlag &&& (K.MSG_FLAG_AUTO_REPLY ||| K.MSG_FLAG_REPLIED) = K.MSG_FLAG_AUTO_REPLY then
    sendStatus K P ctx m session error_code description
  else (m, [])

/-- Static `autoReply(session, msg_ref, error_code, description)`; `use_count`
is the value of `msg_ref.use_count()`. -/
def autoReplySession (K : Consts) (P : Proto) (ctx : CFdbContext) (fdb_msg : CFdbMessage)
    (use_count : Nat) (session : CFdbSession) (error_code : Int)
    (description : Option String) : CFdbMessage × List Event :=
  if fdb_msg.mFlag &&& (K.MSG_FLAG_AUTO_REPLY ||| K.MSG_FLAG_REPLIED) = K.MSG_FLAG_AUTO_REPLY
      ∧ ¬ (hasFlag fdb_msg.mFlag K.MSG_FLAG_NOREPLY_EXPECTED = true)
      ∧ use_count = 1 then
    sendStatus K P ctx fdb_msg session error_code description
  else (fdb_msg, [])

/-- Static `autoReply(msg_ref, error_code, description)`; `use_count` is the
value of `msg_ref.use_count()`. -/
def autoReply (K : Consts) (P : Proto) (ctx : CFdbContext) (fdb_msg : CFdbMessage)
    (use_count : Nat) (error_code : Int) (description : Option String) :
    CFdbMessage × List Event :=
  if fdb_msg.mFlag &&& (K.MSG_FLAG_AUTO_REPLY ||| K.MSG_FLAG_REPLIED) = K.MSG_FLAG_AUTO_REPLY
      ∧ ¬ (hasFlag fdb_msg.mFlag K.MSG_FLAG_NOREPLY_EXPECTED = true)
      ∧ use_count = 1 then
    let m1 := setErrorMsg K P ctx fdb_msg MT_STATUS error_code description
    (m1, [Event.ctxSendAsyncEndeavor m1])
  else (fdb_msg, [])

/-! ## Submitting -/

/-- Member `submit(msg_ref, tx_flag, timeout)`: the return value, the message
as it is handed to the context, and the calls made. -/
def submit (K : Consts) (ctx : CFdbContext) (m : CFdbMessage) (tx_flag : Nat) (timeout : Int) :
    Bool × CFdbMessage × List Event :=
  let sync := hasFlag tx_flag FDB_MSG_TX_SYNC
  if sync && ctx.isSelf then (false, m, [])
  else
    let m1 :=
      if hasFlag tx_flag FDB_MSG_TX_NO_REPLY then
        { m with mFlag := setFlag m.mFlag K.MSG_FLAG_NOREPLY_EXPECTED }
      else
        let a := { m with mFlag := setFlag m.mFlag K.MSG_FLAG_AUTO_REPLY }
        let b := if sync then { a with mFlag := setFlag a.mFlag K.MSG_FLAG_SYNC_REPLY } else a
        if timeout > 0 then { b with mTimer := some (CMessageTimer.new K timeout) } else b
    if sync then (ctx.sendSync m1, m1, [Event.ctxSendSync m1])
    else (ctx.sendAsync m1, m1, [Event.ctxSendAsync m1])

/-- Member `invoke(msg_ref, tx_flag, timeout)`. -/
def invoke (K : Consts) (ctx : CFdbContext) (m : CFdbMessage) (tx_flag : Nat) (timeout : Int) :
    Bool × CFdbMessage × List Event :=
  submit K ctx { m with mType := MT_REQUEST } tx_flag timeout

/-- Member `invoke(timeout)`. -/
def invokeAsync (K : Consts) (ctx : CFdbContext) (m : CFdbMessage) (timeout : Int) :
    Bool × CFdbMessage × List Event :=
  invoke K ctx m 0 timeout

/-- Static `invoke(msg_ref, timeout)`; `none` is a reference that does not
cast to a message. -/
def invokeSync (K : Consts) (ctx : CFdbContext) (msg : Option CFdbMessage) (timeout : Int) :
    Bool × Option CFdbMessage × List Event :=
  match msg with
  | some m =>
    let r := invoke K ctx m FDB_MSG_TX_SYNC timeout
    (r.1, some r.2.1, r.2.2)
  | none => (false, none, [])

/-- Member `send()`. -/
def send (K : Consts) (ctx : CFdbContext) (m : CFdbMessage) : Bool × CFdbMessage × List Event :=
  invoke K ctx m FDB_MSG_TX_NO_REPLY (-1)

end CFdbMessage

/-! ## Subclasses -/

namespace CFdbDebugMsg

/-- Constructor `CFdbDebugMsg(code, enc)`. -/
def new (K : Consts) (raw : CFdbMessage) (code enc : Nat) : CFdbMessage :=
  let m := CFdbMessage.new K raw code enc
  { m with isDebugMsg := true, mSendTime := 0, mArriveTime := 0, mReplyTime := 0,
           mReceiveTime := 0, mFlag := setFlag m.mFlag K.MSG_FLAG_DEBUG }

/-- Constructor `CFdbDebugMsg(code, obj, alt_receiver, enc)`. -/
def newTo (K : Consts) (raw : CFdbMessage) (code : Nat) (obj : CFdbBaseObject)
    (alt_receiver enc : Nat) : CFdbMessage :=
  let m := CFdbMessage.newTo K raw code obj alt_receiver enc
  { m with isDebugMsg := true, mSendTime := 0, mArriveTime := 0, mReplyTime := 0,
           mReceiveTime := 0, mFlag := setFlag m.mFlag K.MSG_FLAG_DEBUG }

/-- Constructor `CFdbDebugMsg(head, prefix, buffer, sid)`. -/
def newDecoded (K : Consts) (raw : CFdbMessage) (head : FdbMessageHeader)
    (pfx : CFdbMsgPrefix) (buffer : Option Buffer) (sid : Nat) : CFdbMessage :=
  let m := CFdbMessage.newDecoded K raw head pfx buffer sid
  { m with isDebugMsg := true, mSendTime := 0, mArriveTime := 0, mReplyTime := 0,
           mReceiveTime := 0 }

/-- Constructor `CFdbDebugMsg(code, msg, enc)`; it leaves the time stamps
uninitialised. -/
def newFrom (K : Consts) (raw : CFdbMessage) (code : Nat) (msg : CFdbMessage) (enc : Nat) :
    CFdbMessage :=
  let m := CFdbMessage.newFrom K raw code msg enc
  { m with isDebugMsg := true, mFlag := setFlag m.mFlag K.MSG_FLAG_DEBUG }

end CFdbDebugMsg

namespace CFdbBroadcastMsg

/-- Constructor `CFdbBroadcastMsg(code, obj, filter, alt_sid, alt_oid, enc)`.
The base class `_CBaseMessage` is `CFdbDebugMsg` when `debugBase` holds and
`CFdbMessage` otherwise (the choice is made in the missing header). -/
def newTo (K : Consts) (debugBase : Bool) (raw : CFdbMessage) (code : Nat)
    (obj : CFdbBaseObject) (filter : Option String) (alt_sid alt_oid enc : Nat) :
    CFdbMessage :=
  let m0 :=
    if debugBase then CFdbDebugMsg.newTo K raw code obj K.FDB_INVALID_ID enc
    else CFdbMessage.newTo K raw code obj K.FDB_INVALID_ID enc
  let m1 := { m0 with isBroadcastMsg := true }
  let m2 := match filter with
    | some f => { m1 with mFilter := f }
    | none => m1
  let m3 :=
    if isValidFdbId K alt_sid then
      { m2 with mSid := alt_sid, mFlag := clearFlag m2.mFlag K.MSG_FLAG_ENDPOINT,
                mSenderName := obj.name }
    else
      { m2 with mEpid := obj.epid, mFlag := setFlag m2.mFlag K.MSG_FLAG_ENDPOINT }
  let m4 := if isValidFdbId K alt_oid then { m3 with mOid := alt_oid } else m3
  { m4 with mType := MT_BROADCAST }

/-- Constructor `CFdbBroadcastMsg(code, msg, filter, enc)`. -/
def newFrom (K : Consts) (debugBase : Bool) (raw : CFdbMessage) (code : Nat)
    (msg : CFdbMessage) (filter : Option String) (enc : Nat) : CFdbMessage :=
  let m0 :=
    if debugBase then CFdbDebugMsg.newFrom K raw code msg enc
    else CFdbMessage.newFrom K raw code msg enc
  let m1 := { m0 with isBroadcastMsg := true }
  let m2 := match filter with
    | some f => { m1 with mFilter := f }
    | none => m1
  let m3 := { m2 with mFlag := m2.mFlag ||| (msg.mFlag &&& K.MSG_FLAG_MANUAL_UPDATE) }
  { m3 with mType := MT_BROADCAST }

end CFdbBroadcastMsg

/-! ## Concrete values for evaluation -/

/-- A layout of the kind the spec describes, for evaluating the functions: the
encoding field in the two low bits, the on-wire flags in bits 2 to 5, the
local flags in bits 16 to 24. -/
def exConsts : Consts :=
  { MSG_FLAG_ENCODING := 0, MSG_FLAG_ENCODING_MASK := 3, MSG_FLAG_ENC_PROTOBUF := 0,
    MSG_GLOBAL_FLAG_MASK := 65535,
    bit := fun f => match f with
      | .Error => 2 | .Status => 3 | .InitialResponse => 4 | .Debug => 5
      | .HeadOk => 16 | .NoReplyExpected => 17 | .AutoReply => 18 | .SyncReply => 19
      | .Replied => 20 | .ExternalBuffer => 21 | .Endpoint => 22 | .EnableLog => 23
      | .ManualUpdate => 24,
    mMaxHeadSize := 128, maxReservedSize := 136,
    FDB_INVALID_ID := 4294967295,
    FDB_ST_OK := 0, FDB_ST_AUTO_REPLY_OK := -11, FDB_ST_INVALID_ID := -2,
    FDB_ST_TIMEOUT := -3,
    FDB_CODE_SUBSCRIBE := 4294967294, FDB_CODE_UNSUBSCRIBE := 4294967293,
    FDB_CODE_UPDATE := 4294967292 }

/-- Raw storage filled with zeros. -/
def exRaw : CFdbMessage :=
  { mType := 0, mCode := 0, mSn := 0, mPayloadSize := 0, mHeadSize := 0, mOffset := 0,
    mExtraSize := 0, mSid := 0, mOid := 0, mEpid := 0, mBuffer := none, mFlag := 0,
    mTimer := none, mSenderName := "", mStringData := none, isDebugMsg := false,
    mSendTime := 0, mArriveTime := 0, mReplyTime := 0, mReceiveTime := 0,
    isBroadcastMsg := false, mFilter := "" }

/-- A session whose sends succeed and leave the message as it is. -/
def exSession : CFdbSession :=
  { sid := 7, getEndpointName := "server",
    sendMessage := fun m => (true, m), sendMessageRef := fun m => (true, m) }

/-- A context on another thread than the caller, with one session, whose
enqueue calls succeed. -/
def exCtx : CFdbContext :=
  { isSelf := false, sendSync := fun _ => true, sendAsync := fun _ => true,
    sendAsyncEndeavor := fun _ => true,
    getEndpoint := fun _ => none,
    getSession := fun sid => if sid = 7 then some exSession else none,
    getLogger := none, freshBuffer := fun _ => 0, getNanoSecTimer := 1000 }

/-- A protobuf layer with 20-byte headers. -/
def exProto : Proto :=
  { headByteSize := fun _ => 20, headBytes := fun _ => some (List.replicate 20 1),
    errorInfo := fun _ _ => { byteSize := 4, bytes := some [1, 2, 3, 4] } }

/-- A four-byte payload. -/
def exPayload : CFdbBasePayload := { byteSize := 4, bytes := some [9, 9, 9, 9] }

/-- A request that has been replied to. -/
def exReplied : CFdbMessage :=
  { exRaw with mType := MT_REQUEST, mFlag := exConsts.MSG_FLAG_REPLIED }

/-- A request that expects no reply. -/
def exNoReply : CFdbMessage :=
  { exRaw with mType := MT_REQUEST, mFlag := exConsts.MSG_FLAG_NOREPLY_EXPECTED }

/-- A request armed for auto-reply. -/
def exAutoReply : CFdbMessage :=
  { exRaw with mType := MT_REQUEST, mFlag := exConsts.MSG_FLAG_AUTO_REPLY }

/-- A request with code 100 whose payload has been serialized and which has
been submitted with `invoke(0)`. -/
def exRequest : CFdbMessage :=
  (CFdbMessage.invokeAsync exConsts exCtx
    (CFdbMessage.serialize exConsts exCtx (CFdbMessage.new exConsts exRaw 100 0)
      exPayload none).2 0).2.1

/-- The request after its header has been encoded for `exSession`. -/
def exEncoded : CFdbMessage :=
  (CFdbMessage.buildHeader exConsts exProto exCtx exRequest exSession).2

/-- The encoded request after a new payload has been serialized into it. -/
def exReserialized : CFdbMessage :=
  (CFdbMessage.serialize exConsts exCtx exEncoded exPayload none).2

/-- A received header with an empty payload. -/
def exHeader : FdbMessageHeader :=
  { type := MT_REQUEST, serial_number := 1, code := 100, flag := 0, object_id := 11,
    payload_size := 0, sender_name := some "client", broadcast_filter := none,
    send_or_arrive_time := none, reply_time := none }

/-- An object without a default session. -/
def exObjectNoSession : CFdbBaseObject :=
  { getDefaultSession := 4294967295, epid := 3, objId := 11, name := "object" }

/-- An object whose default session is session 7. -/
def exObject : CFdbBaseObject :=
  { getDefaultSession := 7, epid := 3, objId := 11, name := "object" }

/-! ## Sequences of auto-reply calls -/

/-- One call of the auto-reply family on a message. -/
inductive AutoReplyCall where
  | autoReplySession (use_count : Nat) (session : CFdbSession) (error_code : Int)
      (description : Option String)
  | autoReply (use_count : Nat) (error_code : Int) (description : Option String)
  | sendAutoReply (session : CFdbSession) (error_code : Int) (description : Option String)

/-- The session a call sends on, if it names one. -/
def AutoReplyCall.session? : AutoReplyCall → Option CFdbSession
  | .autoReplySession _ s _ _ => some s
  | .autoReply _ _ _ => none
  | .sendAutoReply s _ _ => some s

/-- The effect of one call. -/
def AutoReplyCall.run (K : Consts) (P : Proto) (ctx : CFdbContext) (m : CFdbMessage) :
    AutoReplyCall → CFdbMessage × List Event
  | .autoReplySession uc s c d => CFdbMessage.autoReplySession K P ctx m uc s c d
  | .autoReply uc c d => CFdbMessage.autoReply K P ctx m uc c d
  | .sendAutoReply s c d => CFdbMessage.sendAutoReply K P ctx m s c d

/-- The effect of a sequence of calls on one message, with all the calls made
to collaborators, in order. -/
def runAutoReplyCalls (K : Consts) (P : Proto) (ctx : CFdbContext) :
    CFdbMessage → List AutoReplyCall → CFdbMessage × List Event
  | m, [] => (m, [])
  | m, c :: cs =>
    let r := c.run K P ctx m
    let rest := runAutoReplyCalls K P ctx r.1 cs
    (rest.1, r.2 ++ rest.2)

/-- A session whose `sendMessage` never clears the Replied flag of the message
it is given. -/
def SessionKeepsReplied (K : Consts) (s : CFdbSession) : Prop :=
  ∀ x : CFdbMessage, hasFlag x.mFlag K.MSG_FLAG_REPLIED = true →
    hasFlag (s.sendMessage x).2.mFlag K.MSG_FLAG_REPLIED = true

/-- Is the event the hand-over of a Status message (type Status, Status flag set). -/
def Event.isStatusEmission (K : Consts) (e : Event) : Prop :=
  ∃ x, e.msg? = some x ∧ x.mType = MT_STATUS ∧ hasFlag x.mFlag K.MSG_FLAG_STATUS = true

/-! ## Dispatching -/

/-- What the dispatcher uses of the objects of endpoints and sessions: the
lookups `endpoint->getObject(msg, true)` and
`session->container()->owner()->getObject(msg, true)`, and the two broadcast
calls of `CFdbBaseObject`, which get the message by pointer and may change it. -/
structure ObjectTable where
  endpointGetObject : CBaseEndpoint → CFdbMessage → Option CFdbBaseObject
  ownerGetObject : CFdbSession → CFdbMessage → Option CFdbBaseObject
  /-- The call `object->broadcast(msg)`. -/
  broadcast : CFdbBaseObject → CFdbMessage → CFdbMessage
  /-- The call `object->broadcast(msg, session)`. -/
  broadcastTo : CFdbBaseObject → CFdbMessage → CFdbSession → Bool × CFdbMessage

namespace CFdbMessage

/-- The end of `doRequest`: when `success` is false the failure is reported,
by `setErrorMsg` for a message with SyncReply and by `onAsyncError` otherwise. -/
def doRequest_report (K : Consts) (P : Proto) (ctx : CFdbContext) (m : CFdbMessage)
    (success : Bool) (reason : String) : CFdbMessage × List Event :=
  if !success then
    if hasFlag m.mFlag K.MSG_FLAG_SYNC_REPLY then
      (setErrorMsg K P ctx m MT_UNKNOWN K.FDB_ST_INVALID_ID (some reason), [])
    else
      (m, [Event.onAsyncError K.FDB_ST_INVALID_ID reason])
  else (m, [])

/-- Member `doRequest(ref)`. -/
def doRequest (K : Consts) (P : Proto) (ctx : CFdbContext) (m : CFdbMessage) :
    CFdbMessage × List Event :=
  let (session, m1) := getSession K ctx m
  match session with
  | some s =>
    if hasFlag m1.mFlag K.MSG_FLAG_NOREPLY_EXPECTED then
      let sent := s.sendMessage m1
      let r := doRequest_report K P ctx sent.2 sent.1 "error when sending message!"
      (r.1, Event.sessionSendMessage s.sid m1 :: r.2)
    else
      let sent := s.sendMessageRef m1
      match sent.1, sent.2.mTimer with
      | true, some t =>
        let t1 := { t with mSession := some s.sid, mMsgSn := sent.2.mSn, attached := true }
        ({ sent.2 with mTimer := some t1 },
          [Event.sessionSendMessageRef s.sid m1, Event.timerAttach t1])
      | _, _ => (sent.2, [Event.sessionSendMessageRef s.sid m1])
  | none => doRequest_report K P ctx m1 false "Invalid sid!"

/-- Member `doBroadcast(ref)`. -/
def doBroadcast (K : Consts) (O : ObjectTable) (ctx : CFdbContext) (m : CFdbMessage) :
    CFdbMessage × List Event :=
  if hasFlag m.mFlag K.MSG_FLAG_ENDPOINT then
    match ctx.getEndpoint m.mEpid with
    | some endpoint =>
      match O.endpointGetObject endpoint m with
      | some object => (O.broadcast object m, [Event.objectBroadcast object m])
      | none => (m, [Event.onAsyncError K.FDB_ST_INVALID_ID "Invalid object id!"])
    | none => (m, [Event.onAsyncError K.FDB_ST_INVALID_ID "Invalid epid!"])
  else
    let m1 := { m with mFlag := setFlag m.mFlag K.MSG_FLAG_INITIAL_RESPONSE }
    match ctx.getSession m1.mSid with
    | some session =>
      match O.ownerGetObject session m1 with
      | some object =>
        let r := O.broadcastTo object m1 session
        if !r.1 then
          (r.2, [Event.objectBroadcastTo object session.sid m1,
                 Event.onAsyncError K.FDB_ST_INVALID_ID "Not subscribed or fail to send!"])
        else (r.2, [Event.objectBroadcastTo object session.sid m1])
      | none => (m1, [Event.onAsyncError K.FDB_ST_INVALID_ID "Invalid object id!"])
    | none => (m1, [Event.onAsyncError K.FDB_ST_INVALID_ID "Invalid sid!"])

/-- Member `doSubscribeReq(ref)`. -/
def doSubscribeReq (K : Consts) (P : Proto) (ctx : CFdbContext) (m : CFdbMessage) :
    CFdbMessage × List Event :=
  doRequest K P ctx m

/-- Member `doUnsubscribeReq(ref)`. -/
def doUnsubscribeReq (K : Consts) (P : Proto) (ctx : CFdbContext) (m : CFdbMessage) :
    CFdbMessage × List Event :=
  doRequest K P ctx m

/-- Member `run(worker, ref)`: the switch on `mType`. -/
def run (K : Consts) (P : Proto) (O : ObjectTable) (ctx : CFdbContext) (m : CFdbMessage) :
    CFdbMessage × List Event :=
  if m.mType = MT_REQUEST ∨ m.mType = MT_SIDEBAND_REQUEST then doRequest K P ctx m
  else if m.mType = MT_REPLY ∨ m.mType = MT_SIDEBAND_REPLY then doReply K ctx m
  else if m.mType = MT_BROADCAST then doBroadcast K O ctx m
  else if m.mType = MT_STATUS then doStatus K ctx m
  else if m.mType = MT_SUBSCRIBE_REQ then
    if m.mCode = K.FDB_CODE_SUBSCRIBE ∨ m.mCode = K.FDB_CODE_UPDATE then
      doSubscribeReq K P ctx m
    else if m.mCode = K.FDB_CODE_UNSUBSCRIBE then doUnsubscribeReq K P ctx m
    else (m, [])
  else (m, [])

/-! ## Broadcasting from a message -/

/-- Member `broadcast()`. -/
def broadcastSelf (ctx : CFdbContext) (m : CFdbMessage) : Bool × CFdbMessage × List Event :=
  let m1 := { m with mType := MT_BROADCAST }
  (ctx.sendAsyncEndeavor m1, m1, [Event.ctxSendAsyncEndeavor m1])

/-- The message `broadcast(code, ...)` constructs before it serializes the
payload: `new CFdbBroadcastMsg(code, this, filter, enc)` followed by
`msg->mFlag |= mFlag & MSG_FLAG_ENABLE_LOG`. -/
def broadcast_msg (K : Consts) (debugBase : Bool) (raw : CFdbMessage) (m : CFdbMessage)
    (code : Nat) (filter : Option String) (enc : Nat) : CFdbMessage :=
  let msg := CFdbBroadcastMsg.newFrom K debugBase raw code m filter enc
  { msg with mFlag := msg.mFlag ||| (m.mFlag &&& K.MSG_FLAG_ENABLE_LOG) }

/-- Member `broadcast(code, data, filter)`; `enc` is the default encoding of
the constructor of `CFdbBroadcastMsg`, declared in the missing header.  The new
message is returned (`none` when it has been deleted). -/
def broadcast (K : Consts) (debugBase : Bool) (ctx : CFdbContext) (raw : CFdbMessage)
    (m : CFdbMessage) (code : Nat) (data : CFdbBasePayload) (filter : Option String)
    (enc : Nat) : Bool × Option CFdbMessage × List Event :=
  let msg := broadcast_msg K debugBase raw m code filter enc
  let s := serialize K ctx msg data none
  if !s.1 then (false, none, [])
  else
    let r := broadcastSelf ctx s.2
    (r.1, some r.2.1, r.2.2)

/-- Member `broadcast(code, filter, buffer, size, enc, log_data)`; `none`
when the call does not return, because `serialize(buffer, size)` does not. -/
def broadcastRaw (K : Consts) (debugBase : Bool) (ctx : CFdbContext) (raw : CFdbMessage)
    (m : CFdbMessage) (code : Nat) (filter : Option String) (buffer : Option (List Nat))
    (size : Int) (enc : Nat) (log_data : Option String) :
    Option (Bool × Option CFdbMessage × List Event) :=
  let msg := broadcast_msg K debugBase raw m code filter enc
  match serializeRaw K ctx msg buffer size none with
  | none => none
  | some s =>
    if !s.1 then some (false, none, [])
    else
      let r := broadcastSelf ctx (setLogData K s.2 log_data)
      some (r.1, some r.2.1, r.2.2)

/-! ## The log tunnel -/

/-- Modelled from the spec: `getExtraBuffer()` of the missing `CFdbMessage.h`;
the extra bytes follow the payload, which follows prefix and header; this is
the offset from `mBuffer`. -/
def getExtraBufferOffset (m : CFdbMessage) : Int :=
  m.mOffset + mPrefixSize + m.mHeadSize + m.mPayloadSize

/-- The first `n` bytes found at a pointer (the source of a `memcpy`). -/
def Buffer.readBytes (b : Buffer) (n : Nat) : List Nat :=
  (List.range n).map (fun i => b (i : Int))

/-- The first part of `sendLog`, up to the call of `serialize`: the flags and
type, the extra size, and the log data with its embedded prefix as it is left
(`log_data` is the memory at the pointer, which `sendLog` overwrites in place). -/
def sendLog_clip (K : Consts) (m : CFdbMessage) (log_data : Buffer) (size clipped_size : Int) :
    CFdbMessage × Buffer :=
  let m1 := { m with mFlag := setFlag m.mFlag K.MSG_FLAG_NOREPLY_EXPECTED }
  let m2 := { m1 with mFlag := clearFlag m1.mFlag K.MSG_FLAG_ENABLE_LOG }
  let m3 := { m2 with mType := MT_REQUEST }
  if clipped_size < 0 then
    ({ m3 with mExtraSize := size }, log_data)
  else
    let pfx := CFdbMsgPrefix.deserialize log_data 0
    let payload_size := toInt32 (pfx.mTotalLength - pfx.mHeadLength - mPrefixSize)
    if clipped_size = 0 then
      let pfx1 := { pfx with mTotalLength := toUInt32 (mPrefixSize + pfx.mHeadLength) }
      ({ m3 with mExtraSize := toInt32 pfx1.mTotalLength }, pfx1.serialize log_data 0)
    else if clipped_size < payload_size then
      let pfx1 := { pfx with
        mTotalLength := toUInt32 (mPrefixSize + pfx.mHeadLength + clipped_size) }
      ({ m3 with mExtraSize := toInt32 pfx1.mTotalLength }, pfx1.serialize log_data 0)
    else
      ({ m3 with mExtraSize := size }, log_data)

/-- The copy in `sendLog`, for a non-null `log_data`:
`if (log_data && size) memcpy(getExtraBuffer(), log_data, mExtraSize)`. -/
def sendLog_copy (m : CFdbMessage) (log_data : Buffer) (size : Int) : CFdbMessage :=
  if size ≠ 0 then
    let copied := m.mBuffer.map
      (fun b => b.writeBytes (getExtraBufferOffset m) (Buffer.readBytes log_data m.mExtraSize.toNat))
    { m with mBuffer := copied }
  else m

/-- Member `sendLog(data, log_data, size, clipped_size, send_as_job)` for a
non-null `log_data`: the return value, the message, the log data as it is left,
and the calls made. -/
def sendLog (K : Consts) (ctx : CFdbContext) (m : CFdbMessage) (data : CFdbBasePayload)
    (log_data : Buffer) (size clipped_size : Int) (send_as_job : Bool) :
    Bool × CFdbMessage × Buffer × List Event :=
  let (m1, log1) := sendLog_clip K m log_data size clipped_size
  let s := serialize K ctx m1 data none
  if !s.1 then (false, s.2, log1, [])
  else
    let m2 := sendLog_copy s.2 log1 size
    if send_as_job then (ctx.sendAsync m2, m2, log1, [Event.ctxSendAsync m2])
    else
      let (session, m3) := getSession K ctx m2
      match session with
      | some sess =>
        ((sess.sendMessage m3).1, (sess.sendMessage m3).2, log1,
          [Event.sessionSendMessage sess.sid m3])
      | none => (false, m3, log1, [])

/-! ## Names and time stamps -/

/-- The table `type_name` of `getMsgTypeName`. -/
def type_name : List String :=
  ["Unknown", "Request", "Reply", "Subscribe", "Broadcast", "SidebandRequest",
   "SidebandReply", "Status"]

/-- Static `getMsgTypeName(type)`; `none` is the null pointer.  The table is
indexed only below `MT_MAX`. -/
def getMsgTypeName (type : Nat) : Option String :=
  if type ≥ MT_MAX then none
  else some (type_name.getD type "")

end CFdbMessage

/-- The record `CFdbMsgMetadata`. -/
structure CFdbMsgMetadata where
  mSendTime : Nat
  mArriveTime : Nat
  mReplyTime : Nat
  mReceiveTime : Nat

/-- The class `CNanoTimer` of the missing `CNanoTimer.h`, as `parseTimestamp`
uses it: a state, the state of a new timer, and the four calls. -/
structure CNanoTimer (σ : Type) where
  fresh : σ
  reset : σ → σ
  startTimer : σ → Nat → σ
  stopTimer : σ → Nat → σ
  getTotalMicroseconds : σ → Nat

namespace CFdbMessage

/-- Static `parseTimestamp(metadata, client_to_server, server_to_reply,
reply_to_client, total)`: the four outputs, in that order. -/
def parseTimestamp {σ : Type} (T : CNanoTimer σ) (metadata : CFdbMsgMetadata) :
    Nat × Nat × Nat × Nat :=
  let timer0 := T.fresh
  let (client_to_server, timer1) :=
    if metadata.mSendTime = 0 ∨ metadata.mArriveTime = 0 then (0, timer0)
    else
      let t := T.stopTimer (T.startTimer timer0 metadata.mSendTime) metadata.mArriveTime
      (T.getTotalMicroseconds t, t)
  let (server_to_reply, timer2) :=
    if metadata.mArriveTime = 0 ∨ metadata.mReplyTime = 0 then (0, timer1)
    else
      let t := T.stopTimer (T.startTimer (T.reset timer1) metadata.mArriveTime)
        metadata.mReplyTime
      (T.getTotalMicroseconds t, t)
  let (reply_to_client, timer3) :=
    if metadata.mReplyTime = 0 ∨ metadata.mReceiveTime = 0 then (0, timer2)
    else
      let t := T.stopTimer (T.startTimer (T.reset timer2) metadata.mReplyTime)
        metadata.mReceiveTime
      (T.getTotalMicroseconds t, t)
  let total :=
    if metadata.mSendTime = 0 ∨ metadata.mReceiveTime = 0 then 0
    else
      T.getTotalMicroseconds
        (T.stopTimer (T.startTimer (T.reset timer3) metadata.mSendTime) metadata.mReceiveTime)
  (client_to_server, server_to_reply, reply_to_client, total)

end CFdbMessage

/-- Is the event a delivery call on an object, `object->broadcast(msg)` or
`object->broadcast(msg, session)`. -/
def Event.isDelivery : Event → Bool
  | .objectBroadcast _ _ => true
  | .objectBroadcastTo _ _ _ => true
  | _ => false

/-- Is the event a call of `onAsyncError`. -/
def Event.isAsyncError : Event → Bool
  | .onAsyncError _ _ => true
  | _ => false

/-! ## More concrete values for evaluation -/

/-- An object table in which every lookup finds `exObject` and every broadcast
succeeds and leaves the message as it is. -/
def exObjects : ObjectTable :=
  { endpointGetObject := fun _ _ => some exObject,
    ownerGetObject := fun _ _ => some exObject,
    broadcast := fun _ m => m,
    broadcastTo := fun _ m _ => (true, m) }

/-- A message with the Debug flag, serial 5, session 7 and object 11. -/
def exDebugFlagged : CFdbMessage :=
  { exRaw with mType := MT_REQUEST, mFlag := exConsts.MSG_FLAG_DEBUG, mSn := 5, mSid := 7,
               mOid := 11, mSenderName := "client" }

/-- Log data of 120 bytes that starts with the prefix (120, 20). -/
def exLogData : Buffer :=
  CFdbMsgPrefix.serialize { mTotalLength := 120, mHeadLength := 20 } (fun _ => 0) 0

/-- A timer that keeps the start time and the total of the intervals, in
nanoseconds, and whose `reset` gives the state of a new timer. -/
def exNanoTimer : CNanoTimer (Nat × Nat) :=
  { fresh := (0, 0),
    reset := fun _ => (0, 0),
    startTimer := fun s t => (t, s.2),
    stopTimer := fun s t => (s.1, s.2 + (t - s.1)),
    getTotalMicroseconds := fun s => s.2 / 1000 }

/-- A protobuf layer whose headers take 200 bytes, more than `mMaxHeadSize`. -/
def exProtoLong : Proto :=
  { headByteSize := fun _ => 200, headBytes := fun _ => some (List.replicate 200 1),
    errorInfo := fun _ _ => { byteSize := 4, bytes := some [1, 2, 3, 4] } }

/-! ## Timers, debug information and log frames -/

/-- The call `mSession->terminateMessage(sn, code, reason)` with the session it
is made on. -/
structure TerminateCall where
  session : Nat
  sn : Nat
  code : Int
  reason : String
  deriving DecidableEq

/-- The firing callback `CMessageTimer::run()`: the call it makes on
`mSession` (`none` for a null `mSession`, where the C++ call is undefined). -/
def CMessageTimer.run (K : Consts) (t : CMessageTimer) : Option TerminateCall :=
  match t.mSession with
  | some s =>
    some { session := s, sn := t.mMsgSn, code := K.FDB_ST_TIMEOUT,
           reason := "Message is destroyed due to timeout." }
  | none => none

/-- Is the event the call `mTimer->attach(context)`. -/
def Event.isTimerAttach : Event → Bool
  | .timerAttach _ => true
  | _ => false

namespace CFdbMessage

/-- Virtual `decodeDebugInfo(msg_hdr, session)`: `CFdbDebugMsg::decodeDebugInfo`
for a debug message, the empty base version otherwise. -/
def decodeDebugInfo (ctx : CFdbContext) (m : CFdbMessage) (msg_hdr : FdbMessageHeader) :
    CFdbMessage :=
  if m.isDebugMsg then
    if msg_hdr.type = MT_REPLY ∨ msg_hdr.type = MT_STATUS then
      let m1 := match msg_hdr.send_or_arrive_time with
        | some t => { m with mArriveTime := t }
        | none => m
      let m2 := match msg_hdr.reply_time with
        | some t => { m1 with mReplyTime := t }
        | none => m1
      { m2 with mReceiveTime := ctx.getNanoSecTimer }
    else if msg_hdr.type = MT_REQUEST ∨ msg_hdr.type = MT_SUBSCRIBE_REQ
        ∨ msg_hdr.type = MT_BROADCAST then
      let m1 := { m with mArriveTime := ctx.getNanoSecTimer }
      match msg_hdr.send_or_arrive_time with
      | some t => { m1 with mSendTime := t }
      | none => m1
    else m
  else m

/-- Member `parseFdbLog(buffer, size)`; `none` is the null pointer.
`deserializePb` is the parser of the missing header, called with the buffer, the
offset of the header in it and its length (`none` when it fails); `sid` is the
value of `session()`; `raw` is the storage `new` hands to the constructor. -/
def parseFdbLog (K : Consts) (deserializePb : Buffer → Int → Int → Option FdbMessageHeader)
    (raw : CFdbMessage) (buffer : Option Buffer) (size : Int) (sid : Nat) :
    Option CFdbMessage :=
  match buffer with
  | none => none
  | some b =>
    if size = 0 then none
    else
      let pfx := CFdbMsgPrefix.deserialize b 0
      match deserializePb b mPrefixSize pfx.mHeadLength with
      | none => none
      | some head =>
        let payload_size := toInt32 head.payload_size
        let extra_size :=
          toInt32 (pfx.mTotalLength - mPrefixSize - pfx.mHeadLength - payload_size)
        if extra_size < 0 then
          let payload_size1 := toInt32 (payload_size + extra_size)
          if payload_size1 < 0 then none
          else
            some (newDecoded K raw { head with payload_size := toUInt32 payload_size1 } pfx
              (some b) sid)
        else some (newDecoded K raw head pfx (some b) sid)

/-- The dispatcher as the specification words it: by type, a SubscribeRequest
with code Subscribe, Update or Unsubscribe and a SidebandRequest are treated as a
Request, a Status and a SidebandReply as a Reply, and a type Unknown or a
SubscribeRequest with another code is dropped. -/
def run_spec (K : Consts) (P : Proto) (O : ObjectTable) (ctx : CFdbContext) (m : CFdbMessage) :
    CFdbMessage × List Event :=
  if m.mType = MT_SUBSCRIBE_REQ then
    if m.mCode = K.FDB_CODE_SUBSCRIBE ∨ m.mCode = K.FDB_CODE_UPDATE
        ∨ m.mCode = K.FDB_CODE_UNSUBSCRIBE then doRequest K P ctx m
    else (m, [])
  else if m.mType = MT_REQUEST ∨ m.mType = MT_SIDEBAND_REQUEST then doRequest K P ctx m
  else if m.mType = MT_REPLY ∨ m.mType = MT_SIDEBAND_REPLY ∨ m.mType = MT_STATUS then
    doReply K ctx m
  else if m.mType = MT_BROADCAST then doBroadcast K O ctx m
  else (m, [])

end CFdbMessage

/-! ## Concrete values for the later claims -/

/-- A request with a timer of 500 ms, serial 9, addressed to session 7. -/
def exTimed : CFdbMessage :=
  { exRaw with mType := MT_REQUEST, mSid := 7, mSn := 9,
               mTimer := some (CMessageTimer.new exConsts 500) }

/-- An endpoint whose preferred peer is session 7. -/
def exEndpoint : CBaseEndpoint := { epid := 3, preferredPeer := some exSession }

/-- A context like `exCtx` that knows the endpoint 3. -/
def exCtxEndpoint : CFdbContext :=
  { exCtx with getEndpoint := fun epid => if epid = 3 then some exEndpoint else none }

/-- A message routed by endpoint 3. -/
def exByEndpoint : CFdbMessage :=
  { exRaw with mType := MT_REQUEST, mEpid := 3, mSid := 55,
               mFlag := exConsts.MSG_FLAG_ENDPOINT }

/-- A debug message that arrived at time 400. -/
def exDebugMsg : CFdbMessage :=
  { CFdbDebugMsg.new exConsts exRaw 100 0 with mArriveTime := 400 }

/-- A header parser that finds a header with the payload size read from the
byte after the header bytes. -/
def exDeserializePb : Buffer → Int → Int → Option FdbMessageHeader :=
  fun b off len => some { exHeader with payload_size := (b (off + len) : Int) }

/-- A log frame with prefix (48, 20) whose header gives a payload of 200 bytes,
more than the frame holds. -/
def exLogFrame : Buffer :=
  Buffer.write
    (CFdbMsgPrefix.serialize { mTotalLength := 48, mHeadLength := 20 } (fun _ => 0) 0) 28 200

/-- Log data that starts with the prefix (28, 20): a frame without payload. -/
def exLogDataEmpty : Buffer :=
  CFdbMsgPrefix.serialize { mTotalLength := 28, mHeadLength := 20 } (fun _ => 0) 0

/-- A context like `exCtx` whose enqueue `sendAsyncEndeavor` fails. -/
def exCtxBusy : CFdbContext := { exCtx with sendAsyncEndeavor := fun _ => false }

/-! ## Lemmas on flag words -/

theorem hasFlag_bit (f k : Nat) : hasFlag f (1 <<< k) = f.testBit k := by
  unfold hasFlag
  rw [Nat.one_shiftLeft]
  cases hk : f.testBit k
  · have hz : f &&& 2 ^ k = 0 := by
      apply Nat.eq_of_testBit_eq
      intro i
      rw [Nat.testBit_and, Nat.testBit_two_pow, Nat.zero_testBit]
      by_cases hki : k = i
      · subst hki; simp [hk]
      · simp [hki]
    simp [hz]
  · have hz : f &&& 2 ^ k ≠ 0 := by
      intro hc
      have hb := congrArg (fun x => Nat.testBit x k) hc
      simp [Nat.testBit_and, Nat.testBit_two_pow, hk] at hb
    simpa using hz

theorem testBit_setFlag (f g j : Nat) :
    (setFlag f g).testBit j = (f.testBit j || g.testBit j) := by
  unfold setFlag; rw [Nat.testBit_or]

theorem testBit_bit (k j : Nat) : (1 <<< k).testBit j = decide (k = j) := by
  rw [Nat.one_shiftLeft, Nat.testBit_two_pow]

theorem testBit_clearFlag (f g j : Nat) :
    (clearFlag f g).testBit j = (f.testBit j && (decide (j < 32) ^^ g.testBit j)) := by
  unfold clearFlag
  rw [Nat.testBit_and, Nat.testBit_xor]
  have h32 : (4294967295 : Nat) = 2 ^ 32 - 1 := by norm_num
  rw [h32, Nat.testBit_two_pow_sub_one]

theorem Flag.mem_all (f : Flag) : f ∈ Flag.all := by
  cases f <;> simp [Flag.all]

theorem Consts.wf.bit_inj {K : Consts} (h : K.wf) : Function.Injective K.bit := by
  intro a b hab
  exact List.inj_on_of_nodup_map h.1 (Flag.mem_all a) (Flag.mem_all b) hab

theorem Consts.wf.bit_eq_iff {K : Consts} (h : K.wf) (a b : Flag) :
    K.bit a = K.bit b ↔ a = b :=
  h.bit_inj.eq_iff

theorem Consts.wf.bit_lt {K : Consts} (h : K.wf) (f : Flag) : K.bit f < 32 :=
  h.2.1 f (Flag.mem_all f)

theorem Consts.wf.global_testBit {K : Consts} (h : K.wf) (f : Flag) :
    K.MSG_GLOBAL_FLAG_MASK.testBit (K.bit f) = f.isGlobal :=
  h.2.2.1 f (Flag.mem_all f)

theorem Consts.wf.encoding_testBit {K : Consts} (h : K.wf) (f : Flag) :
    K.MSG_FLAG_ENCODING_MASK.testBit (K.bit f) = false :=
  h.2.2.2.1 f (Flag.mem_all f)

/-- Setting one flag: the test of any flag afterwards. -/
theorem hasFlag_setFlag_bit {K : Consts} (h : K.wf) (f : Nat) (a b : Flag) :
    hasFlag (setFlag f (1 <<< K.bit a)) (1 <<< K.bit b)
      = (hasFlag f (1 <<< K.bit b) || decide (a = b)) := by
  simp only [hasFlag_bit, testBit_setFlag, testBit_bit, h.bit_eq_iff]

/-- Clearing one flag: the test of any flag afterwards. -/
theorem hasFlag_clearFlag_bit {K : Consts} (h : K.wf) (f : Nat) (a b : Flag) :
    hasFlag (clearFlag f (1 <<< K.bit a)) (1 <<< K.bit b)
      = (hasFlag f (1 <<< K.bit b) && !decide (a = b)) := by
  simp only [hasFlag_bit, testBit_clearFlag, testBit_bit, h.bit_eq_iff, h.bit_lt,
    decide_True, Bool.true_xor]

/-! ## Lemmas on the operations -/

open CFdbMessage

theorem releaseBuffer_mFlag (K : Consts) (m : CFdbMessage) :
    (releaseBuffer K m).mFlag = m.mFlag := by
  unfold releaseBuffer freeRawBuffer
  split <;> split <;> rfl

theorem releaseBuffer_mType (K : Consts) (m : CFdbMessage) :
    (releaseBuffer K m).mType = m.mType := by
  unfold releaseBuffer freeRawBuffer
  split <;> split <;> rfl

theorem releaseBuffer_mExtraSize (K : Consts) (m : CFdbMessage) :
    (releaseBuffer K m).mExtraSize = m.mExtraSize := by
  unfold releaseBuffer freeRawBuffer
  split <;> split <;> rfl

/-- After `releaseBuffer` the buffer pointer is null. -/
theorem releaseBuffer_mBuffer (K : Consts) (m : CFdbMessage) :
    (releaseBuffer K m).mBuffer = none := by
  unfold releaseBuffer freeRawBuffer
  split <;> split <;> simp_all

theorem serialize_none_mFlag (K : Consts) (ctx : CFdbContext) (m : CFdbMessage)
    (data : CFdbBasePayload) :
    (serialize K ctx m data none).2.mFlag = clearFlag m.mFlag K.MSG_FLAG_EXTERNAL_BUFFER
    ∧ (serialize K ctx m data none).2.mType = m.mType := by
  unfold serialize
  simp only [releaseBuffer_mFlag, releaseBuffer_mType]
  split
  · simp
  · cases data.bytes with
    | none => simp
    | some bytes =>
      simp only [setLogDataPtr]
      split
      · split
        · split <;> simp
        · simp
      · simp

/-- What `send()` does: a Request with `NoReplyExpected` handed to `sendAsync`. -/
theorem send_eq (K : Consts) (ctx : CFdbContext) (m : CFdbMessage) :
    send K ctx m =
      (ctx.sendAsync { m with mType := MT_REQUEST,
                              mFlag := setFlag m.mFlag K.MSG_FLAG_NOREPLY_EXPECTED },
       { m with mType := MT_REQUEST, mFlag := setFlag m.mFlag K.MSG_FLAG_NOREPLY_EXPECTED },
       [Event.ctxSendAsync { m with mType := MT_REQUEST,
                                    mFlag := setFlag m.mFlag K.MSG_FLAG_NOREPLY_EXPECTED }]) := by
  have h1 : hasFlag FDB_MSG_TX_NO_REPLY FDB_MSG_TX_SYNC = false := by decide
  have h2 : hasFlag FDB_MSG_TX_NO_REPLY FDB_MSG_TX_NO_REPLY = true := by decide
  simp [send, invoke, submit, h1, h2]

/-- The flag word and the type `setErrorMsg` leaves. -/
theorem setErrorMsg_mFlag (K : Consts) (P : Proto) (ctx : CFdbContext) (m : CFdbMessage)
    (type : Nat) (c : Int) (d : Option String) :
    (setErrorMsg K P ctx m type c d).mFlag
        = clearFlag (setFlag
            (if c < K.FDB_ST_AUTO_REPLY_OK ∨ c > K.FDB_ST_OK
              then setFlag m.mFlag K.MSG_FLAG_ERROR else m.mFlag)
            (K.MSG_FLAG_STATUS ||| K.MSG_FLAG_REPLIED)) K.MSG_FLAG_EXTERNAL_BUFFER
    ∧ (setErrorMsg K P ctx m type c d).mType = (if type ≠ MT_UNKNOWN then type else m.mType) := by
  unfold setErrorMsg
  rw [(serialize_none_mFlag K ctx _ (P.errorInfo c d)).1,
    (serialize_none_mFlag K ctx _ (P.errorInfo c d)).2]
  constructor
  · split <;> split <;> rfl
  · split <;> split <;> rfl

/-- Flags after setting Status and Replied and clearing ExternalBuffer. -/
theorem hasFlag_status_word (K : Consts) (hK : K.wf) (f : Nat) (a : Flag) :
    hasFlag
      (clearFlag (setFlag f (1 <<< K.bit .Status ||| 1 <<< K.bit .Replied))
        (1 <<< K.bit .ExternalBuffer))
      (1 <<< K.bit a)
      = ((hasFlag f (1 <<< K.bit a) || decide (a = .Status) || decide (a = .Replied))
          && !decide (a = .ExternalBuffer)) := by
  simp only [hasFlag_bit, testBit_clearFlag, testBit_setFlag, testBit_bit, Nat.testBit_or,
    hK.bit_eq_iff, hK.bit_lt, decide_True, Bool.true_xor]
  cases f.testBit (K.bit a) <;> cases a <;> simp

/-- The raw-buffer `serialize` without an object: it returns, with true and with
ExternalBuffer set, when the allocation size is not negative and the copy length
is not negative; it does not return when the allocation size is negative. -/
theorem serializeRaw_spec (K : Consts) (ctx : CFdbContext) (m : CFdbMessage)
    (buffer : Option (List Nat)) (size : Int) :
    (0 ≤ toInt32 (K.maxReservedSize + size + m.mExtraSize) → (buffer = none ∨ 0 ≤ size) →
      ∃ m1 : CFdbMessage, serializeRaw K ctx m buffer size none = some (true, m1)
        ∧ m1.mFlag = setFlag m.mFlag K.MSG_FLAG_EXTERNAL_BUFFER)
    ∧ (toInt32 (K.maxReservedSize + size + m.mExtraSize) < 0 →
      serializeRaw K ctx m buffer size none = none) := by
  unfold serializeRaw allocCopyRawBuffer
  simp only [releaseBuffer_mFlag, releaseBuffer_mExtraSize]
  refine ⟨?_, ?_⟩
  · intro h0 hs
    rw [if_neg (by omega)]
    cases buffer with
    | none => exact ⟨_, rfl, rfl⟩
    | some bytes =>
      have h1 : 0 ≤ size := by
        rcases hs with h | h
        · cases h
        · exact h
      simp only
      rw [if_neg (by omega)]
      exact ⟨_, rfl, rfl⟩
  · intro h0
    rw [if_pos h0]

/-- When `serialize` without an object returns true: the payload serializes and
the allocation size is not negative. -/
theorem serialize_none_fst (K : Consts) (ctx : CFdbContext) (m : CFdbMessage)
    (data : CFdbBasePayload) :
    (serialize K ctx m data none).1 = true
      ↔ (data.bytes ≠ none
          ∧ 0 ≤ toInt32 (K.maxReservedSize + toInt32 data.byteSize + m.mExtraSize)) := by
  unfold serialize
  simp only [releaseBuffer_mExtraSize]
  by_cases hneg : toInt32 (K.maxReservedSize + toInt32 data.byteSize + m.mExtraSize) < 0
  · rw [if_pos hneg]
    constructor
    · intro h; cases h
    · intro h; omega
  · rw [if_neg hneg]
    cases hb : data.bytes with
    | none => simp
    | some bytes =>
      have hge : 0 ≤ toInt32 (K.maxReservedSize + toInt32 data.byteSize + m.mExtraSize) := by
        omega
      simp only [ne_eq, reduceCtorEq, not_false_eq_true, hge, and_self, iff_true]
      split
      · split
        · split <;> rfl
        · rfl
      · rfl

theorem hasFlag_replied_after_set (K : Consts) (f e : Nat) :
    hasFlag (setFlag f (K.MSG_FLAG_REPLIED ||| e)) K.MSG_FLAG_REPLIED = true := by
  simp [Consts.MSG_FLAG_REPLIED, hasFlag_bit, testBit_setFlag, testBit_bit, Nat.testBit_or]

theorem hasFlag_replied_after_clear (K : Consts) (hK : K.wf) (f : Nat) :
    hasFlag (clearFlag f K.MSG_FLAG_REPLIED) K.MSG_FLAG_REPLIED = false := by
  simp [Consts.MSG_FLAG_REPLIED, hasFlag_clearFlag_bit hK]

/-- The outcome of `feedback` on a message that expects a reply and whose
payload serializes. -/
theorem feedback_enqueues (K : Consts) (hK : K.wf) (ctx : CFdbContext) (m : CFdbMessage)
    (data : CFdbBasePayload) (type : Nat)
    (hno : hasFlag m.mFlag K.MSG_FLAG_NOREPLY_EXPECTED = false)
    (hs : (serialize K ctx m data none).1 = true) :
    ∃ x : CFdbMessage,
      (feedback K ctx m data type).2.2 = [Event.ctxSendAsyncEndeavor x]
      ∧ (feedback K ctx m data type).1 = ctx.sendAsyncEndeavor x
      ∧ x.mType = type ∧ hasFlag x.mFlag K.MSG_FLAG_REPLIED = true
      ∧ (feedback K ctx m data type).2.1.mType = type
      ∧ hasFlag (feedback K ctx m data type).2.1.mFlag K.MSG_FLAG_REPLIED
          = (feedback K ctx m data type).1 := by
  have hok := hs
  clear hs
  unfold feedback
  simp only [hno, Bool.false_eq_true, if_false]
  generalize serialize K ctx m data none = r at hok
  obtain ⟨ok, m1⟩ := r
  simp only at hok
  subst hok
  simp only [Bool.not_true, Bool.false_eq_true, if_false]
  refine ⟨{ m1 with
    mType := type,
    mFlag := setFlag (clearFlag m1.mFlag K.MSG_FLAG_ENCODING_MASK)
              (K.MSG_FLAG_REPLIED ||| K.MSG_FLAG_ENC_PROTOBUF) }, ?_⟩
  cases hs : ctx.sendAsyncEndeavor { m1 with
      mType := type,
      mFlag := setFlag (clearFlag m1.mFlag K.MSG_FLAG_ENCODING_MASK)
                (K.MSG_FLAG_REPLIED ||| K.MSG_FLAG_ENC_PROTOBUF) }
  · simp [hasFlag_replied_after_set, hasFlag_replied_after_clear K hK]
  · simp [hasFlag_replied_after_set]

/-- The outcome of the raw-buffer `reply` on a message that expects a reply,
when `serialize(buffer, size)` returns. -/
theorem replyRaw_enqueues (K : Consts) (hK : K.wf) (ctx : CFdbContext) (m : CFdbMessage)
    (buffer : Option (List Nat)) (size : Int) (enc : Nat) (log_data : Option String)
    (hno : hasFlag m.mFlag K.MSG_FLAG_NOREPLY_EXPECTED = false)
    (halloc : 0 ≤ toInt32 (K.maxReservedSize + size + m.mExtraSize))
    (hsize : buffer = none ∨ 0 ≤ size) :
    ∃ (x : CFdbMessage) (r : Bool × CFdbMessage × List Event),
      replyRaw K ctx m buffer size enc log_data = some r
      ∧ r.2.2 = [Event.ctxSendAsyncEndeavor x]
      ∧ r.1 = ctx.sendAsyncEndeavor x
      ∧ x.mType = MT_REPLY ∧ hasFlag x.mFlag K.MSG_FLAG_REPLIED = true
      ∧ r.2.1.mType = MT_REPLY
      ∧ hasFlag r.2.1.mFlag K.MSG_FLAG_REPLIED = r.1 := by
  obtain ⟨m1, hser, _⟩ := (serializeRaw_spec K ctx m buffer size).1 halloc hsize
  unfold replyRaw
  simp only [hno, Bool.false_eq_true, if_false, hser, Bool.not_true]
  refine ⟨{ setLogData K m1 log_data with
    mType := MT_REPLY,
    mFlag := setFlag (clearFlag (setLogData K m1 log_data).mFlag K.MSG_FLAG_ENCODING_MASK)
              (K.MSG_FLAG_REPLIED
                ||| ((enc <<< K.MSG_FLAG_ENCODING) &&& K.MSG_FLAG_ENCODING_MASK)) }, ?_⟩
  cases hs : ctx.sendAsyncEndeavor { setLogData K m1 log_data with
      mType := MT_REPLY,
      mFlag := setFlag (clearFlag (setLogData K m1 log_data).mFlag K.MSG_FLAG_ENCODING_MASK)
                (K.MSG_FLAG_REPLIED
                  ||| ((enc <<< K.MSG_FLAG_ENCODING) &&& K.MSG_FLAG_ENCODING_MASK)) }
  · simp only [Bool.not_false, if_true]
    refine ⟨_, rfl, ?_⟩
    simp [hasFlag_replied_after_set, hasFlag_replied_after_clear K hK]
  · simp only [Bool.not_true, Bool.false_eq_true, if_false]
    refine ⟨_, rfl, ?_⟩
    simp [hasFlag_replied_after_set]

/-- The guard `(mFlag & (AUTO_REPLY | REPLIED)) == AUTO_REPLY`. -/
theorem autoReply_guard (K : Consts) (hK : K.wf) (f : Nat) :
    f &&& (K.MSG_FLAG_AUTO_REPLY ||| K.MSG_FLAG_REPLIED) = K.MSG_FLAG_AUTO_REPLY
      ↔ (hasFlag f K.MSG_FLAG_AUTO_REPLY = true ∧ hasFlag f K.MSG_FLAG_REPLIED = false) := by
  have hne : K.bit .AutoReply ≠ K.bit .Replied := by simp [hK.bit_eq_iff]
  simp only [Consts.MSG_FLAG_AUTO_REPLY, Consts.MSG_FLAG_REPLIED, hasFlag_bit]
  constructor
  · intro h
    have ha := congrArg (fun x => Nat.testBit x (K.bit .AutoReply)) h
    have hr := congrArg (fun x => Nat.testBit x (K.bit .Replied)) h
    simp only [Nat.testBit_and, Nat.testBit_or, testBit_bit, hK.bit_eq_iff] at ha hr
    simp at ha hr
    exact ⟨ha, by simpa using hr⟩
  · rintro ⟨ha, hr⟩
    apply Nat.eq_of_testBit_eq
    intro i
    simp only [Nat.testBit_and, Nat.testBit_or, testBit_bit]
    by_cases h1 : K.bit .AutoReply = i
    · subst h1; simp [ha]
    · by_cases h2 : K.bit .Replied = i
      · subst h2; simp [hr, hne]
      · simp [h1, h2]

/-- The message `setErrorMsg` builds for a status: type Status, with the Status
and Replied flags. -/
theorem setErrorMsg_status (K : Consts) (hK : K.wf) (P : Proto) (ctx : CFdbContext)
    (m : CFdbMessage) (c : Int) (d : Option String) :
    (setErrorMsg K P ctx m MT_STATUS c d).mType = MT_STATUS
    ∧ hasFlag (setErrorMsg K P ctx m MT_STATUS c d).mFlag K.MSG_FLAG_STATUS = true
    ∧ hasFlag (setErrorMsg K P ctx m MT_STATUS c d).mFlag K.MSG_FLAG_REPLIED = true := by
  obtain ⟨hf, ht⟩ := setErrorMsg_mFlag K P ctx m MT_STATUS c d
  refine ⟨?_, ?_, ?_⟩
  · rw [ht]; rfl
  · rw [hf]; simp only [Consts.MSG_FLAG_STATUS, Consts.MSG_FLAG_REPLIED, Consts.MSG_FLAG_EXTERNAL_BUFFER]
    rw [hasFlag_status_word K hK]; simp
  · rw [hf]; simp only [Consts.MSG_FLAG_STATUS, Consts.MSG_FLAG_REPLIED, Consts.MSG_FLAG_EXTERNAL_BUFFER]
    rw [hasFlag_status_word K hK]; simp

theorem sendStatus_emits (K : Consts) (hK : K.wf) (P : Proto) (ctx : CFdbContext)
    (m : CFdbMessage) (s : CFdbSession) (c : Int) (d : Option String)
    (hno : hasFlag m.mFlag K.MSG_FLAG_NOREPLY_EXPECTED = false) :
    (∃ e, (sendStatus K P ctx m s c d).2 = [e] ∧ e.isStatusEmission K)
    ∧ (SessionKeepsReplied K s →
        hasFlag (sendStatus K P ctx m s c d).1.mFlag K.MSG_FLAG_REPLIED = true) := by
  have h := setErrorMsg_status K hK P ctx m c d
  simp only [sendStatus, hno, Bool.not_false, if_true]
  exact ⟨⟨_, rfl, _, rfl, h.1, h.2.1⟩, fun hk => hk _ h.2.2⟩

theorem sendStatus_noReply (K : Consts) (P : Proto) (ctx : CFdbContext)
    (m : CFdbMessage) (s : CFdbSession) (c : Int) (d : Option String)
    (hno : hasFlag m.mFlag K.MSG_FLAG_NOREPLY_EXPECTED = true) :
    sendStatus K P ctx m s c d = (m, []) := by
  simp [sendStatus, hno]

/-- One call of the auto-reply family either does nothing or makes one Status
emission and leaves the Replied flag set; on a replied message it does nothing. -/
theorem autoReplyCall_run_cases (K : Consts) (hK : K.wf) (P : Proto) (ctx : CFdbContext)
    (m : CFdbMessage) (call : AutoReplyCall)
    (hkeep : ∀ s, call.session? = some s → SessionKeepsReplied K s) :
    (hasFlag m.mFlag K.MSG_FLAG_REPLIED = true → call.run K P ctx m = (m, []))
    ∧ (call.run K P ctx m = (m, [])
      ∨ ((∃ e, (call.run K P ctx m).2 = [e] ∧ e.isStatusEmission K)
          ∧ hasFlag (call.run K P ctx m).1.mFlag K.MSG_FLAG_REPLIED = true)) := by
  have hg := autoReply_guard K hK m.mFlag
  cases call with
  | autoReplySession uc s c d =>
    simp only [AutoReplyCall.run, CFdbMessage.autoReplySession, hg]
    constructor
    · intro hr; simp [hr]
    · split
      · rename_i hcond
        have hno : hasFlag m.mFlag K.MSG_FLAG_NOREPLY_EXPECTED = false := by simpa using hcond.2.1
        have h := sendStatus_emits K hK P ctx m s c d hno
        exact Or.inr ⟨h.1, h.2 (hkeep s rfl)⟩
      · exact Or.inl rfl
  | autoReply uc c d =>
    simp only [AutoReplyCall.run, CFdbMessage.autoReply, hg]
    constructor
    · intro hr; simp [hr]
    · split
      · have h := setErrorMsg_status K hK P ctx m c d
        exact Or.inr ⟨⟨_, rfl, _, rfl, h.1, h.2.1⟩, h.2.2⟩
      · exact Or.inl rfl
  | sendAutoReply s c d =>
    simp only [AutoReplyCall.run, CFdbMessage.sendAutoReply, hg]
    constructor
    · intro hr; simp [hr]
    · split
      · cases hno : hasFlag m.mFlag K.MSG_FLAG_NOREPLY_EXPECTED
        · have h := sendStatus_emits K hK P ctx m s c d hno
          exact Or.inr ⟨h.1, h.2 (hkeep s rfl)⟩
        · exact Or.inl (sendStatus_noReply K P ctx m s c d hno)
      · exact Or.inl rfl

theorem runAutoReplyCalls_replied (K : Consts) (hK : K.wf) (P : Proto) (ctx : CFdbContext)
    (calls : List AutoReplyCall) :
    ∀ m : CFdbMessage,
      (∀ call ∈ calls, ∀ s, call.session? = some s → SessionKeepsReplied K s) →
      hasFlag m.mFlag K.MSG_FLAG_REPLIED = true →
      runAutoReplyCalls K P ctx m calls = (m, []) := by
  induction calls with
  | nil => intro m _ _; rfl
  | cons call rest ih =>
    intro m hkeep hr
    have h1 := (autoReplyCall_run_cases K hK P ctx m call
      (hkeep call (List.mem_cons_self _ _))).1 hr
    simp only [runAutoReplyCalls, h1]
    rw [ih m (fun c hc => hkeep c (List.mem_cons_of_mem _ hc)) hr]
    rfl

theorem runAutoReplyCalls_once (K : Consts) (hK : K.wf) (P : Proto) (ctx : CFdbContext)
    (calls : List AutoReplyCall) :
    ∀ m : CFdbMessage,
      (∀ call ∈ calls, ∀ s, call.session? = some s → SessionKeepsReplied K s) →
      (runAutoReplyCalls K P ctx m calls).2.length ≤ 1
      ∧ ∀ e ∈ (runAutoReplyCalls K P ctx m calls).2, e.isStatusEmission K := by
  induction calls with
  | nil => intro m _; simp [runAutoReplyCalls]
  | cons call rest ih =>
    intro m hkeep
    have hrest := fun c hc => hkeep c (List.mem_cons_of_mem call hc)
    rcases (autoReplyCall_run_cases K hK P ctx m call
      (hkeep call (List.mem_cons_self _ _))).2 with h1 | ⟨⟨e, he, hst⟩, hrep⟩
    · simp only [runAutoReplyCalls, h1, List.nil_append]
      exact ih m hrest
    · have h2 := runAutoReplyCalls_replied K hK P ctx rest _ hrest hrep
      simp only [runAutoReplyCalls, h2, he, List.append_nil]
      constructor
      · simp
      · intro e' he'
        simp only [List.mem_singleton] at he'
        subst he'; exact hst

theorem exSession_keeps : SessionKeepsReplied exConsts exSession := fun _ h => h

theorem toUInt32_range (x : Int) : 0 ≤ toUInt32 x ∧ toUInt32 x < 4294967296 := by
  unfold toUInt32; omega

theorem toInt32_toUInt32 (x : Int) (h1 : -2147483648 ≤ x) (h2 : x < 2147483648) :
    toInt32 (toUInt32 x) = x := by
  unfold toInt32 toUInt32; omega

theorem toInt32_of_range (x : Int) (h1 : -2147483648 ≤ x) (h2 : x < 2147483648) :
    toInt32 x = x := by
  unfold toInt32; omega

theorem toInt32_sub_toInt32 (a b : Int) : toInt32 (a - toInt32 b) = toInt32 (a - b) := by
  unfold toInt32; omega

theorem writeBytes_outside (l : List Nat) :
    ∀ (b : Buffer) (addr x : Int), (x < addr ∨ addr + l.length ≤ x) →
      (b.writeBytes addr l) x = b x := by
  induction l with
  | nil => intro b addr x _; rfl
  | cons v vs ih =>
    intro b addr x hx
    simp only [Buffer.writeBytes, List.length_cons, Nat.cast_add, Nat.cast_one] at hx ⊢
    rw [ih (b.write addr v) (addr + 1) x (by omega)]
    unfold Buffer.write
    rw [if_neg (by omega)]

theorem writeBytes_inside (l : List Nat) :
    ∀ (b : Buffer) (addr : Int) (i : Nat) (v : Nat), l[i]? = some v →
      (b.writeBytes addr l) (addr + i) = v := by
  induction l with
  | nil => intro b addr i v h; simp at h
  | cons w ws ih =>
    intro b addr i v h
    cases i with
    | zero =>
      simp only [List.getElem?_cons_zero, Option.some.injEq] at h
      simp only [Buffer.writeBytes, Nat.cast_zero, add_zero]
      rw [writeBytes_outside ws _ _ _ (by omega)]
      simp [Buffer.write, h]
    | succ k =>
      simp only [List.getElem?_cons_succ] at h
      simp only [Buffer.writeBytes]
      have := ih (b.write addr w) (addr + 1) k v h
      have e : addr + ((k + 1 : Nat) : Int) = addr + 1 + (k : Int) := by push_cast; ring
      rw [e]; exact this

/-- Reading back a `u32` written most significant byte first. -/
theorem readU32_writeBytes (b : Buffer) (addr : Int) (pre : List Nat) (v : Int)
    (post : List Nat) :
    readU32 (b.writeBytes addr (pre ++ u32Bytes v ++ post)) (addr + pre.length) = toUInt32 v := by
  have hr := toUInt32_range v
  have hget : ∀ (k : Nat) (w : Nat), (u32Bytes v)[k]? = some w →
      (b.writeBytes addr (pre ++ u32Bytes v ++ post)) (addr + pre.length + k) = w := by
    intro k w hk
    have e : addr + (pre.length : Int) + (k : Int) = addr + ((pre.length + k : Nat) : Int) := by
      push_cast; ring
    rw [e]
    apply writeBytes_inside
    have hlen : k < (u32Bytes v).length := by
      by_contra hc
      rw [List.getElem?_eq_none (by omega)] at hk
      cases hk
    rw [List.append_assoc, List.getElem?_append_right (by omega)]
    simp only [Nat.add_sub_cancel_left]
    rw [List.getElem?_append_left hlen]
    exact hk
  have h0 := hget 0 ((toUInt32 v).toNat / 16777216 % 256) rfl
  have h1 := hget 1 ((toUInt32 v).toNat / 65536 % 256) rfl
  have h2 := hget 2 ((toUInt32 v).toNat / 256 % 256) rfl
  have h3 := hget 3 ((toUInt32 v).toNat % 256) rfl
  simp only [Nat.cast_zero, add_zero, Nat.cast_one, Nat.cast_ofNat] at h0 h1 h2 h3
  unfold readU32
  rw [h0, h1, h2, h3]
  generalize toUInt32 v = u at hr
  omega

/-- Reading back a prefix written by `serialize`. -/
theorem CFdbMsgPrefix.deserialize_serialize (p : CFdbMsgPrefix) (b : Buffer) (addr : Int) :
    CFdbMsgPrefix.deserialize (p.serialize b addr) addr
      = { mTotalLength := toUInt32 p.mTotalLength, mHeadLength := toUInt32 p.mHeadLength } := by
  unfold CFdbMsgPrefix.deserialize CFdbMsgPrefix.serialize
  have h1 := readU32_writeBytes b addr [] p.mTotalLength (u32Bytes p.mHeadLength)
  have h2 := readU32_writeBytes b addr (u32Bytes p.mTotalLength) p.mHeadLength []
  simp only [List.nil_append, List.length_nil, Nat.cast_zero, add_zero, List.append_nil] at h1 h2
  have hl : ((u32Bytes p.mTotalLength).length : Int) = 4 := by simp [u32Bytes]
  rw [hl] at h2
  rw [h1, h2]

/-- Writing a prefix changes the eight bytes at its address only. -/
theorem serialize_outside (p : CFdbMsgPrefix) (b : Buffer) (addr x : Int)
    (hx : x < addr ∨ addr + 8 ≤ x) : (p.serialize b addr) x = b x := by
  unfold CFdbMsgPrefix.serialize
  apply writeBytes_outside
  have hl : (u32Bytes p.mTotalLength ++ u32Bytes p.mHeadLength).length = 8 := by
    simp [u32Bytes]
  rw [hl]
  exact hx

/-- The header `buildHeader` fills in, field by field, and what filling it in
does to the message (a debug message gets its send time stamped). -/
theorem buildHeader_msg_hdr_spec (K : Consts) (ctx : CFdbContext) (m : CFdbMessage)
    (session : CFdbSession) :
    let r := buildHeader_msg_hdr K ctx m session
    r.2.type = m.mType ∧ r.2.serial_number = m.mSn ∧ r.2.code = m.mCode
    ∧ r.2.flag = m.mFlag &&& K.MSG_GLOBAL_FLAG_MASK ∧ r.2.object_id = m.mOid
    ∧ r.2.payload_size = toUInt32 m.mPayloadSize
    ∧ r.2.sender_name
        = some (if m.mSenderName.isEmpty then session.getEndpointName else m.mSenderName)
    ∧ (r.1 = m ∨ r.1 = { m with mSendTime := ctx.getNanoSecTimer }) := by
  simp only [buildHeader_msg_hdr, encodeDebugInfo, getFilter]
  split_ifs <;> simp_all <;> (try split_ifs) <;> simp_all

/-- What a fresh, successful `buildHeader` leaves: the head size is the encoded
size, the offset is the start of the prefix, `HeadOk` is set, the sizes of
payload and extra data are kept, and a non-null buffer ends with the prefix
written at the offset. -/
theorem buildHeader_fresh (K : Consts) (P : Proto) (ctx : CFdbContext) (m : CFdbMessage)
    (session : CFdbSession)
    (hhead : hasFlag m.mFlag K.MSG_FLAG_HEAD_OK = false)
    (hok : (buildHeader K P ctx m session).1 = true) :
    (buildHeader K P ctx m session).2.mHeadSize
        = toInt32 (P.headByteSize (buildHeader_msg_hdr K ctx m session).2)
    ∧ (buildHeader K P ctx m session).2.mHeadSize ≤ K.mMaxHeadSize
    ∧ (buildHeader K P ctx m session).2.mOffset
        = K.maxReservedSize - (buildHeader K P ctx m session).2.mHeadSize - mPrefixSize
    ∧ (buildHeader K P ctx m session).2.mPayloadSize = m.mPayloadSize
    ∧ (buildHeader K P ctx m session).2.mExtraSize = m.mExtraSize
    ∧ (buildHeader K P ctx m session).2.mFlag = setFlag m.mFlag K.MSG_FLAG_HEAD_OK
    ∧ (∀ buf, m.mBuffer = some buf → ∃ buf0,
        (buildHeader K P ctx m session).2.mBuffer
          = some ((buildHeader_msgPrefix (buildHeader K P ctx m session).2).serialize buf0
              (buildHeader K P ctx m session).2.mOffset)) := by
  have hspec := (buildHeader_msg_hdr_spec K ctx m session).2.2.2.2.2.2.2
  revert hok
  unfold buildHeader
  simp only [hhead, Bool.false_eq_true, if_false]
  generalize buildHeader_msg_hdr K ctx m session = r at hspec ⊢
  obtain ⟨m1, hdr⟩ := r
  simp only at hspec ⊢
  split
  · intro hok; simp at hok
  · rename_i hsz
    cases hb : P.headBytes hdr with
    | none => intro hok; simp at hok
    | some bytes =>
      intro _
      simp only [buildHeader_msgPrefix, getRawDataSize, getRawBufferOffset]
      rcases hspec with h | h <;> subst h
      · refine ⟨trivial, by omega, trivial, rfl, rfl, rfl, ?_⟩
        intro buf hbuf
        simp only [hbuf, Option.map_some']
        exact ⟨_, rfl⟩
      · refine ⟨trivial, by omega, trivial, rfl, rfl, rfl, ?_⟩
        intro buf hbuf
        simp only [hbuf, Option.map_some']
        exact ⟨_, rfl⟩

theorem isValidFdbId_invalid (K : Consts) : isValidFdbId K K.FDB_INVALID_ID = false := by
  simp [isValidFdbId]

/-- The Endpoint flag and the session id after `setDestination`. -/
theorem setDestination_route (K : Consts) (hK : K.wf) (m : CFdbMessage) (obj : CFdbBaseObject)
    (alt_sid : Nat) :
    hasFlag (setDestination K m obj alt_sid).mFlag K.MSG_FLAG_ENDPOINT
        = (!isValidFdbId K alt_sid && !isValidFdbId K obj.getDefaultSession)
    ∧ (isValidFdbId K alt_sid = true → (setDestination K m obj alt_sid).mSid = alt_sid)
    ∧ (isValidFdbId K alt_sid = false → isValidFdbId K obj.getDefaultSession = true →
        (setDestination K m obj alt_sid).mSid = obj.getDefaultSession)
    ∧ (isValidFdbId K alt_sid = false → isValidFdbId K obj.getDefaultSession = false →
        (setDestination K m obj alt_sid).mSid = m.mSid
        ∧ (setDestination K m obj alt_sid).mEpid = obj.epid) := by
  simp only [setDestination]
  cases h1 : isValidFdbId K alt_sid <;> cases h2 : isValidFdbId K obj.getDefaultSession <;>
    simp [h1, h2, Consts.MSG_FLAG_ENDPOINT, hasFlag_setFlag_bit hK, hasFlag_clearFlag_bit hK]

/-- The encoding bits a constructor starts the flag word with hold no flag. -/
theorem hasFlag_encoding_bits (K : Consts) (hK : K.wf) (enc : Nat) (f : Flag) :
    hasFlag ((enc <<< K.MSG_FLAG_ENCODING) &&& K.MSG_FLAG_ENCODING_MASK) (1 <<< K.bit f)
      = false := by
  simp [hasFlag_bit, Nat.testBit_and, hK.encoding_testBit]

/-! ## The claims -/

/-- Claim C2, counterexample: a request is serialized, its header is encoded (which
sets HeadOk), and a new payload is serialized into it; `buildHeader` then returns
true at once, and the prefix at offset `mOffset = 0` of the new buffer reads
(0, 0), while the head size is 128 and the frame length 8 + 128 + 4 + 0. -/
theorem C2_stale_head_ok :
    hasFlag exReserialized.mFlag exConsts.MSG_FLAG_HEAD_OK = true
    ∧ (buildHeader exConsts exProto exCtx exReserialized exSession).1 = true
    ∧ (buildHeader exConsts exProto exCtx exReserialized exSession).2.mHeadSize = 128
    ∧ (buildHeader exConsts exProto exCtx exReserialized exSession).2.mPayloadSize = 4
    ∧ (buildHeader exConsts exProto exCtx exReserialized exSession).2.mExtraSize = 0
    ∧ (buildHeader exConsts exProto exCtx exReserialized exSession).2.mOffset = 0
    ∧ (CFdbMsgPrefix.deserialize
        ((buildHeader exConsts exProto exCtx exReserialized exSession).2.mBuffer.getD (fun _ => 0))
        0).mTotalLength = 0
    ∧ (CFdbMsgPrefix.deserialize
        ((buildHeader exConsts exProto exCtx exReserialized exSession).2.mBuffer.getD (fun _ => 0))
        0).mHeadLength = 0 := by
  decide

/-- Claim C2, amended: for a message without HeadOk and with a buffer on which
`buildHeader` returns true, with a non-negative head size and a frame length
`prefixSize + headSize + payloadSize + extraSize` that fits a `u32`, the prefix
stored at offset `mOffset` has `headLength` equal to the head size and
`totalLength` equal to that frame length; on a message with HeadOk `buildHeader`
returns true and leaves the message, hence the buffer, as it is. -/
theorem C2_prefix_of_fresh_frame (K : Consts) (P : Proto) (ctx : CFdbContext) (m : CFdbMessage)
    (session : CFdbSession) (buf : Buffer)
    (hhead : hasFlag m.mFlag K.MSG_FLAG_HEAD_OK = false)
    (hok : (buildHeader K P ctx m session).1 = true)
    (hbuf : m.mBuffer = some buf)
    (hhs : 0 ≤ (buildHeader K P ctx m session).2.mHeadSize)
    (hlo : 0 ≤ mPrefixSize + (buildHeader K P ctx m session).2.mHeadSize
              + m.mPayloadSize + m.mExtraSize)
    (hhi : mPrefixSize + (buildHeader K P ctx m session).2.mHeadSize
              + m.mPayloadSize + m.mExtraSize < 4294967296) :
    (∃ buf1, (buildHeader K P ctx m session).2.mBuffer = some buf1
      ∧ (CFdbMsgPrefix.deserialize buf1 (buildHeader K P ctx m session).2.mOffset).mHeadLength
          = (buildHeader K P ctx m session).2.mHeadSize
      ∧ (CFdbMsgPrefix.deserialize buf1 (buildHeader K P ctx m session).2.mOffset).mTotalLength
          = mPrefixSize + (buildHeader K P ctx m session).2.mHeadSize
            + (buildHeader K P ctx m session).2.mPayloadSize
            + (buildHeader K P ctx m session).2.mExtraSize)
    ∧ (∀ m2 : CFdbMessage, hasFlag m2.mFlag K.MSG_FLAG_HEAD_OK = true →
        buildHeader K P ctx m2 session = (true, m2)) := by
  obtain ⟨f1, _, _, f4, f5, _, f7⟩ := buildHeader_fresh K P ctx m session hhead hok
  obtain ⟨buf0, hb⟩ := f7 buf hbuf
  constructor
  · refine ⟨_, hb, ?_, ?_⟩
    · rw [CFdbMsgPrefix.deserialize_serialize]
      simp only [buildHeader_msgPrefix]
      unfold toUInt32
      have hmax : (buildHeader K P ctx m session).2.mHeadSize < 4294967296 := by
        rw [f1]; unfold toInt32; omega
      omega
    · rw [CFdbMsgPrefix.deserialize_serialize]
      simp only [buildHeader_msgPrefix, getRawDataSize, f4, f5]
      unfold toUInt32
      omega
  · intro m2 h2
    simp [buildHeader, h2]

/-- Claim C2, witness: the prefix written for the request `exRequest`. -/
theorem C2_prefix_of_fresh_frame_witness :
    hasFlag exRequest.mFlag exConsts.MSG_FLAG_HEAD_OK = false
    ∧ (buildHeader exConsts exProto exCtx exRequest exSession).1 = true
    ∧ (∃ buf1, (buildHeader exConsts exProto exCtx exRequest exSession).2.mBuffer = some buf1
      ∧ (CFdbMsgPrefix.deserialize buf1
          (buildHeader exConsts exProto exCtx exRequest exSession).2.mOffset).mHeadLength
          = (buildHeader exConsts exProto exCtx exRequest exSession).2.mHeadSize
      ∧ (CFdbMsgPrefix.deserialize buf1
          (buildHeader exConsts exProto exCtx exRequest exSession).2.mOffset).mTotalLength
          = mPrefixSize + (buildHeader exConsts exProto exCtx exRequest exSession).2.mHeadSize
            + (buildHeader exConsts exProto exCtx exRequest exSession).2.mPayloadSize
            + (buildHeader exConsts exProto exCtx exRequest exSession).2.mExtraSize) :=
  ⟨by decide, by decide,
   (C2_prefix_of_fresh_frame exConsts exProto exCtx exRequest exSession
      (exCtx.freshBuffer.writeBytes exConsts.maxReservedSize [9, 9, 9, 9])
      (by decide) (by decide) rfl (by decide) (by decide) (by decide)).1⟩

/-- Claim C3: on a message whose NoReplyExpected flag is set, `reply` (both
overloads), `replySideband` and `status` return false, make no call and leave
the message as it is, and `doReply`, `doStatus`, `sendStatus`, `sendAutoReply`
and `autoReply` (both overloads) make no call (no session send, no context
enqueue) and leave the message as it is. -/
theorem C3_no_reply_expected_refuses (K : Consts) (P : Proto) (ctx : CFdbContext)
    (m : CFdbMessage)
    (hno : hasFlag m.mFlag K.MSG_FLAG_NOREPLY_EXPECTED = true)
    (data : CFdbBasePayload) (buffer : Option (List Nat)) (size : Int) (enc : Nat)
    (log_data : Option String) (error_code : Int) (description : Option String)
    (session : CFdbSession) (use_count : Nat) :
    reply K ctx m data = (false, m, [])
    ∧ replyRaw K ctx m buffer size enc log_data = some (false, m, [])
    ∧ replySideband K ctx m data = (false, m, [])
    ∧ status K P ctx m error_code description = (false, m, [])
    ∧ doReply K ctx m = (m, [])
    ∧ doStatus K ctx m = (m, [])
    ∧ sendStatus K P ctx m session error_code description = (m, [])
    ∧ sendAutoReply K P ctx m session error_code description = (m, [])
    ∧ autoReplySession K P ctx m use_count session error_code description = (m, [])
    ∧ autoReply K P ctx m use_count error_code description = (m, []) := by
  have hs : sendStatus K P ctx m session error_code description = (m, []) := by
    simp [sendStatus, hno]
  refine ⟨?_, ?_, ?_, ?_, ?_, ?_, hs, ?_, ?_, ?_⟩
  · simp [reply, feedback, hno]
  · simp [replyRaw, hno]
  · simp [replySideband, feedback, hno]
  · simp [status, hno]
  · simp [doReply, hno]
  · simp [doStatus, doReply, hno]
  · unfold sendAutoReply; rw [hs]; simp
  · unfold autoReplySession; rw [hs]; simp
  · simp [autoReply, hno]

/-- Claim C3, witness: the request `exNoReply`, which has NoReplyExpected set. -/
theorem C3_no_reply_expected_refuses_witness :
    hasFlag exNoReply.mFlag exConsts.MSG_FLAG_NOREPLY_EXPECTED = true
    ∧ reply exConsts exCtx exNoReply exPayload = (false, exNoReply, [])
    ∧ autoReply exConsts exProto exCtx exNoReply 1 0 none = (exNoReply, []) :=
  ⟨by decide,
   (C3_no_reply_expected_refuses exConsts exProto exCtx exNoReply (by decide) exPayload none 0 0
      none 0 none exSession 1).1,
   (C3_no_reply_expected_refuses exConsts exProto exCtx exNoReply (by decide) exPayload none 0 0
      none 0 none exSession 1).2.2.2.2.2.2.2.2.2⟩

/-- Claim C4, counterexample: `reply` on the request `exReplied`, whose Replied flag is
set, returns true, makes one call to the context and changes the type from
Request to Reply. -/
theorem C4_reply_after_replied_not_refused :
    hasFlag exReplied.mFlag exConsts.MSG_FLAG_REPLIED = true
    ∧ (reply exConsts exCtx exReplied exPayload).1 = true
    ∧ (reply exConsts exCtx exReplied exPayload).2.2.length = 1
    ∧ (reply exConsts exCtx exReplied exPayload).2.1.mType = MT_REPLY
    ∧ exReplied.mType = MT_REQUEST := by
  decide

/-- Claim C4, amended: the Replied flag does not gate a reply.  On every message
without NoReplyExpected (Replied set or not) whose payload serializes, `reply`
with a payload and `replySideband` enqueue the message once to the context, with
type Reply (SidebandReply for `replySideband`) and Replied set, and return the
result of that enqueue; afterwards the type is Reply (SidebandReply) and Replied
is set exactly when the enqueue succeeded, so a failed enqueue clears a Replied
flag that was set before.  When the payload does not serialize they return
false, enqueue nothing and leave Replied as it was.  The payload serializes
exactly when the serializer succeeds and the allocation size
`maxReservedSize + payloadSize + extraSize` is not negative.  The raw-buffer
`reply` behaves like `reply` with a payload when its allocation size
`maxReservedSize + size + extraSize` is not negative and `size` is not negative
(or the buffer is null); when the allocation size is negative it does not
return. -/
theorem C4_reply_ignores_replied (K : Consts) (hK : K.wf) (ctx : CFdbContext) (m : CFdbMessage)
    (data : CFdbBasePayload) (buffer : Option (List Nat)) (size : Int)
    (enc : Nat) (log_data : Option String)
    (hno : hasFlag m.mFlag K.MSG_FLAG_NOREPLY_EXPECTED = false) :
    ((serialize K ctx m data none).1 = true →
      (∃ x : CFdbMessage,
        (reply K ctx m data).2.2 = [Event.ctxSendAsyncEndeavor x]
        ∧ (reply K ctx m data).1 = ctx.sendAsyncEndeavor x
        ∧ x.mType = MT_REPLY ∧ hasFlag x.mFlag K.MSG_FLAG_REPLIED = true
        ∧ (reply K ctx m data).2.1.mType = MT_REPLY
        ∧ hasFlag (reply K ctx m data).2.1.mFlag K.MSG_FLAG_REPLIED = (reply K ctx m data).1)
      ∧ (∃ x : CFdbMessage,
        (replySideband K ctx m data).2.2 = [Event.ctxSendAsyncEndeavor x]
        ∧ (replySideband K ctx m data).1 = ctx.sendAsyncEndeavor x
        ∧ x.mType = MT_SIDEBAND_REPLY ∧ hasFlag x.mFlag K.MSG_FLAG_REPLIED = true
        ∧ (replySideband K ctx m data).2.1.mType = MT_SIDEBAND_REPLY
        ∧ hasFlag (replySideband K ctx m data).2.1.mFlag K.MSG_FLAG_REPLIED
            = (replySideband K ctx m data).1))
    ∧ ((serialize K ctx m data none).1 = false →
        reply K ctx m data = (false, (serialize K ctx m data none).2, [])
        ∧ replySideband K ctx m data = (false, (serialize K ctx m data none).2, [])
        ∧ hasFlag (serialize K ctx m data none).2.mFlag K.MSG_FLAG_REPLIED
            = hasFlag m.mFlag K.MSG_FLAG_REPLIED)
    ∧ ((serialize K ctx m data none).1 = true
        ↔ (data.bytes ≠ none
            ∧ 0 ≤ toInt32 (K.maxReservedSize + toInt32 data.byteSize + m.mExtraSize)))
    ∧ (0 ≤ toInt32 (K.maxReservedSize + size + m.mExtraSize) → (buffer = none ∨ 0 ≤ size) →
        ∃ (x : CFdbMessage) (r : Bool × CFdbMessage × List Event),
          replyRaw K ctx m buffer size enc log_data = some r
          ∧ r.2.2 = [Event.ctxSendAsyncEndeavor x]
          ∧ r.1 = ctx.sendAsyncEndeavor x
          ∧ x.mType = MT_REPLY ∧ hasFlag x.mFlag K.MSG_FLAG_REPLIED = true
          ∧ r.2.1.mType = MT_REPLY
          ∧ hasFlag r.2.1.mFlag K.MSG_FLAG_REPLIED = r.1)
    ∧ (toInt32 (K.maxReservedSize + size + m.mExtraSize) < 0 →
        replyRaw K ctx m buffer size enc log_data = none) := by
  refine ⟨?_, ?_, serialize_none_fst K ctx m data, ?_, ?_⟩
  · intro hs
    exact ⟨feedback_enqueues K hK ctx m data MT_REPLY hno hs,
      feedback_enqueues K hK ctx m data MT_SIDEBAND_REPLY hno hs⟩
  · intro hs
    have hfb : ∀ type : Nat,
        feedback K ctx m data type = (false, (serialize K ctx m data none).2, []) := by
      intro type
      unfold feedback
      simp only [hno, Bool.false_eq_true, if_false]
      generalize serialize K ctx m data none = r at hs
      obtain ⟨ok, m1⟩ := r
      simp only at hs
      subst hs
      simp
    refine ⟨hfb MT_REPLY, hfb MT_SIDEBAND_REPLY, ?_⟩
    rw [(serialize_none_mFlag K ctx m data).1, Consts.MSG_FLAG_REPLIED,
      Consts.MSG_FLAG_EXTERNAL_BUFFER, hasFlag_clearFlag_bit hK]
    simp
  · intro halloc hsize
    exact replyRaw_enqueues K hK ctx m buffer size enc log_data hno halloc hsize
  · intro hneg
    unfold replyRaw
    simp only [hno, Bool.false_eq_true, if_false,
      (serializeRaw_spec K ctx m buffer size).2 hneg]

/-- Claim C4, witness: the amended statement at the replied request `exReplied`. -/
theorem C4_reply_ignores_replied_witness :
    exConsts.wf ∧ hasFlag exReplied.mFlag exConsts.MSG_FLAG_NOREPLY_EXPECTED = false
    ∧ (serialize exConsts exCtx exReplied exPayload none).1 = true
    ∧ (∃ x : CFdbMessage,
      (reply exConsts exCtx exReplied exPayload).2.2 = [Event.ctxSendAsyncEndeavor x]
      ∧ (reply exConsts exCtx exReplied exPayload).1 = exCtx.sendAsyncEndeavor x
      ∧ x.mType = MT_REPLY ∧ hasFlag x.mFlag exConsts.MSG_FLAG_REPLIED = true
      ∧ (reply exConsts exCtx exReplied exPayload).2.1.mType = MT_REPLY
      ∧ hasFlag (reply exConsts exCtx exReplied exPayload).2.1.mFlag exConsts.MSG_FLAG_REPLIED
          = (reply exConsts exCtx exReplied exPayload).1)
    ∧ toInt32 (exConsts.maxReservedSize + (-200) + exReplied.mExtraSize) < 0
    ∧ replyRaw exConsts exCtx exReplied (some [1, 2]) (-200) 0 none = none :=
  ⟨by decide, by decide, by decide,
   ((C4_reply_ignores_replied exConsts (by decide) exCtx exReplied exPayload
      none 0 0 none (by decide)).1 (by decide)).1,
   by decide,
   (C4_reply_ignores_replied exConsts (by decide) exCtx exReplied exPayload
      (some [1, 2]) (-200) 0 none (by decide)).2.2.2.2 (by decide)⟩

/-- Claim C5: `autoReply` (both overloads) makes a call exactly when AutoReply is
set, Replied is clear, NoReplyExpected is clear and the reference count is 1;
when it does, the call is one hand-over of a Status message and the message
afterwards has Replied set (for the session overload: given that the session's
send does not clear Replied).  Hence any sequence of `autoReply` and
`sendAutoReply` calls on a message makes at most one call, every call made is
the hand-over of a Status, and none is made if the message was already replied. -/
theorem C5_autoReply_emits_at_most_once (K : Consts) (hK : K.wf) (P : Proto) (ctx : CFdbContext)
    (m : CFdbMessage) (calls : List AutoReplyCall)
    (hkeep : ∀ call ∈ calls, ∀ s, call.session? = some s → SessionKeepsReplied K s) :
    (∀ (uc : Nat) (c : Int) (d : Option String),
      (autoReply K P ctx m uc c d).2 ≠ [] ↔
        (hasFlag m.mFlag K.MSG_FLAG_AUTO_REPLY = true ∧ hasFlag m.mFlag K.MSG_FLAG_REPLIED = false
          ∧ hasFlag m.mFlag K.MSG_FLAG_NOREPLY_EXPECTED = false ∧ uc = 1))
    ∧ (∀ (uc : Nat) (s : CFdbSession) (c : Int) (d : Option String),
      (autoReplySession K P ctx m uc s c d).2 ≠ [] ↔
        (hasFlag m.mFlag K.MSG_FLAG_AUTO_REPLY = true ∧ hasFlag m.mFlag K.MSG_FLAG_REPLIED = false
          ∧ hasFlag m.mFlag K.MSG_FLAG_NOREPLY_EXPECTED = false ∧ uc = 1))
    ∧ (∀ (uc : Nat) (c : Int) (d : Option String), (autoReply K P ctx m uc c d).2 ≠ [] →
        (∃ e, (autoReply K P ctx m uc c d).2 = [e] ∧ e.isStatusEmission K)
        ∧ hasFlag (autoReply K P ctx m uc c d).1.mFlag K.MSG_FLAG_REPLIED = true)
    ∧ (∀ (uc : Nat) (s : CFdbSession) (c : Int) (d : Option String),
        SessionKeepsReplied K s → (autoReplySession K P ctx m uc s c d).2 ≠ [] →
        (∃ e, (autoReplySession K P ctx m uc s c d).2 = [e] ∧ e.isStatusEmission K)
        ∧ hasFlag (autoReplySession K P ctx m uc s c d).1.mFlag K.MSG_FLAG_REPLIED = true)
    ∧ (runAutoReplyCalls K P ctx m calls).2.length ≤ 1
    ∧ (∀ e ∈ (runAutoReplyCalls K P ctx m calls).2, e.isStatusEmission K)
    ∧ (hasFlag m.mFlag K.MSG_FLAG_REPLIED = true → (runAutoReplyCalls K P ctx m calls).2 = []) := by
  have hg := autoReply_guard K hK m.mFlag
  have hiff1 : ∀ (uc : Nat) (c : Int) (d : Option String),
      (autoReply K P ctx m uc c d).2 ≠ [] ↔
        (hasFlag m.mFlag K.MSG_FLAG_AUTO_REPLY = true ∧ hasFlag m.mFlag K.MSG_FLAG_REPLIED = false
          ∧ hasFlag m.mFlag K.MSG_FLAG_NOREPLY_EXPECTED = false ∧ uc = 1) := by
    intro uc c d
    simp only [autoReply, hg]
    split
    · rename_i hc
      simp only [ne_eq, List.cons_ne_nil, not_false_eq_true, true_iff]
      exact ⟨hc.1.1, hc.1.2, by simpa using hc.2.1, hc.2.2⟩
    · rename_i hc
      simp only [ne_eq, not_true_eq_false, false_iff]
      intro h
      exact hc ⟨⟨h.1, h.2.1⟩, by simp [h.2.2.1], h.2.2.2⟩
  have hiff2 : ∀ (uc : Nat) (s : CFdbSession) (c : Int) (d : Option String),
      (autoReplySession K P ctx m uc s c d).2 ≠ [] ↔
        (hasFlag m.mFlag K.MSG_FLAG_AUTO_REPLY = true ∧ hasFlag m.mFlag K.MSG_FLAG_REPLIED = false
          ∧ hasFlag m.mFlag K.MSG_FLAG_NOREPLY_EXPECTED = false ∧ uc = 1) := by
    intro uc s c d
    simp only [autoReplySession, hg]
    split
    · rename_i hc
      have hno : hasFlag m.mFlag K.MSG_FLAG_NOREPLY_EXPECTED = false := by simpa using hc.2.1
      obtain ⟨e, he, _⟩ := (sendStatus_emits K hK P ctx m s c d hno).1
      simp only [he, ne_eq, List.cons_ne_nil, not_false_eq_true, true_iff]
      exact ⟨hc.1.1, hc.1.2, hno, hc.2.2⟩
    · rename_i hc
      simp only [ne_eq, not_true_eq_false, false_iff]
      intro h
      exact hc ⟨⟨h.1, h.2.1⟩, by simp [h.2.2.1], h.2.2.2⟩
  refine ⟨hiff1, hiff2, ?_, ?_, ?_, ?_, ?_⟩
  · intro uc c d hne
    rcases (autoReplyCall_run_cases K hK P ctx m (.autoReply uc c d)
      (fun s hs => by simp [AutoReplyCall.session?] at hs)).2 with h | h
    · simp only [AutoReplyCall.run] at h
      rw [h] at hne; exact absurd rfl hne
    · exact h
  · intro uc s c d hk hne
    rcases (autoReplyCall_run_cases K hK P ctx m (.autoReplySession uc s c d)
      (fun s2 hs => by
        simp only [AutoReplyCall.session?, Option.some.injEq] at hs
        subst hs; exact hk)).2 with h | h
    · simp only [AutoReplyCall.run] at h
      rw [h] at hne; exact absurd rfl hne
    · exact h
  · exact (runAutoReplyCalls_once K hK P ctx calls m hkeep).1
  · exact (runAutoReplyCalls_once K hK P ctx calls m hkeep).2
  · intro hr
    rw [runAutoReplyCalls_replied K hK P ctx calls m hkeep hr]

/-- Claim C5, witness: three auto-reply calls in a row on the request `exAutoReply`
emit exactly one Status. -/
theorem C5_autoReply_emits_at_most_once_witness :
    exConsts.wf
    ∧ (∀ call ∈ [AutoReplyCall.autoReply 1 0 none, AutoReplyCall.sendAutoReply exSession 0 none,
          AutoReplyCall.autoReplySession 1 exSession 0 none],
        ∀ s, call.session? = some s → SessionKeepsReplied exConsts s)
    ∧ (runAutoReplyCalls exConsts exProto exCtx exAutoReply
        [AutoReplyCall.autoReply 1 0 none, AutoReplyCall.sendAutoReply exSession 0 none,
          AutoReplyCall.autoReplySession 1 exSession 0 none]).2.length ≤ 1
    ∧ (runAutoReplyCalls exConsts exProto exCtx exAutoReply
        [AutoReplyCall.autoReply 1 0 none, AutoReplyCall.sendAutoReply exSession 0 none,
          AutoReplyCall.autoReplySession 1 exSession 0 none]).2.length = 1 := by
  have hk : ∀ call ∈ [AutoReplyCall.autoReply 1 0 none,
      AutoReplyCall.sendAutoReply exSession 0 none,
      AutoReplyCall.autoReplySession 1 exSession 0 none],
      ∀ s, call.session? = some s → SessionKeepsReplied exConsts s := by
    intro call hc s hs
    simp only [List.mem_cons, List.mem_singleton, List.not_mem_nil, or_false] at hc
    rcases hc with h | h | h <;> subst h <;> simp only [AutoReplyCall.session?] at hs
    · cases hs
    · cases hs; exact exSession_keeps
    · cases hs; exact exSession_keeps
  exact ⟨by decide, hk,
    (C5_autoReply_emits_at_most_once exConsts (by decide) exProto exCtx exAutoReply _ hk).2.2.2.2.1,
    by decide⟩

/-- Claim C6: `submit` with the TxSync flag while the caller is the context worker
returns false, calls neither `sendSync` nor `sendAsync`, and leaves the message
(flags and timer included) as it is, whatever the timeout. -/
theorem C6_submit_sync_from_context_rejected (K : Consts) (ctx : CFdbContext) (m : CFdbMessage)
    (tx_flag : Nat) (timeout : Int)
    (hsync : hasFlag tx_flag FDB_MSG_TX_SYNC = true) (hself : ctx.isSelf = true) :
    submit K ctx m tx_flag timeout = (false, m, []) := by
  simp [submit, hsync, hself]

/-- Claim C6, witness: a synchronous submit on a context whose `isSelf` is true. -/
theorem C6_submit_sync_from_context_rejected_witness :
    hasFlag 1 FDB_MSG_TX_SYNC = true ∧ ({ exCtx with isSelf := true } : CFdbContext).isSelf = true
    ∧ submit exConsts { exCtx with isSelf := true } exRaw 1 500 = (false, exRaw, []) :=
  ⟨by decide, rfl,
   C6_submit_sync_from_context_rejected exConsts _ exRaw 1 500 (by decide) rfl⟩

/-- Claim C7: for a `submit` that is not rejected: with TxNoReply, NoReplyExpected
is set, the timer is left as it was whatever the timeout, and AutoReply and
SyncReply are left as they were; without TxNoReply, AutoReply is set, SyncReply
is set when TxSync is given and otherwise left as it was, NoReplyExpected is
left as it was, and a timer is allocated when `timeout > 0` and otherwise the
timer is left as it was.  And `send()` hands to `sendAsync` a message of type
Request with NoReplyExpected set and the timer left as it was. -/
theorem C7_submit_sets_flags (K : Consts) (hK : K.wf) (ctx : CFdbContext) (m : CFdbMessage)
    (tx_flag : Nat) (timeout : Int)
    (hacc : ¬ (hasFlag tx_flag FDB_MSG_TX_SYNC = true ∧ ctx.isSelf = true)) :
    (hasFlag tx_flag FDB_MSG_TX_NO_REPLY = true →
      hasFlag (submit K ctx m tx_flag timeout).2.1.mFlag K.MSG_FLAG_NOREPLY_EXPECTED = true
      ∧ (submit K ctx m tx_flag timeout).2.1.mTimer = m.mTimer
      ∧ hasFlag (submit K ctx m tx_flag timeout).2.1.mFlag K.MSG_FLAG_AUTO_REPLY
          = hasFlag m.mFlag K.MSG_FLAG_AUTO_REPLY
      ∧ hasFlag (submit K ctx m tx_flag timeout).2.1.mFlag K.MSG_FLAG_SYNC_REPLY
          = hasFlag m.mFlag K.MSG_FLAG_SYNC_REPLY)
    ∧ (hasFlag tx_flag FDB_MSG_TX_NO_REPLY = false →
      hasFlag (submit K ctx m tx_flag timeout).2.1.mFlag K.MSG_FLAG_AUTO_REPLY = true
      ∧ hasFlag (submit K ctx m tx_flag timeout).2.1.mFlag K.MSG_FLAG_SYNC_REPLY
          = (hasFlag m.mFlag K.MSG_FLAG_SYNC_REPLY || hasFlag tx_flag FDB_MSG_TX_SYNC)
      ∧ hasFlag (submit K ctx m tx_flag timeout).2.1.mFlag K.MSG_FLAG_NOREPLY_EXPECTED
          = hasFlag m.mFlag K.MSG_FLAG_NOREPLY_EXPECTED
      ∧ (0 < timeout →
          (submit K ctx m tx_flag timeout).2.1.mTimer = some (CMessageTimer.new K timeout))
      ∧ (timeout ≤ 0 → (submit K ctx m tx_flag timeout).2.1.mTimer = m.mTimer))
    ∧ (send K ctx m).2.1.mType = MT_REQUEST
    ∧ hasFlag (send K ctx m).2.1.mFlag K.MSG_FLAG_NOREPLY_EXPECTED = true
    ∧ (send K ctx m).2.1.mTimer = m.mTimer
    ∧ (send K ctx m).2.2 = [Event.ctxSendAsync (send K ctx m).2.1] := by
  have hrej : (hasFlag tx_flag FDB_MSG_TX_SYNC && ctx.isSelf) = false := by
    cases h1 : hasFlag tx_flag FDB_MSG_TX_SYNC <;> cases h2 : ctx.isSelf <;> simp_all
  refine ⟨?_, ?_, ?_, ?_, ?_, ?_⟩
  · intro hnr
    simp only [submit, hrej, hnr, Bool.false_eq_true, if_false, if_true]
    cases hs : hasFlag tx_flag FDB_MSG_TX_SYNC <;>
      simp [Consts.MSG_FLAG_NOREPLY_EXPECTED, Consts.MSG_FLAG_AUTO_REPLY,
        Consts.MSG_FLAG_SYNC_REPLY, hasFlag_setFlag_bit hK]
  · intro hnr
    simp only [submit, hrej, hnr, Bool.false_eq_true, if_false]
    cases hs : hasFlag tx_flag FDB_MSG_TX_SYNC <;> by_cases ht : 0 < timeout <;>
      simp [Consts.MSG_FLAG_NOREPLY_EXPECTED, Consts.MSG_FLAG_AUTO_REPLY,
        Consts.MSG_FLAG_SYNC_REPLY, hasFlag_setFlag_bit hK, ht]
  · rw [send_eq]
  · rw [send_eq]
    simp [Consts.MSG_FLAG_NOREPLY_EXPECTED, hasFlag_setFlag_bit hK]
  · rw [send_eq]
  · rw [send_eq]

/-- Claim C7, witness: a synchronous submit with timeout 500 from another thread. -/
theorem C7_submit_sets_flags_witness :
    exConsts.wf
    ∧ ¬ (hasFlag FDB_MSG_TX_SYNC FDB_MSG_TX_SYNC = true ∧ exCtx.isSelf = true)
    ∧ (hasFlag FDB_MSG_TX_SYNC FDB_MSG_TX_NO_REPLY = false →
        hasFlag (submit exConsts exCtx exRaw FDB_MSG_TX_SYNC 500).2.1.mFlag
          exConsts.MSG_FLAG_AUTO_REPLY = true
        ∧ hasFlag (submit exConsts exCtx exRaw FDB_MSG_TX_SYNC 500).2.1.mFlag
            exConsts.MSG_FLAG_SYNC_REPLY
          = (hasFlag exRaw.mFlag exConsts.MSG_FLAG_SYNC_REPLY
              || hasFlag FDB_MSG_TX_SYNC FDB_MSG_TX_SYNC)
        ∧ hasFlag (submit exConsts exCtx exRaw FDB_MSG_TX_SYNC 500).2.1.mFlag
            exConsts.MSG_FLAG_NOREPLY_EXPECTED
          = hasFlag exRaw.mFlag exConsts.MSG_FLAG_NOREPLY_EXPECTED
        ∧ ((0 : Int) < 500 → (submit exConsts exCtx exRaw FDB_MSG_TX_SYNC 500).2.1.mTimer
            = some (CMessageTimer.new exConsts 500))
        ∧ ((500 : Int) ≤ 0 → (submit exConsts exCtx exRaw FDB_MSG_TX_SYNC 500).2.1.mTimer
            = exRaw.mTimer)) :=
  ⟨by decide, by decide,
   (C7_submit_sets_flags exConsts (by decide) exCtx exRaw FDB_MSG_TX_SYNC 500 (by decide)).2.1⟩

/-- Claim C8: `setErrorMsg` sets the Status and Replied flags, sets the Error flag
when the code is below `FDB_ST_AUTO_REPLY_OK` or above `FDB_ST_OK`, leaves the
Error flag as it was when the code lies in `[FDB_ST_AUTO_REPLY_OK, FDB_ST_OK]`,
and makes the type the given type unless that is Unknown, in which case the type
is left as it was; `status` and `sendStatus` on a message without
NoReplyExpected hand over exactly the message `setErrorMsg` builds with type
Status. -/
theorem C8_setErrorMsg_flags (K : Consts) (hK : K.wf) (P : Proto) (ctx : CFdbContext)
    (m : CFdbMessage) (type : Nat) (c : Int) (description : Option String) :
    hasFlag (setErrorMsg K P ctx m type c description).mFlag K.MSG_FLAG_STATUS = true
    ∧ hasFlag (setErrorMsg K P ctx m type c description).mFlag K.MSG_FLAG_REPLIED = true
    ∧ (c < K.FDB_ST_AUTO_REPLY_OK ∨ c > K.FDB_ST_OK →
        hasFlag (setErrorMsg K P ctx m type c description).mFlag K.MSG_FLAG_ERROR = true)
    ∧ (K.FDB_ST_AUTO_REPLY_OK ≤ c ∧ c ≤ K.FDB_ST_OK →
        hasFlag (setErrorMsg K P ctx m type c description).mFlag K.MSG_FLAG_ERROR
          = hasFlag m.mFlag K.MSG_FLAG_ERROR)
    ∧ (type ≠ MT_UNKNOWN → (setErrorMsg K P ctx m type c description).mType = type)
    ∧ (type = MT_UNKNOWN → (setErrorMsg K P ctx m type c description).mType = m.mType)
    ∧ (hasFlag m.mFlag K.MSG_FLAG_NOREPLY_EXPECTED = false →
        (status K P ctx m c description).2.1 = setErrorMsg K P ctx m MT_STATUS c description
        ∧ ∀ session : CFdbSession,
          (sendStatus K P ctx m session c description).2
            = [Event.sessionSendMessage session.sid
                (setErrorMsg K P ctx m MT_STATUS c description)]) := by
  obtain ⟨hf, ht⟩ := setErrorMsg_mFlag K P ctx m type c description
  refine ⟨?_, ?_, ?_, ?_, ?_, ?_, ?_⟩
  · rw [hf]; simp only [Consts.MSG_FLAG_STATUS, Consts.MSG_FLAG_REPLIED, Consts.MSG_FLAG_EXTERNAL_BUFFER]
    rw [hasFlag_status_word K hK]; simp
  · rw [hf]; simp only [Consts.MSG_FLAG_STATUS, Consts.MSG_FLAG_REPLIED, Consts.MSG_FLAG_EXTERNAL_BUFFER]
    rw [hasFlag_status_word K hK]; simp
  · intro hc
    rw [hf, if_pos hc]
    simp only [Consts.MSG_FLAG_ERROR, Consts.MSG_FLAG_STATUS, Consts.MSG_FLAG_REPLIED,
      Consts.MSG_FLAG_EXTERNAL_BUFFER]
    rw [hasFlag_status_word K hK]
    simp [hasFlag_setFlag_bit hK]
  · intro hc
    have hn : ¬ (c < K.FDB_ST_AUTO_REPLY_OK ∨ c > K.FDB_ST_OK) := by omega
    rw [hf, if_neg hn]
    simp only [Consts.MSG_FLAG_ERROR, Consts.MSG_FLAG_STATUS, Consts.MSG_FLAG_REPLIED,
      Consts.MSG_FLAG_EXTERNAL_BUFFER]
    rw [hasFlag_status_word K hK]
    simp
  · intro hty
    rw [ht, if_pos hty]
  · intro hty
    rw [ht, if_neg (by simpa using hty)]
  · intro hno
    constructor
    · simp only [status, hno, Bool.false_eq_true, if_false]
      split <;> rfl
    · intro session
      simp [sendStatus, hno]

/-- Claim C8, witness: code 5 sets the Error flag, code -3 leaves it as it was. -/
theorem C8_setErrorMsg_flags_witness :
    exConsts.wf
    ∧ ((5 : Int) < exConsts.FDB_ST_AUTO_REPLY_OK ∨ (5 : Int) > exConsts.FDB_ST_OK)
    ∧ hasFlag (setErrorMsg exConsts exProto exCtx exRaw MT_STATUS 5 none).mFlag
        exConsts.MSG_FLAG_ERROR = true
    ∧ (exConsts.FDB_ST_AUTO_REPLY_OK ≤ (-3 : Int) ∧ (-3 : Int) ≤ exConsts.FDB_ST_OK)
    ∧ hasFlag (setErrorMsg exConsts exProto exCtx exRaw MT_STATUS (-3) none).mFlag
        exConsts.MSG_FLAG_ERROR = hasFlag exRaw.mFlag exConsts.MSG_FLAG_ERROR :=
  ⟨by decide, by decide,
   (C8_setErrorMsg_flags exConsts (by decide) exProto exCtx exRaw MT_STATUS 5 none).2.2.1
      (by decide),
   by decide,
   (C8_setErrorMsg_flags exConsts (by decide) exProto exCtx exRaw MT_STATUS (-3) none).2.2.2.1
      (by decide)⟩

/-- Claim C9, counterexample: `CFdbBroadcastMsg(code, obj, filter)` for an object whose
default session is valid, and `setDestination` to an object without a default
session on a message that already has a valid session id, both give a message
with the Endpoint flag set and a valid `mSid`. -/
theorem C9_endpoint_with_valid_sid :
    hasFlag (CFdbBroadcastMsg.newTo exConsts false exRaw 400 exObject none
        exConsts.FDB_INVALID_ID exConsts.FDB_INVALID_ID 0).mFlag exConsts.MSG_FLAG_ENDPOINT = true
    ∧ isValidFdbId exConsts (CFdbBroadcastMsg.newTo exConsts false exRaw 400 exObject none
        exConsts.FDB_INVALID_ID exConsts.FDB_INVALID_ID 0).mSid = true
    ∧ hasFlag (setDestination exConsts
        (newTo exConsts exRaw 100 exObject exConsts.FDB_INVALID_ID 0)
        exObjectNoSession exConsts.FDB_INVALID_ID).mFlag exConsts.MSG_FLAG_ENDPOINT = true
    ∧ isValidFdbId exConsts (setDestination exConsts
        (newTo exConsts exRaw 100 exObject exConsts.FDB_INVALID_ID 0)
        exObjectNoSession exConsts.FDB_INVALID_ID).mSid = true := by
  decide

/-- Claim C9, amended: the Endpoint flag is clear after the constructors
`CFdbMessage(code, enc)`, `CFdbMessage(code, msg, enc)`, the decoding constructor
and `CFdbBroadcastMsg(code, msg, filter, enc)`.  `setDestination` sets it
exactly when neither the alt id nor the default session of the object is valid,
and then leaves `mSid` as it was and stores the endpoint id; otherwise it stores
the valid id it chose in `mSid`.  `CFdbBroadcastMsg(code, obj, ...)` sets it
exactly when `alt_sid` is not valid, and then `mSid` is the default session of
the object when that is valid and otherwise what the storage held.  When
`getSession` returns a session the flag is clear afterwards, and when it returns
null the message is as it was. -/
theorem C9_endpoint_flag_routes (K : Consts) (hK : K.wf) (ctx : CFdbContext)
    (raw msg m : CFdbMessage) (code enc sid alt_sid alt_oid : Nat) (head : FdbMessageHeader)
    (pfx : CFdbMsgPrefix) (buffer : Option Buffer) (obj : CFdbBaseObject)
    (filter : Option String) (debugBase : Bool) :
    hasFlag (new K raw code enc).mFlag K.MSG_FLAG_ENDPOINT = false
    ∧ hasFlag (newFrom K raw code msg enc).mFlag K.MSG_FLAG_ENDPOINT = false
    ∧ hasFlag (newDecoded K raw head pfx buffer sid).mFlag K.MSG_FLAG_ENDPOINT = false
    ∧ hasFlag (CFdbBroadcastMsg.newFrom K debugBase raw code msg filter enc).mFlag
        K.MSG_FLAG_ENDPOINT = false
    ∧ (hasFlag (setDestination K m obj alt_sid).mFlag K.MSG_FLAG_ENDPOINT
        = (!isValidFdbId K alt_sid && !isValidFdbId K obj.getDefaultSession)
      ∧ (isValidFdbId K alt_sid = true → (setDestination K m obj alt_sid).mSid = alt_sid)
      ∧ (isValidFdbId K alt_sid = false → isValidFdbId K obj.getDefaultSession = true →
          (setDestination K m obj alt_sid).mSid = obj.getDefaultSession)
      ∧ (isValidFdbId K alt_sid = false → isValidFdbId K obj.getDefaultSession = false →
          (setDestination K m obj alt_sid).mSid = m.mSid
          ∧ (setDestination K m obj alt_sid).mEpid = obj.epid))
    ∧ (hasFlag (CFdbBroadcastMsg.newTo K debugBase raw code obj filter alt_sid alt_oid enc).mFlag
          K.MSG_FLAG_ENDPOINT = !isValidFdbId K alt_sid
      ∧ (isValidFdbId K alt_sid = true →
          (CFdbBroadcastMsg.newTo K debugBase raw code obj filter alt_sid alt_oid enc).mSid
            = alt_sid)
      ∧ (isValidFdbId K alt_sid = false →
          (CFdbBroadcastMsg.newTo K debugBase raw code obj filter alt_sid alt_oid enc).mSid
            = (if isValidFdbId K obj.getDefaultSession = true then obj.getDefaultSession
               else raw.mSid)))
    ∧ ((∀ s, (getSession K ctx m).1 = some s →
          hasFlag (getSession K ctx m).2.mFlag K.MSG_FLAG_ENDPOINT = false)
      ∧ ((getSession K ctx m).1 = none → (getSession K ctx m).2 = m)) := by
  refine ⟨?_, ?_, ?_, ?_, setDestination_route K hK m obj alt_sid, ?_, ?_⟩
  · simp only [new, Consts.MSG_FLAG_ENDPOINT, hasFlag_encoding_bits K hK]
  · simp only [newFrom, Consts.MSG_FLAG_ENDPOINT, hasFlag_encoding_bits K hK]
  · simp [newDecoded, Consts.MSG_FLAG_ENDPOINT, Consts.MSG_FLAG_EXTERNAL_BUFFER,
      hasFlag_setFlag_bit hK, hasFlag_bit, Nat.testBit_and, hK.global_testBit, Flag.isGlobal]
  · cases debugBase <;> cases filter <;>
      simp only [CFdbBroadcastMsg.newFrom, CFdbDebugMsg.newFrom, newFrom,
        Consts.MSG_FLAG_ENDPOINT, Consts.MSG_FLAG_DEBUG, Consts.MSG_FLAG_MANUAL_UPDATE,
        hasFlag_bit, testBit_setFlag, testBit_bit, Nat.testBit_and, Nat.testBit_or,
        hK.bit_eq_iff, hK.encoding_testBit, Bool.false_eq_true, if_false, if_true] <;>
      simp
  · have hinv := isValidFdbId_invalid K
    cases debugBase <;> cases filter <;> cases h1 : isValidFdbId K alt_sid <;>
      cases h2 : isValidFdbId K obj.getDefaultSession <;> cases h3 : isValidFdbId K alt_oid <;>
      simp only [CFdbBroadcastMsg.newTo, CFdbDebugMsg.newTo, newTo, setDestination, hinv, h1, h2,
        h3, Consts.MSG_FLAG_ENDPOINT, Consts.MSG_FLAG_DEBUG,
        hasFlag_setFlag_bit hK, hasFlag_clearFlag_bit hK,
        Bool.false_eq_true, if_false, if_true] <;>
      simp
  · simp only [getSession]
    cases he : hasFlag m.mFlag K.MSG_FLAG_ENDPOINT
    · simp [he]
    · simp only [if_true]
      cases ctx.getEndpoint m.mEpid with
      | none => simp
      | some ep =>
        cases hp : ep.preferredPeer with
        | none => simp [hp]
        | some s => simp [hp, Consts.MSG_FLAG_ENDPOINT, hasFlag_clearFlag_bit hK]

/-- Claim C9, witness: `setDestination` to an object without a default session. -/
theorem C9_endpoint_flag_routes_witness :
    exConsts.wf
    ∧ hasFlag (setDestination exConsts exRaw exObjectNoSession exConsts.FDB_INVALID_ID).mFlag
        exConsts.MSG_FLAG_ENDPOINT
      = (!isValidFdbId exConsts exConsts.FDB_INVALID_ID
          && !isValidFdbId exConsts exObjectNoSession.getDefaultSession) :=
  ⟨by decide,
   (C9_endpoint_flag_routes exConsts (by decide) exCtx exRaw exRaw exRaw 0 0 0
      exConsts.FDB_INVALID_ID exConsts.FDB_INVALID_ID exHeader ⟨0, 0⟩ none exObjectNoSession
      none false).2.2.2.2.1.1⟩

/-- Claim C10, counterexample: for a prefix with `totalLength = 4294967295`,
`headLength = 0` and a header with `payload_size = 0` the decoded extra size is
0, while `max(0, totalLength - prefixSize - headLength - payload_size)` is
4294967287. -/
theorem C10_extra_size_wraps :
    (newDecoded exConsts exRaw exHeader ⟨4294967295, 0⟩ none 7).mExtraSize = 0
    ∧ max 0 ((4294967295 : Int) - mPrefixSize - 0 - exHeader.payload_size) = 4294967287 := by
  decide

/-- Claim C10, amended: the decoded extra size is never negative; it is
`max(0, d)` for `d = totalLength - prefixSize - headLength - payload_size`
narrowed to `int32_t`, hence `max(0, d)` itself whenever `d` lies in the
`int32_t` range. -/
theorem C10_decoded_extra_size (K : Consts) (raw : CFdbMessage) (head : FdbMessageHeader)
    (pfx : CFdbMsgPrefix) (buffer : Option Buffer) (sid : Nat) :
    0 ≤ (newDecoded K raw head pfx buffer sid).mExtraSize
    ∧ (newDecoded K raw head pfx buffer sid).mExtraSize
        = max 0 (toInt32 (pfx.mTotalLength - mPrefixSize - pfx.mHeadLength - head.payload_size))
    ∧ (-2147483648 ≤ pfx.mTotalLength - mPrefixSize - pfx.mHeadLength - head.payload_size →
       pfx.mTotalLength - mPrefixSize - pfx.mHeadLength - head.payload_size < 2147483648 →
       (newDecoded K raw head pfx buffer sid).mExtraSize
        = max 0 (pfx.mTotalLength - mPrefixSize - pfx.mHeadLength - head.payload_size)) := by
  have key : toInt32 (pfx.mTotalLength - mPrefixSize - toInt32 pfx.mHeadLength
        - toInt32 head.payload_size)
      = toInt32 (pfx.mTotalLength - mPrefixSize - pfx.mHeadLength - head.payload_size) := by
    unfold toInt32; omega
  simp only [newDecoded, key]
  refine ⟨?_, ?_, ?_⟩
  · split <;> omega
  · split <;> omega
  · intro h1 h2
    rw [toInt32_of_range _ h1 h2]
    split <;> omega

/-- Claim C10, witness: a prefix (120, 20) with an empty payload gives extra size 92. -/
theorem C10_decoded_extra_size_witness :
    (-2147483648 ≤ (120 : Int) - mPrefixSize - 20 - exHeader.payload_size)
    ∧ ((120 : Int) - mPrefixSize - 20 - exHeader.payload_size < 2147483648)
    ∧ (newDecoded exConsts exRaw exHeader ⟨120, 20⟩ none 7).mExtraSize
        = max 0 ((120 : Int) - mPrefixSize - 20 - exHeader.payload_size) :=
  ⟨by decide, by decide,
   (C10_decoded_extra_size exConsts exRaw exHeader ⟨120, 20⟩ none 7).2.2 (by decide) (by decide)⟩

/-! ## More lemmas on the operations -/

/-- What `serialize` without an object keeps. -/
theorem serialize_none_keeps (K : Consts) (ctx : CFdbContext) (m : CFdbMessage)
    (data : CFdbBasePayload) :
    (serialize K ctx m data none).2.mCode = m.mCode
    ∧ (serialize K ctx m data none).2.mSn = m.mSn
    ∧ (serialize K ctx m data none).2.mSid = m.mSid
    ∧ (serialize K ctx m data none).2.mOid = m.mOid
    ∧ (serialize K ctx m data none).2.mSenderName = m.mSenderName
    ∧ (serialize K ctx m data none).2.mExtraSize = m.mExtraSize := by
  have hr : ∀ x : CFdbMessage, (releaseBuffer K x).mCode = x.mCode
      ∧ (releaseBuffer K x).mSn = x.mSn ∧ (releaseBuffer K x).mSid = x.mSid
      ∧ (releaseBuffer K x).mOid = x.mOid ∧ (releaseBuffer K x).mSenderName = x.mSenderName
      ∧ (releaseBuffer K x).mExtraSize = x.mExtraSize := by
    intro x
    unfold releaseBuffer freeRawBuffer
    split <;> split <;> exact ⟨rfl, rfl, rfl, rfl, rfl, rfl⟩
  obtain ⟨h1, h2, h3, h4, h5, h6⟩ := hr { m with mOffset := 0, mHeadSize := K.mMaxHeadSize }
  unfold serialize
  simp only
  split
  · exact ⟨h1, h2, h3, h4, h5, h6⟩
  · cases data.bytes with
    | none => exact ⟨h1, h2, h3, h4, h5, h6⟩
    | some bytes =>
      simp only [setLogDataPtr]
      split
      · split
        · split <;> exact ⟨h1, h2, h3, h4, h5, h6⟩
        · exact ⟨h1, h2, h3, h4, h5, h6⟩
      · exact ⟨h1, h2, h3, h4, h5, h6⟩

/-- The fields and flags of the message `broadcast(code, ...)` constructs. -/
theorem broadcast_msg_spec (K : Consts) (hK : K.wf) (debugBase : Bool) (raw m : CFdbMessage)
    (code : Nat) (filter : Option String) (enc : Nat) :
    (broadcast_msg K debugBase raw m code filter enc).mType = MT_BROADCAST
    ∧ (broadcast_msg K debugBase raw m code filter enc).mCode = code
    ∧ (broadcast_msg K debugBase raw m code filter enc).mSn = m.mSn
    ∧ (broadcast_msg K debugBase raw m code filter enc).mSid = m.mSid
    ∧ (broadcast_msg K debugBase raw m code filter enc).mOid = m.mOid
    ∧ (broadcast_msg K debugBase raw m code filter enc).mSenderName = m.mSenderName
    ∧ hasFlag (broadcast_msg K debugBase raw m code filter enc).mFlag K.MSG_FLAG_DEBUG = debugBase
    ∧ hasFlag (broadcast_msg K debugBase raw m code filter enc).mFlag K.MSG_FLAG_MANUAL_UPDATE
        = hasFlag m.mFlag K.MSG_FLAG_MANUAL_UPDATE
    ∧ hasFlag (broadcast_msg K debugBase raw m code filter enc).mFlag K.MSG_FLAG_ENABLE_LOG
        = hasFlag m.mFlag K.MSG_FLAG_ENABLE_LOG := by
  cases debugBase <;> cases filter <;>
    simp only [broadcast_msg, CFdbBroadcastMsg.newFrom, CFdbDebugMsg.newFrom, newFrom,
      Consts.MSG_FLAG_DEBUG, Consts.MSG_FLAG_MANUAL_UPDATE, Consts.MSG_FLAG_ENABLE_LOG,
      hasFlag_bit, testBit_setFlag, testBit_bit, Nat.testBit_and, Nat.testBit_or,
      hK.bit_eq_iff, hK.encoding_testBit, Bool.false_eq_true, if_false, if_true] <;>
    simp

/-- What `getSession` keeps of the message. -/
theorem getSession_keeps (K : Consts) (ctx : CFdbContext) (m : CFdbMessage) :
    (getSession K ctx m).2.mExtraSize = m.mExtraSize
    ∧ (getSession K ctx m).2.mType = m.mType
    ∧ (getSession K ctx m).2.mTimer = m.mTimer
    ∧ (∀ j : Nat, j < 32 → j ≠ K.bit .Endpoint →
        (getSession K ctx m).2.mFlag.testBit j = m.mFlag.testBit j) := by
  simp only [getSession]
  cases hasFlag m.mFlag K.MSG_FLAG_ENDPOINT
  · simp
  · simp only [if_true]
    cases ctx.getEndpoint m.mEpid with
    | none => simp
    | some ep =>
      cases hp : ep.preferredPeer with
      | none => simp [hp]
      | some s =>
        simp only [hp, true_and]
        intro j hj hne
        have hne2 : ¬ K.bit .Endpoint = j := fun h => hne h.symm
        simp only [Consts.MSG_FLAG_ENDPOINT, testBit_clearFlag, testBit_bit, hj, hne2,
          decide_True, decide_False, Bool.xor_false, Bool.and_true]

/-- The log data `sendLog` leaves is what its first part leaves, and every
message it hands over has the extra size its first part set. -/
theorem sendLog_uses_clip (K : Consts) (ctx : CFdbContext) (m : CFdbMessage)
    (data : CFdbBasePayload) (log_data : Buffer) (size clipped_size : Int)
    (send_as_job : Bool) :
    (sendLog K ctx m data log_data size clipped_size send_as_job).2.2.1
        = (sendLog_clip K m log_data size clipped_size).2
    ∧ (∀ e ∈ (sendLog K ctx m data log_data size clipped_size send_as_job).2.2.2,
        ∀ x, e.msg? = some x →
          x.mExtraSize = (sendLog_clip K m log_data size clipped_size).1.mExtraSize)
    ∧ ((∀ e ∈ (sendLog K ctx m data log_data size clipped_size send_as_job).2.2.2,
          e.isSessionSend = false) →
        (sendLog K ctx m data log_data size clipped_size send_as_job).2.1.mExtraSize
          = (sendLog_clip K m log_data size clipped_size).1.mExtraSize) := by
  have hk := fun x => (serialize_none_keeps K ctx x data).2.2.2.2.2
  unfold sendLog
  generalize sendLog_clip K m log_data size clipped_size = c
  obtain ⟨m1, log1⟩ := c
  simp only
  have hx := hk m1
  generalize serialize K ctx m1 data none = s at hx
  obtain ⟨ok, m2⟩ := s
  simp only at hx ⊢
  cases ok
  · simp [hx]
  · simp only [Bool.not_true, Bool.false_eq_true, if_false]
    have hm2 : (sendLog_copy m2 log1 size).mExtraSize = m1.mExtraSize := by
      unfold sendLog_copy
      split <;> exact hx
    generalize sendLog_copy m2 log1 size = m3 at hm2 ⊢
    cases send_as_job
    · simp only [Bool.false_eq_true, if_false]
      have hg := (getSession_keeps K ctx m3).1
      generalize getSession K ctx m3 = g at hg
      obtain ⟨session, m4⟩ := g
      simp only at hg
      cases session with
      | none => simp [hg, hm2]
      | some sess =>
        simp only [List.mem_singleton, true_and]
        constructor
        · intro e he x hxe
          subst he
          simp only [Event.msg?, Option.some.injEq] at hxe
          subst hxe
          rw [hg, hm2]
        · intro hall
          have := hall _ rfl
          simp [Event.isSessionSend] at this
    · simp only [if_true, List.mem_singleton, true_and]
      constructor
      · intro e he x hxe
        subst he
        simp only [Event.msg?, Option.some.injEq] at hxe
        subst hxe
        exact hm2
      · intro _; exact hm2

/-- The rewriting of the embedded prefix in the first part of `sendLog`, for a
well-formed embedded prefix and sizes that fit an `int32_t`. -/
theorem sendLog_clip_spec (K : Consts) (m : CFdbMessage) (log_data : Buffer)
    (size clipped_size : Int)
    (hc : 0 ≤ clipped_size)
    (hwf : mPrefixSize + (CFdbMsgPrefix.deserialize log_data 0).mHeadLength
            ≤ (CFdbMsgPrefix.deserialize log_data 0).mTotalLength)
    (ht : (CFdbMsgPrefix.deserialize log_data 0).mTotalLength < 2147483648)
    (hcl : mPrefixSize + (CFdbMsgPrefix.deserialize log_data 0).mHeadLength + clipped_size
            < 2147483648) :
    (clipped_size = 0 →
      CFdbMsgPrefix.deserialize (sendLog_clip K m log_data size clipped_size).2 0
        = { mTotalLength := mPrefixSize + (CFdbMsgPrefix.deserialize log_data 0).mHeadLength,
            mHeadLength := (CFdbMsgPrefix.deserialize log_data 0).mHeadLength }
      ∧ (sendLog_clip K m log_data size clipped_size).1.mExtraSize
        = mPrefixSize + (CFdbMsgPrefix.deserialize log_data 0).mHeadLength)
    ∧ (0 < clipped_size →
       clipped_size < (CFdbMsgPrefix.deserialize log_data 0).mTotalLength
          - (CFdbMsgPrefix.deserialize log_data 0).mHeadLength - mPrefixSize →
      CFdbMsgPrefix.deserialize (sendLog_clip K m log_data size clipped_size).2 0
        = { mTotalLength := mPrefixSize + (CFdbMsgPrefix.deserialize log_data 0).mHeadLength
              + clipped_size,
            mHeadLength := (CFdbMsgPrefix.deserialize log_data 0).mHeadLength }
      ∧ (sendLog_clip K m log_data size clipped_size).1.mExtraSize
        = mPrefixSize + (CFdbMsgPrefix.deserialize log_data 0).mHeadLength + clipped_size)
    ∧ (0 < clipped_size →
       (CFdbMsgPrefix.deserialize log_data 0).mTotalLength
          - (CFdbMsgPrefix.deserialize log_data 0).mHeadLength - mPrefixSize ≤ clipped_size →
      (sendLog_clip K m log_data size clipped_size).2 = log_data
      ∧ (sendLog_clip K m log_data size clipped_size).1.mExtraSize = size) := by
  have hh0 : 0 ≤ (CFdbMsgPrefix.deserialize log_data 0).mHeadLength := by
    simp only [CFdbMsgPrefix.deserialize, readU32]; omega
  generalize hp : CFdbMsgPrefix.deserialize log_data 0 = p at *
  obtain ⟨t, h⟩ := p
  simp only [mPrefixSize] at hwf ht hcl hh0 ⊢
  have hps : toInt32 (t - h - 8) = t - h - 8 := toInt32_of_range _ (by omega) (by omega)
  refine ⟨?_, ?_, ?_⟩
  · intro h0
    subst h0
    simp only [sendLog_clip, hp, mPrefixSize, lt_self_iff_false, if_false, if_true]
    rw [CFdbMsgPrefix.deserialize_serialize]
    simp only [toUInt32, toInt32]
    refine ⟨?_, by omega⟩
    congr 1 <;> omega
  · intro hpos hlt
    have hn : ¬ clipped_size < 0 := by omega
    have hz : ¬ clipped_size = 0 := by omega
    simp only [sendLog_clip, hp, mPrefixSize, hn, hz, hps, hlt, if_false, if_true]
    rw [CFdbMsgPrefix.deserialize_serialize]
    simp only [toUInt32, toInt32]
    refine ⟨?_, by omega⟩
    congr 1 <;> omega
  · intro hpos hge
    have hn : ¬ clipped_size < 0 := by omega
    have hz : ¬ clipped_size = 0 := by omega
    have hnl : ¬ clipped_size < t - h - 8 := by omega
    simp only [sendLog_clip, hp, mPrefixSize, hn, hz, hps, hnl, if_false]
    exact ⟨trivial, trivial⟩

/-- The dispatcher on a request. -/
theorem run_request (K : Consts) (P : Proto) (O : ObjectTable) (ctx : CFdbContext)
    (m : CFdbMessage) (h : m.mType = MT_REQUEST ∨ m.mType = MT_SIDEBAND_REQUEST) :
    run K P O ctx m = doRequest K P ctx m := by
  simp [run, h]

/-- The dispatcher on a reply or status. -/
theorem run_reply (K : Consts) (P : Proto) (O : ObjectTable) (ctx : CFdbContext)
    (m : CFdbMessage)
    (h : m.mType = MT_REPLY ∨ m.mType = MT_SIDEBAND_REPLY ∨ m.mType = MT_STATUS) :
    run K P O ctx m = doReply K ctx m := by
  rcases h with h | h | h <;> simp [run, h, doStatus, MT_REPLY, MT_SIDEBAND_REPLY, MT_STATUS,
    MT_REQUEST, MT_SIDEBAND_REQUEST, MT_BROADCAST]

/-- The delivery calls and the error calls of `doBroadcast`, case by case. -/
theorem doBroadcast_cases (K : Consts) (O : ObjectTable) (ctx : CFdbContext)
    (m : CFdbMessage) :
    (hasFlag m.mFlag K.MSG_FLAG_ENDPOINT = true →
      ((doBroadcast K O ctx m).2.filter Event.isDelivery
          = (match ctx.getEndpoint m.mEpid with
             | some ep =>
               match O.endpointGetObject ep m with
               | some o => [Event.objectBroadcast o m]
               | none => []
             | none => []))
      ∧ ((doBroadcast K O ctx m).2.filter Event.isAsyncError
          = (match ctx.getEndpoint m.mEpid with
             | some ep =>
               match O.endpointGetObject ep m with
               | some _ => []
               | none => [Event.onAsyncError K.FDB_ST_INVALID_ID "Invalid object id!"]
             | none => [Event.onAsyncError K.FDB_ST_INVALID_ID "Invalid epid!"]))
      ∧ ((doBroadcast K O ctx m).2.filter Event.isDelivery = [] → (doBroadcast K O ctx m).1 = m))
    ∧ (hasFlag m.mFlag K.MSG_FLAG_ENDPOINT = false →
      ((doBroadcast K O ctx m).2.filter Event.isDelivery
          = (match ctx.getSession m.mSid with
             | some s =>
               match O.ownerGetObject s
                  { m with mFlag := setFlag m.mFlag K.MSG_FLAG_INITIAL_RESPONSE } with
               | some o =>
                 [Event.objectBroadcastTo o s.sid
                    { m with mFlag := setFlag m.mFlag K.MSG_FLAG_INITIAL_RESPONSE }]
               | none => []
             | none => []))
      ∧ ((doBroadcast K O ctx m).2.filter Event.isAsyncError
          = (match ctx.getSession m.mSid with
             | some s =>
               match O.ownerGetObject s
                  { m with mFlag := setFlag m.mFlag K.MSG_FLAG_INITIAL_RESPONSE } with
               | some o =>
                 if (O.broadcastTo o
                      { m with mFlag := setFlag m.mFlag K.MSG_FLAG_INITIAL_RESPONSE } s).1
                 then []
                 else [Event.onAsyncError K.FDB_ST_INVALID_ID "Not subscribed or fail to send!"]
               | none => [Event.onAsyncError K.FDB_ST_INVALID_ID "Invalid object id!"]
             | none => [Event.onAsyncError K.FDB_ST_INVALID_ID "Invalid sid!"]))
      ∧ ((doBroadcast K O ctx m).2.filter Event.isDelivery = [] →
          (doBroadcast K O ctx m).1
            = { m with mFlag := setFlag m.mFlag K.MSG_FLAG_INITIAL_RESPONSE })) := by
  constructor
  · intro he
    simp only [doBroadcast, he, if_true]
    cases ctx.getEndpoint m.mEpid with
    | none => simp [Event.isDelivery, Event.isAsyncError]
    | some ep =>
      simp only
      cases O.endpointGetObject ep m with
      | none => simp [Event.isDelivery, Event.isAsyncError]
      | some o => simp [Event.isDelivery, Event.isAsyncError]
  · intro he
    simp only [doBroadcast, he, Bool.false_eq_true, if_false]
    cases ctx.getSession m.mSid with
    | none => simp [Event.isDelivery, Event.isAsyncError]
    | some s =>
      simp only
      cases O.ownerGetObject s { m with mFlag := setFlag m.mFlag K.MSG_FLAG_INITIAL_RESPONSE } with
      | none => simp [Event.isDelivery, Event.isAsyncError]
      | some o =>
        simp only
        cases (O.broadcastTo o
          { m with mFlag := setFlag m.mFlag K.MSG_FLAG_INITIAL_RESPONSE } s).1 <;>
          simp [Event.isDelivery, Event.isAsyncError]

/-- Claim C11: on a message without HeadOk whose encoded header size exceeds
`mMaxHeadSize`, `buildHeader` returns false, leaves HeadOk clear and leaves head
size and offset as they were; and when `buildHeader` returns true on a message
without HeadOk, the encoded header size, which is then the head size of the
message, is at most `mMaxHeadSize`. -/
theorem C11_head_too_long (K : Consts) (P : Proto) (ctx : CFdbContext) (m : CFdbMessage)
    (session : CFdbSession) (hhead : hasFlag m.mFlag K.MSG_FLAG_HEAD_OK = false) :
    (toInt32 (P.headByteSize (buildHeader_msg_hdr K ctx m session).2) > K.mMaxHeadSize →
      (buildHeader K P ctx m session).1 = false
      ∧ hasFlag (buildHeader K P ctx m session).2.mFlag K.MSG_FLAG_HEAD_OK = false
      ∧ (buildHeader K P ctx m session).2.mHeadSize = m.mHeadSize
      ∧ (buildHeader K P ctx m session).2.mOffset = m.mOffset)
    ∧ ((buildHeader K P ctx m session).1 = true →
      toInt32 (P.headByteSize (buildHeader_msg_hdr K ctx m session).2) ≤ K.mMaxHeadSize
      ∧ (buildHeader K P ctx m session).2.mHeadSize ≤ K.mMaxHeadSize) := by
  constructor
  · intro hbig
    have hspec := (buildHeader_msg_hdr_spec K ctx m session).2.2.2.2.2.2.2
    revert hbig
    unfold buildHeader
    simp only [hhead, Bool.false_eq_true, if_false]
    generalize buildHeader_msg_hdr K ctx m session = r at hspec ⊢
    obtain ⟨m1, hdr⟩ := r
    intro hbig
    simp only at hspec hbig ⊢
    rw [if_pos hbig]
    rcases hspec with h | h <;> subst h <;> exact ⟨rfl, hhead, rfl, rfl⟩
  · intro hok
    obtain ⟨f1, f2, _⟩ := buildHeader_fresh K P ctx m session hhead hok
    exact ⟨by rw [← f1]; exact f2, f2⟩

/-- Claim C11, witness: a 200-byte header is refused, a 20-byte header is encoded. -/
theorem C11_head_too_long_witness :
    hasFlag exRequest.mFlag exConsts.MSG_FLAG_HEAD_OK = false
    ∧ toInt32 (exProtoLong.headByteSize (buildHeader_msg_hdr exConsts exCtx exRequest exSession).2)
        > exConsts.mMaxHeadSize
    ∧ (buildHeader exConsts exProtoLong exCtx exRequest exSession).1 = false
    ∧ (buildHeader exConsts exProto exCtx exRequest exSession).1 = true
    ∧ (buildHeader exConsts exProto exCtx exRequest exSession).2.mHeadSize
        ≤ exConsts.mMaxHeadSize :=
  ⟨by decide, by decide,
   ((C11_head_too_long exConsts exProtoLong exCtx exRequest exSession (by decide)).1
      (by decide)).1,
   by decide,
   ((C11_head_too_long exConsts exProto exCtx exRequest exSession (by decide)).2
      (by decide)).2⟩

/-- Claim C12: a successful `buildHeader` leaves HeadOk set; on a message with
HeadOk set `buildHeader` returns true and leaves the whole message (flags, head
size, offset, buffer) as it is; so a second `buildHeader` after a successful one
returns true and gives the same state as the first. -/
theorem C12_buildHeader_idempotent (K : Consts) (P : Proto) (ctx : CFdbContext)
    (m : CFdbMessage) (session session2 : CFdbSession) :
    ((buildHeader K P ctx m session).1 = true →
      hasFlag (buildHeader K P ctx m session).2.mFlag K.MSG_FLAG_HEAD_OK = true)
    ∧ (hasFlag m.mFlag K.MSG_FLAG_HEAD_OK = true → buildHeader K P ctx m session = (true, m))
    ∧ ((buildHeader K P ctx m session).1 = true →
      buildHeader K P ctx (buildHeader K P ctx m session).2 session2
        = (true, (buildHeader K P ctx m session).2)) := by
  have hset : (buildHeader K P ctx m session).1 = true →
      hasFlag (buildHeader K P ctx m session).2.mFlag K.MSG_FLAG_HEAD_OK = true := by
    intro hok
    cases hh : hasFlag m.mFlag K.MSG_FLAG_HEAD_OK
    · obtain ⟨_, _, _, _, _, f6, _⟩ := buildHeader_fresh K P ctx m session hh hok
      rw [f6]
      simp [Consts.MSG_FLAG_HEAD_OK, hasFlag_bit, testBit_setFlag, testBit_bit]
    · simp [buildHeader, hh]
  have hkeep : ∀ (x : CFdbMessage) (s : CFdbSession),
      hasFlag x.mFlag K.MSG_FLAG_HEAD_OK = true → buildHeader K P ctx x s = (true, x) := by
    intro x s hx
    simp [buildHeader, hx]
  exact ⟨hset, hkeep m session, fun hok => hkeep _ session2 (hset hok)⟩

/-- Claim C12, witness: encoding the header of `exRequest` twice. -/
theorem C12_buildHeader_idempotent_witness :
    (buildHeader exConsts exProto exCtx exRequest exSession).1 = true
    ∧ hasFlag (buildHeader exConsts exProto exCtx exRequest exSession).2.mFlag
        exConsts.MSG_FLAG_HEAD_OK = true
    ∧ buildHeader exConsts exProto exCtx
        (buildHeader exConsts exProto exCtx exRequest exSession).2 exSession
        = (true, (buildHeader exConsts exProto exCtx exRequest exSession).2) :=
  ⟨by decide,
   (C12_buildHeader_idempotent exConsts exProto exCtx exRequest exSession exSession).1
      (by decide),
   (C12_buildHeader_idempotent exConsts exProto exCtx exRequest exSession exSession).2.2
      (by decide)⟩

/-- Claim C13, counterexample: for log data with embedded prefix (120, 20), hence an
embedded payload of 92 bytes, `sendLog` with `size = 120` and
`clipped_size = 100` leaves the embedded `totalLength` at 120, not at
`prefixSize + headLength + 100 = 128`, and the extra size is 120. -/
theorem C13_large_clip_keeps_prefix :
    (CFdbMsgPrefix.deserialize exLogData 0).mTotalLength = 120
    ∧ (CFdbMsgPrefix.deserialize exLogData 0).mHeadLength = 20
    ∧ (CFdbMsgPrefix.deserialize
        (sendLog exConsts exCtx exRaw exPayload exLogData 120 100 true).2.2.1 0).mTotalLength
        = 120
    ∧ mPrefixSize + 20 + 100 = 128
    ∧ (sendLog exConsts exCtx exRaw exPayload exLogData 120 100 true).2.1.mExtraSize = 120 := by
  decide

/-- Claim C13, amended: for log data whose embedded prefix (totalLength,
headLength) is well formed (`prefixSize + headLength <= totalLength < 2^31`) and a
`clipped_size >= 0` with `prefixSize + headLength + clipped_size < 2^31`, `sendLog`
rewrites the embedded `totalLength` to `prefixSize + headLength` when
`clipped_size = 0`, and to `prefixSize + headLength + clipped_size` when
`0 < clipped_size < totalLength - headLength - prefixSize`, and every message it
hands over then has that value as extra size; when `clipped_size` is positive and
at least the embedded payload size `totalLength - headLength - prefixSize`, the
log data is left as it is and the extra size is `size`.  Unless a session send
has been made, the message `sendLog` leaves has the extra size of the message
handed over, and it has the extra size named above also when nothing is handed
over (the payload does not serialize, or no session is found). -/
theorem C13_sendLog_clipping (K : Consts) (ctx : CFdbContext) (m : CFdbMessage)
    (data : CFdbBasePayload) (log_data : Buffer) (size clipped_size : Int)
    (send_as_job : Bool)
    (hc : 0 ≤ clipped_size)
    (hwf : mPrefixSize + (CFdbMsgPrefix.deserialize log_data 0).mHeadLength
            ≤ (CFdbMsgPrefix.deserialize log_data 0).mTotalLength)
    (ht : (CFdbMsgPrefix.deserialize log_data 0).mTotalLength < 2147483648)
    (hcl : mPrefixSize + (CFdbMsgPrefix.deserialize log_data 0).mHeadLength + clipped_size
            < 2147483648) :
    (clipped_size = 0 →
      (CFdbMsgPrefix.deserialize
          (sendLog K ctx m data log_data size clipped_size send_as_job).2.2.1 0).mTotalLength
        = mPrefixSize + (CFdbMsgPrefix.deserialize log_data 0).mHeadLength
      ∧ ∀ e ∈ (sendLog K ctx m data log_data size clipped_size send_as_job).2.2.2,
        ∀ x, e.msg? = some x →
          x.mExtraSize = mPrefixSize + (CFdbMsgPrefix.deserialize log_data 0).mHeadLength)
    ∧ (0 < clipped_size →
       clipped_size < (CFdbMsgPrefix.deserialize log_data 0).mTotalLength
          - (CFdbMsgPrefix.deserialize log_data 0).mHeadLength - mPrefixSize →
      (CFdbMsgPrefix.deserialize
          (sendLog K ctx m data log_data size clipped_size send_as_job).2.2.1 0).mTotalLength
        = mPrefixSize + (CFdbMsgPrefix.deserialize log_data 0).mHeadLength + clipped_size
      ∧ ∀ e ∈ (sendLog K ctx m data log_data size clipped_size send_as_job).2.2.2,
        ∀ x, e.msg? = some x →
          x.mExtraSize = mPrefixSize + (CFdbMsgPrefix.deserialize log_data 0).mHeadLength
            + clipped_size)
    ∧ (0 < clipped_size →
       (CFdbMsgPrefix.deserialize log_data 0).mTotalLength
          - (CFdbMsgPrefix.deserialize log_data 0).mHeadLength - mPrefixSize ≤ clipped_size →
      (sendLog K ctx m data log_data size clipped_size send_as_job).2.2.1 = log_data
      ∧ ∀ e ∈ (sendLog K ctx m data log_data size clipped_size send_as_job).2.2.2,
        ∀ x, e.msg? = some x → x.mExtraSize = size)
    ∧ ((∀ e ∈ (sendLog K ctx m data log_data size clipped_size send_as_job).2.2.2,
          e.isSessionSend = false) →
        ∀ e ∈ (sendLog K ctx m data log_data size clipped_size send_as_job).2.2.2,
          ∀ x, e.msg? = some x →
            x.mExtraSize
              = (sendLog K ctx m data log_data size clipped_size send_as_job).2.1.mExtraSize)
    ∧ ((∀ e ∈ (sendLog K ctx m data log_data size clipped_size send_as_job).2.2.2,
          e.isSessionSend = false) →
        (clipped_size = 0 →
          (sendLog K ctx m data log_data size clipped_size send_as_job).2.1.mExtraSize
            = mPrefixSize + (CFdbMsgPrefix.deserialize log_data 0).mHeadLength)
        ∧ (0 < clipped_size →
           clipped_size < (CFdbMsgPrefix.deserialize log_data 0).mTotalLength
              - (CFdbMsgPrefix.deserialize log_data 0).mHeadLength - mPrefixSize →
          (sendLog K ctx m data log_data size clipped_size send_as_job).2.1.mExtraSize
            = mPrefixSize + (CFdbMsgPrefix.deserialize log_data 0).mHeadLength + clipped_size)
        ∧ (0 < clipped_size →
           (CFdbMsgPrefix.deserialize log_data 0).mTotalLength
              - (CFdbMsgPrefix.deserialize log_data 0).mHeadLength - mPrefixSize
             ≤ clipped_size →
          (sendLog K ctx m data log_data size clipped_size send_as_job).2.1.mExtraSize
            = size)) := by
  obtain ⟨u1, u2, u3⟩ := sendLog_uses_clip K ctx m data log_data size clipped_size send_as_job
  obtain ⟨s1, s2, s3⟩ := sendLog_clip_spec K m log_data size clipped_size hc hwf ht hcl
  refine ⟨?_, ?_, ?_, ?_, ?_⟩
  · intro h0
    obtain ⟨a, b⟩ := s1 h0
    rw [u1, a]
    exact ⟨rfl, fun e he x hx => by rw [u2 e he x hx, b]⟩
  · intro hpos hlt
    obtain ⟨a, b⟩ := s2 hpos hlt
    rw [u1, a]
    exact ⟨rfl, fun e he x hx => by rw [u2 e he x hx, b]⟩
  · intro hpos hge
    obtain ⟨a, b⟩ := s3 hpos hge
    rw [u1, a]
    exact ⟨rfl, fun e he x hx => by rw [u2 e he x hx, b]⟩
  · intro hall e he x hx
    rw [u2 e he x hx, u3 hall]
  · intro hall
    refine ⟨?_, ?_, ?_⟩
    · intro h0
      rw [u3 hall, (s1 h0).2]
    · intro hpos hlt
      rw [u3 hall, (s2 hpos hlt).2]
    · intro hpos hge
      rw [u3 hall, (s3 hpos hge).2]

/-- Claim C13, witness: `size = 120`, `clipped_size = 32`, embedded prefix (120, 20):
the embedded `totalLength` becomes `prefixSize + headLength + 32` and the extra
size 60. -/
theorem C13_sendLog_clipping_witness :
    (0 : Int) ≤ 32
    ∧ mPrefixSize + (CFdbMsgPrefix.deserialize exLogData 0).mHeadLength
        ≤ (CFdbMsgPrefix.deserialize exLogData 0).mTotalLength
    ∧ (CFdbMsgPrefix.deserialize exLogData 0).mTotalLength < 2147483648
    ∧ mPrefixSize + (CFdbMsgPrefix.deserialize exLogData 0).mHeadLength + 32 < 2147483648
    ∧ (0 : Int) < 32
    ∧ (32 : Int) < (CFdbMsgPrefix.deserialize exLogData 0).mTotalLength
          - (CFdbMsgPrefix.deserialize exLogData 0).mHeadLength - mPrefixSize
    ∧ (CFdbMsgPrefix.deserialize
          (sendLog exConsts exCtx exRaw exPayload exLogData 120 32 true).2.2.1 0).mTotalLength
        = mPrefixSize + (CFdbMsgPrefix.deserialize exLogData 0).mHeadLength + 32
    ∧ (sendLog exConsts exCtx exRaw exPayload exLogData 120 32 true).2.1.mExtraSize = 60 :=
  ⟨by decide, by decide, by decide, by decide, by decide, by decide,
   ((C13_sendLog_clipping exConsts exCtx exRaw exPayload exLogData 120 32 true
      (by decide) (by decide) (by decide) (by decide)).2.1 (by decide) (by decide)).1,
   by decide⟩

/-- Claim C15: when the Endpoint flag is clear `doBroadcast` sets InitialResponse,
and the delivery calls it makes are the one call `object->broadcast(msg, session)`
for the session the context has for `mSid`, with the flag set, when session and
object are found, and none otherwise; when the Endpoint flag is set the delivery
calls are the one call `object->broadcast(msg)` on the object of endpoint `mEpid`,
with the message as it was, when endpoint and object are found, and none
otherwise.  When no delivery call is made the message returned is the original,
with InitialResponse set in the first case and unchanged in the second. -/
theorem C15_doBroadcast_routes (K : Consts) (O : ObjectTable) (ctx : CFdbContext)
    (m : CFdbMessage) :
    (hasFlag m.mFlag K.MSG_FLAG_ENDPOINT = false →
      hasFlag ({ m with mFlag := setFlag m.mFlag K.MSG_FLAG_INITIAL_RESPONSE } : CFdbMessage).mFlag
          K.MSG_FLAG_INITIAL_RESPONSE = true
      ∧ ((doBroadcast K O ctx m).2.filter Event.isDelivery
          = (match ctx.getSession m.mSid with
             | some s =>
               match O.ownerGetObject s
                  { m with mFlag := setFlag m.mFlag K.MSG_FLAG_INITIAL_RESPONSE } with
               | some o =>
                 [Event.objectBroadcastTo o s.sid
                    { m with mFlag := setFlag m.mFlag K.MSG_FLAG_INITIAL_RESPONSE }]
               | none => []
             | none => []))
      ∧ ((doBroadcast K O ctx m).2.filter Event.isDelivery = [] →
          (doBroadcast K O ctx m).1
            = { m with mFlag := setFlag m.mFlag K.MSG_FLAG_INITIAL_RESPONSE }))
    ∧ (hasFlag m.mFlag K.MSG_FLAG_ENDPOINT = true →
      ((doBroadcast K O ctx m).2.filter Event.isDelivery
          = (match ctx.getEndpoint m.mEpid with
             | some ep =>
               match O.endpointGetObject ep m with
               | some o => [Event.objectBroadcast o m]
               | none => []
             | none => []))
      ∧ ((doBroadcast K O ctx m).2.filter Event.isDelivery = [] →
          (doBroadcast K O ctx m).1 = m)) := by
  obtain ⟨h1, h2⟩ := doBroadcast_cases K O ctx m
  constructor
  · intro he
    refine ⟨?_, (h2 he).1, (h2 he).2.2⟩
    simp [Consts.MSG_FLAG_INITIAL_RESPONSE, hasFlag_bit, testBit_setFlag, testBit_bit]
  · intro he
    exact ⟨(h1 he).1, (h1 he).2.2⟩

/-- Claim C15, witness: a broadcast to session 7 makes one delivery call. -/
theorem C15_doBroadcast_routes_witness :
    hasFlag ({ exRaw with mType := MT_BROADCAST, mSid := 7 } : CFdbMessage).mFlag
        exConsts.MSG_FLAG_ENDPOINT = false
    ∧ ((doBroadcast exConsts exObjects exCtx
          { exRaw with mType := MT_BROADCAST, mSid := 7 }).2.filter Event.isDelivery).length = 1
    ∧ hasFlag ({ ({ exRaw with mType := MT_BROADCAST, mSid := 7 } : CFdbMessage) with
          mFlag := setFlag ({ exRaw with mType := MT_BROADCAST, mSid := 7 } : CFdbMessage).mFlag
            exConsts.MSG_FLAG_INITIAL_RESPONSE } : CFdbMessage).mFlag
        exConsts.MSG_FLAG_INITIAL_RESPONSE = true :=
  ⟨by decide, by decide,
   ((C15_doBroadcast_routes exConsts exObjects exCtx
      { exRaw with mType := MT_BROADCAST, mSid := 7 }).1 (by decide)).1⟩

/-- Claim C16: `parseTimestamp` gives `client_to_server = 0` if send or arrive is 0,
`server_to_reply = 0` if arrive or reply is 0, `reply_to_client = 0` if reply or
receive is 0 and `total = 0` if send or receive is 0; and, for a timer whose
`reset` gives the state of a new timer, each output is the same for any two
records that agree on its own two time stamps. -/
theorem C16_parseTimestamp (σ : Type) (T : CNanoTimer σ) (metadata : CFdbMsgMetadata)
    (hreset : ∀ s : σ, T.reset s = T.fresh) :
    ((metadata.mSendTime = 0 ∨ metadata.mArriveTime = 0) → (parseTimestamp T metadata).1 = 0)
    ∧ ((metadata.mArriveTime = 0 ∨ metadata.mReplyTime = 0) →
        (parseTimestamp T metadata).2.1 = 0)
    ∧ ((metadata.mReplyTime = 0 ∨ metadata.mReceiveTime = 0) →
        (parseTimestamp T metadata).2.2.1 = 0)
    ∧ ((metadata.mSendTime = 0 ∨ metadata.mReceiveTime = 0) →
        (parseTimestamp T metadata).2.2.2 = 0)
    ∧ (∀ other : CFdbMsgMetadata,
        (other.mSendTime = metadata.mSendTime → other.mArriveTime = metadata.mArriveTime →
          (parseTimestamp T other).1 = (parseTimestamp T metadata).1)
        ∧ (other.mArriveTime = metadata.mArriveTime → other.mReplyTime = metadata.mReplyTime →
          (parseTimestamp T other).2.1 = (parseTimestamp T metadata).2.1)
        ∧ (other.mReplyTime = metadata.mReplyTime → other.mReceiveTime = metadata.mReceiveTime →
          (parseTimestamp T other).2.2.1 = (parseTimestamp T metadata).2.2.1)
        ∧ (other.mSendTime = metadata.mSendTime → other.mReceiveTime = metadata.mReceiveTime →
          (parseTimestamp T other).2.2.2 = (parseTimestamp T metadata).2.2.2)) := by
  have key : ∀ md : CFdbMsgMetadata,
      (parseTimestamp T md).1
          = (if md.mSendTime = 0 ∨ md.mArriveTime = 0 then 0 else
              T.getTotalMicroseconds (T.stopTimer (T.startTimer T.fresh md.mSendTime)
                md.mArriveTime))
      ∧ (parseTimestamp T md).2.1
          = (if md.mArriveTime = 0 ∨ md.mReplyTime = 0 then 0 else
              T.getTotalMicroseconds (T.stopTimer (T.startTimer T.fresh md.mArriveTime)
                md.mReplyTime))
      ∧ (parseTimestamp T md).2.2.1
          = (if md.mReplyTime = 0 ∨ md.mReceiveTime = 0 then 0 else
              T.getTotalMicroseconds (T.stopTimer (T.startTimer T.fresh md.mReplyTime)
                md.mReceiveTime))
      ∧ (parseTimestamp T md).2.2.2
          = (if md.mSendTime = 0 ∨ md.mReceiveTime = 0 then 0 else
              T.getTotalMicroseconds (T.stopTimer (T.startTimer T.fresh md.mSendTime)
                md.mReceiveTime)) := by
    intro md
    simp only [parseTimestamp, hreset]
    refine ⟨?_, ?_, ?_, ?_⟩ <;> first | trivial | (split_ifs <;> rfl)
  obtain ⟨k1, k2, k3, k4⟩ := key metadata
  refine ⟨?_, ?_, ?_, ?_, ?_⟩
  · intro h; rw [k1, if_pos h]
  · intro h; rw [k2, if_pos h]
  · intro h; rw [k3, if_pos h]
  · intro h; rw [k4, if_pos h]
  · intro other
    obtain ⟨o1, o2, o3, o4⟩ := key other
    refine ⟨?_, ?_, ?_, ?_⟩
    · intro h1 h2; rw [o1, k1, h1, h2]
    · intro h1 h2; rw [o2, k2, h1, h2]
    · intro h1 h2; rw [o3, k3, h1, h2]
    · intro h1 h2; rw [o4, k4, h1, h2]

/-- Claim C16, witness: a record without send time, with the timer `exNanoTimer`. -/
theorem C16_parseTimestamp_witness :
    (∀ s : Nat × Nat, exNanoTimer.reset s = exNanoTimer.fresh)
    ∧ (parseTimestamp exNanoTimer
        { mSendTime := 0, mArriveTime := 5000, mReplyTime := 9000, mReceiveTime := 12000 }).1 = 0
    ∧ (parseTimestamp exNanoTimer
        { mSendTime := 0, mArriveTime := 5000, mReplyTime := 9000, mReceiveTime := 12000 }).2.1
        = 4 :=
  ⟨fun _ => rfl,
   (C16_parseTimestamp (Nat × Nat) exNanoTimer
      { mSendTime := 0, mArriveTime := 5000, mReplyTime := 9000, mReceiveTime := 12000 }
      (fun _ => rfl)).1 (Or.inl rfl),
   by decide⟩

/-- Claim C17: `setDestination` with a valid alt id stores it in `mSid` and clears
the Endpoint flag, whatever the default session of the object; otherwise with a
valid default session it stores that in `mSid` and clears the Endpoint flag;
otherwise it stores the endpoint id of the object in `mEpid` and sets the
Endpoint flag.  In all cases `mOid` becomes the id of the object and every bit of
the 32-bit flag word other than Endpoint is left as it was. -/
theorem C17_setDestination_routes (K : Consts) (hK : K.wf) (m : CFdbMessage)
    (obj : CFdbBaseObject) (alt_sid : Nat) :
    (isValidFdbId K alt_sid = true →
      (setDestination K m obj alt_sid).mSid = alt_sid
      ∧ hasFlag (setDestination K m obj alt_sid).mFlag K.MSG_FLAG_ENDPOINT = false)
    ∧ (isValidFdbId K alt_sid = false → isValidFdbId K obj.getDefaultSession = true →
      (setDestination K m obj alt_sid).mSid = obj.getDefaultSession
      ∧ hasFlag (setDestination K m obj alt_sid).mFlag K.MSG_FLAG_ENDPOINT = false)
    ∧ (isValidFdbId K alt_sid = false → isValidFdbId K obj.getDefaultSession = false →
      (setDestination K m obj alt_sid).mEpid = obj.epid
      ∧ hasFlag (setDestination K m obj alt_sid).mFlag K.MSG_FLAG_ENDPOINT = true)
    ∧ (setDestination K m obj alt_sid).mOid = obj.objId
    ∧ (∀ j : Nat, j < 32 → j ≠ K.bit .Endpoint →
      (setDestination K m obj alt_sid).mFlag.testBit j = m.mFlag.testBit j) := by
  obtain ⟨r1, r2, r3, r4⟩ := setDestination_route K hK m obj alt_sid
  refine ⟨?_, ?_, ?_, ?_, ?_⟩
  · intro h1
    exact ⟨r2 h1, by rw [r1, h1]; rfl⟩
  · intro h1 h2
    exact ⟨r3 h1 h2, by rw [r1, h1, h2]; rfl⟩
  · intro h1 h2
    exact ⟨(r4 h1 h2).2, by rw [r1, h1, h2]; rfl⟩
  · simp only [setDestination]
  · intro j hj hne
    simp only [setDestination]
    have hne2 : ¬ K.bit .Endpoint = j := fun h => hne h.symm
    split
    · simp only [Consts.MSG_FLAG_ENDPOINT, testBit_clearFlag, testBit_bit, hj, hne2,
        decide_True, decide_False, Bool.xor_false, Bool.and_true]
    · split
      · simp only [Consts.MSG_FLAG_ENDPOINT, testBit_clearFlag, testBit_bit, hj, hne2,
          decide_True, decide_False, Bool.xor_false, Bool.and_true]
      · simp only [Consts.MSG_FLAG_ENDPOINT, testBit_setFlag, testBit_bit, hne2,
          decide_False, Bool.or_false]

/-- Claim C17, witness: alt id 5 wins over the valid default session 7 of `exObject`. -/
theorem C17_setDestination_routes_witness :
    exConsts.wf
    ∧ isValidFdbId exConsts 5 = true
    ∧ isValidFdbId exConsts exObject.getDefaultSession = true
    ∧ (setDestination exConsts exRaw exObject 5).mSid = 5
    ∧ hasFlag (setDestination exConsts exRaw exObject 5).mFlag exConsts.MSG_FLAG_ENDPOINT
        = false :=
  ⟨by decide, by decide, by decide,
   ((C17_setDestination_routes exConsts (by decide) exRaw exObject 5).1 (by decide)).1,
   ((C17_setDestination_routes exConsts (by decide) exRaw exObject 5).1 (by decide)).2⟩

/-- Claim C18, counterexample: for ordinal 3 `getMsgTypeName` returns "Subscribe", not
"SubscribeRequest". -/
theorem C18_subscribe_name :
    getMsgTypeName MT_SUBSCRIBE_REQ = some "Subscribe"
    ∧ getMsgTypeName MT_SUBSCRIBE_REQ ≠ some "SubscribeRequest" := by
  decide

/-- Claim C18, amended: `getMsgTypeName` returns for the ordinals 0 to 7 the names
Unknown, Request, Reply, Subscribe, Broadcast, SidebandRequest, SidebandReply,
Status; it returns null for every type at or above `MT_MAX`, and below `MT_MAX`
the index is inside the 8-entry table. -/
theorem C18_getMsgTypeName (type : Nat) :
    getMsgTypeName 0 = some "Unknown"
    ∧ getMsgTypeName 1 = some "Request"
    ∧ getMsgTypeName 2 = some "Reply"
    ∧ getMsgTypeName 3 = some "Subscribe"
    ∧ getMsgTypeName 4 = some "Broadcast"
    ∧ getMsgTypeName 5 = some "SidebandRequest"
    ∧ getMsgTypeName 6 = some "SidebandReply"
    ∧ getMsgTypeName 7 = some "Status"
    ∧ (type ≥ MT_MAX → getMsgTypeName type = none)
    ∧ (type < MT_MAX → type < type_name.length ∧ getMsgTypeName type = type_name[type]?) := by
  refine ⟨by decide, by decide, by decide, by decide, by decide, by decide, by decide,
    by decide, ?_, ?_⟩
  · intro h
    simp [getMsgTypeName, h]
  · intro h
    have h8 : type < 8 := h
    have hl : type_name.length = 8 := rfl
    refine ⟨by omega, ?_⟩
    have hn : ¬ type ≥ MT_MAX := by unfold MT_MAX; omega
    simp only [getMsgTypeName, hn, if_false]
    rw [List.getD_eq_getElem?_getD, List.getElem?_eq_getElem (by omega)]
    rfl

/-- Claim C18, witness: type 9 gives null, type 3 indexes the table. -/
theorem C18_getMsgTypeName_witness :
    (9 ≥ MT_MAX) ∧ getMsgTypeName 9 = none
    ∧ (3 < MT_MAX) ∧ 3 < type_name.length ∧ getMsgTypeName 3 = type_name[3]? :=
  ⟨by decide, (C18_getMsgTypeName 9).2.2.2.2.2.2.2.2.1 (by decide), by decide,
   (C18_getMsgTypeName 3).2.2.2.2.2.2.2.2.2 (by decide)⟩

/-- Claim C19, counterexample: with `CFdbMessage` as base class, the broadcast message
made from a message that has the Debug flag has no Debug flag, also when it is
handed to the context; with `CFdbDebugMsg` as base class, the broadcast message
made from a message without the Debug flag has it. -/
theorem C19_debug_flag_not_shared :
    hasFlag exDebugFlagged.mFlag exConsts.MSG_FLAG_DEBUG = true
    ∧ hasFlag (broadcast_msg exConsts false exRaw exDebugFlagged 400 none 0).mFlag
        exConsts.MSG_FLAG_DEBUG = false
    ∧ (broadcast exConsts false exCtx exRaw exDebugFlagged 400 exPayload none 0).2.1.map
        (fun x => hasFlag x.mFlag exConsts.MSG_FLAG_DEBUG) = some false
    ∧ hasFlag exRaw.mFlag exConsts.MSG_FLAG_DEBUG = false
    ∧ hasFlag (broadcast_msg exConsts true exRaw exRaw 400 none 0).mFlag
        exConsts.MSG_FLAG_DEBUG = true := by
  decide

/-- Claim C19, amended: the broadcast message `m.broadcast(code, ...)` constructs has
type Broadcast, the given code, and the serial number, session id, object id and
sender name of `m`; it has the ManualUpdate and EnableLog flags of `m`, and its
Debug flag is set exactly when the base class of `CFdbBroadcastMsg` is
`CFdbDebugMsg`, whatever the Debug flag of `m`.  When the payload serializes, the
message handed to the context has the same type, code, serial number, session id,
object id, sender name and Debug flag. -/
theorem C19_broadcast_from_message (K : Consts) (hK : K.wf) (debugBase : Bool)
    (ctx : CFdbContext) (raw m : CFdbMessage) (code : Nat) (data : CFdbBasePayload)
    (filter : Option String) (enc : Nat) :
    ((broadcast_msg K debugBase raw m code filter enc).mType = MT_BROADCAST
      ∧ (broadcast_msg K debugBase raw m code filter enc).mCode = code
      ∧ (broadcast_msg K debugBase raw m code filter enc).mSn = m.mSn
      ∧ (broadcast_msg K debugBase raw m code filter enc).mSid = m.mSid
      ∧ (broadcast_msg K debugBase raw m code filter enc).mOid = m.mOid
      ∧ (broadcast_msg K debugBase raw m code filter enc).mSenderName = m.mSenderName
      ∧ hasFlag (broadcast_msg K debugBase raw m code filter enc).mFlag K.MSG_FLAG_DEBUG
          = debugBase
      ∧ hasFlag (broadcast_msg K debugBase raw m code filter enc).mFlag K.MSG_FLAG_MANUAL_UPDATE
          = hasFlag m.mFlag K.MSG_FLAG_MANUAL_UPDATE
      ∧ hasFlag (broadcast_msg K debugBase raw m code filter enc).mFlag K.MSG_FLAG_ENABLE_LOG
          = hasFlag m.mFlag K.MSG_FLAG_ENABLE_LOG)
    ∧ (∀ x : CFdbMessage,
        (broadcast K debugBase ctx raw m code data filter enc).2.1 = some x →
        (broadcast K debugBase ctx raw m code data filter enc).2.2
            = [Event.ctxSendAsyncEndeavor x]
        ∧ x.mType = MT_BROADCAST ∧ x.mCode = code ∧ x.mSn = m.mSn ∧ x.mSid = m.mSid
        ∧ x.mOid = m.mOid ∧ x.mSenderName = m.mSenderName
        ∧ hasFlag x.mFlag K.MSG_FLAG_DEBUG = debugBase) := by
  have hb := broadcast_msg_spec K hK debugBase raw m code filter enc
  refine ⟨hb, ?_⟩
  intro x hx
  obtain ⟨b1, b2, b3, b4, b5, b6, b7, _, _⟩ := hb
  obtain ⟨k1, k2, k3, k4, k5, _⟩ :=
    serialize_none_keeps K ctx (broadcast_msg K debugBase raw m code filter enc) data
  obtain ⟨kf, _⟩ :=
    serialize_none_mFlag K ctx (broadcast_msg K debugBase raw m code filter enc) data
  revert hx
  simp only [broadcast, broadcastSelf]
  split
  · intro hx; cases hx
  · intro hx
    simp only [Option.some.injEq] at hx
    subst hx
    refine ⟨rfl, rfl, ?_, ?_, ?_, ?_, ?_, ?_⟩
    · simp only [k1, b2]
    · simp only [k2, b3]
    · simp only [k3, b4]
    · simp only [k4, b5]
    · simp only [k5, b6]
    · have hc : ∀ f : Nat, hasFlag (clearFlag f K.MSG_FLAG_EXTERNAL_BUFFER) K.MSG_FLAG_DEBUG
          = hasFlag f K.MSG_FLAG_DEBUG := by
        intro f
        simp only [Consts.MSG_FLAG_DEBUG, Consts.MSG_FLAG_EXTERNAL_BUFFER,
          hasFlag_clearFlag_bit hK]
        simp
      simp only [kf, hc, b7]

/-- Claim C19, witness: the broadcast message made from `exDebugFlagged`. -/
theorem C19_broadcast_from_message_witness :
    exConsts.wf
    ∧ (broadcast_msg exConsts false exRaw exDebugFlagged 400 none 0).mSn = exDebugFlagged.mSn
    ∧ hasFlag (broadcast_msg exConsts false exRaw exDebugFlagged 400 none 0).mFlag
        exConsts.MSG_FLAG_DEBUG = false :=
  ⟨by decide,
   (C19_broadcast_from_message exConsts (by decide) false exCtx exRaw exDebugFlagged 400
      exPayload none 0).1.2.2.1,
   (C19_broadcast_from_message exConsts (by decide) false exCtx exRaw exDebugFlagged 400
      exPayload none 0).1.2.2.2.2.2.2.1⟩

/-- The report at the end of `doRequest` attaches no timer. -/
theorem doRequest_report_attaches_none (K : Consts) (P : Proto) (ctx : CFdbContext)
    (m : CFdbMessage) (success : Bool) (reason : String) :
    (doRequest_report K P ctx m success reason).2.filter Event.isTimerAttach = [] := by
  unfold doRequest_report
  cases success <;> cases hasFlag m.mFlag K.MSG_FLAG_SYNC_REPLY <;> rfl

/-- The outcomes of `doRequest`, by the session found, the NoReplyExpected flag,
the result of the send and the timer of the message after the send. -/
theorem doRequest_cases (K : Consts) (P : Proto) (ctx : CFdbContext) (m : CFdbMessage) :
    ((getSession K ctx m).1 = none →
      (doRequest K P ctx m).2.filter Event.isTimerAttach = [])
    ∧ (∀ s : CFdbSession, (getSession K ctx m).1 = some s →
        (hasFlag (getSession K ctx m).2.mFlag K.MSG_FLAG_NOREPLY_EXPECTED = true →
          (doRequest K P ctx m).2.filter Event.isTimerAttach = [])
        ∧ (hasFlag (getSession K ctx m).2.mFlag K.MSG_FLAG_NOREPLY_EXPECTED = false →
          ((s.sendMessageRef (getSession K ctx m).2).1 = false →
            (doRequest K P ctx m).2.filter Event.isTimerAttach = [])
          ∧ ((s.sendMessageRef (getSession K ctx m).2).2.mTimer = none →
            (doRequest K P ctx m).2.filter Event.isTimerAttach = [])
          ∧ (∀ t : CMessageTimer, (s.sendMessageRef (getSession K ctx m).2).1 = true →
              (s.sendMessageRef (getSession K ctx m).2).2.mTimer = some t →
              doRequest K P ctx m
                = ({ (s.sendMessageRef (getSession K ctx m).2).2 with
                      mTimer := some { t with
                        mSession := some s.sid,
                        mMsgSn := (s.sendMessageRef (getSession K ctx m).2).2.mSn,
                        attached := true } },
                    [Event.sessionSendMessageRef s.sid (getSession K ctx m).2,
                     Event.timerAttach { t with
                        mSession := some s.sid,
                        mMsgSn := (s.sendMessageRef (getSession K ctx m).2).2.mSn,
                        attached := true }])))) := by
  unfold doRequest
  generalize getSession K ctx m = g
  obtain ⟨session, m1⟩ := g
  refine ⟨?_, ?_⟩
  · intro hn
    simp only at hn
    subst hn
    exact doRequest_report_attaches_none K P ctx m1 false _
  · intro s hs
    simp only at hs
    subst hs
    refine ⟨?_, ?_⟩
    · intro hno
      simp only [hno, if_true]
      rw [List.filter_cons]
      simp only [Event.isTimerAttach, Bool.false_eq_true, if_false]
      exact doRequest_report_attaches_none K P ctx _ _ _
    · intro hno
      simp only [hno, Bool.false_eq_true, if_false]
      refine ⟨?_, ?_, ?_⟩
      · intro hf
        simp [hf, Event.isTimerAttach]
      · intro ht
        cases hb : (s.sendMessageRef m1).1 <;> simp [hb, ht, Event.isTimerAttach]
      · intro t hok ht
        simp [hok, ht]

/-- `getSession` keeps every flag other than Endpoint. -/
theorem getSession_hasFlag (K : Consts) (hK : K.wf) (ctx : CFdbContext) (m : CFdbMessage)
    (f : Flag) (hf : f ≠ Flag.Endpoint) :
    hasFlag (getSession K ctx m).2.mFlag (1 <<< K.bit f) = hasFlag m.mFlag (1 <<< K.bit f) := by
  rw [hasFlag_bit, hasFlag_bit]
  exact (getSession_keeps K ctx m).2.2.2 (K.bit f) (hK.bit_lt f)
    (fun h => hf ((hK.bit_eq_iff _ _).1 h))

/-- The buffer `serialize` leaves: when it returns true, new memory with the
payload written at `maxReservedSize()`; when the allocation size is negative it
returns false and the buffer is null. -/
theorem serialize_mBuffer (K : Consts) (ctx : CFdbContext) (m : CFdbMessage)
    (data : CFdbBasePayload) (object : Option CFdbBaseObject) :
    ((serialize K ctx m data object).1 = true →
      ∃ bytes : List Nat, data.bytes = some bytes
        ∧ (serialize K ctx m data object).2.mBuffer
          = some (ctx.freshBuffer.writeBytes K.maxReservedSize
              (bytes.take (toInt32 data.byteSize).toNat)))
    ∧ (toInt32 (K.maxReservedSize + toInt32 data.byteSize + m.mExtraSize) < 0 →
      (serialize K ctx m data object).1 = false
      ∧ (serialize K ctx m data object).2.mBuffer = none) := by
  have hc : ∀ (x : CFdbMessage) (o : CFdbBaseObject),
      (checkLogEnabled K ctx x o true).mBuffer = x.mBuffer := by
    intro x o
    unfold checkLogEnabled
    split
    · split
      · split <;> rfl
      · rfl
    · rfl
  unfold serialize
  simp only [releaseBuffer_mExtraSize]
  by_cases hneg : toInt32 (K.maxReservedSize + toInt32 data.byteSize + m.mExtraSize) < 0
  · rw [if_pos hneg]
    refine ⟨fun h => (by cases h), fun _ => ⟨rfl, ?_⟩⟩
    exact releaseBuffer_mBuffer K _
  · rw [if_neg hneg]
    refine ⟨?_, fun h => absurd h hneg⟩
    cases hb : data.bytes with
    | none => intro h; cases h
    | some bytes =>
      intro _
      refine ⟨bytes, rfl, ?_⟩
      simp only [setLogDataPtr]
      cases object with
      | none =>
        simp only
        split
        · split
          · split <;> rfl
          · rfl
        · rfl
      | some o =>
        simp only
        split
        · split
          · split <;> simp only [hc]
          · simp only [hc]
        · simp only [hc]

/-- A fresh, successful `buildHeader` with a non-negative head size leaves the
bytes from `maxReservedSize()` on as they were. -/
theorem buildHeader_keeps_payload (K : Consts) (P : Proto) (ctx : CFdbContext)
    (m : CFdbMessage) (session : CFdbSession)
    (hhead : hasFlag m.mFlag K.MSG_FLAG_HEAD_OK = false)
    (hok : (buildHeader K P ctx m session).1 = true)
    (hpos : 0 ≤ toInt32 (P.headByteSize (buildHeader_msg_hdr K ctx m session).2))
    (buf : Buffer) (hbuf : m.mBuffer = some buf) :
    ∃ buf1, (buildHeader K P ctx m session).2.mBuffer = some buf1
      ∧ ∀ a : Int, K.maxReservedSize ≤ a → buf1 a = buf a := by
  have hspec := (buildHeader_msg_hdr_spec K ctx m session).2.2.2.2.2.2.2
  revert hok hpos
  unfold buildHeader
  simp only [hhead, Bool.false_eq_true, if_false]
  generalize buildHeader_msg_hdr K ctx m session = r at hspec ⊢
  obtain ⟨m1, hdr⟩ := r
  simp only at hspec ⊢
  have hb1 : m1.mBuffer = some buf := by
    rcases hspec with h | h <;> subst h <;> exact hbuf
  split
  · intro hok; simp at hok
  · rename_i hsz
    cases hb : P.headBytes hdr with
    | none => intro hok; simp at hok
    | some bytes =>
      intro _ hpos
      simp only [hb1, Option.map_some', getRawBufferOffset]
      refine ⟨_, rfl, ?_⟩
      intro a ha
      simp only [mPrefixSize] at ha ⊢
      rw [serialize_outside _ _ _ _ (by omega)]
      apply writeBytes_outside
      right
      have hlen : ((bytes.take (toInt32 (P.headByteSize hdr)).toNat).length : Int)
          ≤ toInt32 (P.headByteSize hdr) := by
        rw [List.length_take]
        have := Int.toNat_of_nonneg hpos
        omega
      omega

theorem readU32_range (b : Buffer) (addr : Int) :
    0 ≤ readU32 b addr ∧ readU32 b addr < 4294967296 := by
  unfold readU32; omega

/-- The sizes of a message the decoding constructor builds, when the sizes of
header and payload fit an `int32_t`. -/
theorem newDecoded_sizes (K : Consts) (raw : CFdbMessage) (head : FdbMessageHeader)
    (pfx : CFdbMsgPrefix) (buffer : Option Buffer) (sid : Nat)
    (hp0 : 0 ≤ head.payload_size) (hp1 : head.payload_size < 2147483648)
    (hh0 : 0 ≤ pfx.mHeadLength) (hh1 : pfx.mHeadLength < 2147483648)
    (hd0 : 0 ≤ pfx.mTotalLength - mPrefixSize - pfx.mHeadLength - head.payload_size)
    (hd1 : pfx.mTotalLength - mPrefixSize - pfx.mHeadLength - head.payload_size < 2147483648) :
    (newDecoded K raw head pfx buffer sid).mPayloadSize = head.payload_size
    ∧ (newDecoded K raw head pfx buffer sid).mHeadSize = pfx.mHeadLength
    ∧ (newDecoded K raw head pfx buffer sid).mExtraSize
        = pfx.mTotalLength - mPrefixSize - pfx.mHeadLength - head.payload_size := by
  have e1 : toInt32 head.payload_size = head.payload_size :=
    toInt32_of_range _ (by omega) hp1
  have e2 : toInt32 pfx.mHeadLength = pfx.mHeadLength := toInt32_of_range _ (by omega) hh1
  have e3 : toInt32 (pfx.mTotalLength - mPrefixSize - pfx.mHeadLength - head.payload_size)
      = pfx.mTotalLength - mPrefixSize - pfx.mHeadLength - head.payload_size :=
    toInt32_of_range _ (by omega) hd1
  simp only [newDecoded, e1, e2, e3]
  refine ⟨trivial, trivial, ?_⟩
  rw [if_neg (by omega)]

/-- The three outcomes of `parseFdbLog` on a buffer whose header parses, when
the sizes of header and payload fit an `int32_t`. -/
theorem parseFdbLog_cases (K : Consts)
    (deserializePb : Buffer → Int → Int → Option FdbMessageHeader) (raw : CFdbMessage)
    (b : Buffer) (size : Int) (sid : Nat) (head : FdbMessageHeader)
    (hsize : size ≠ 0)
    (hd : deserializePb b mPrefixSize (CFdbMsgPrefix.deserialize b 0).mHeadLength = some head)
    (hp0 : 0 ≤ head.payload_size) (hp1 : head.payload_size < 2147483648)
    (hh1 : (CFdbMsgPrefix.deserialize b 0).mHeadLength < 2147483648)
    (hlow : -2147483648 ≤ (CFdbMsgPrefix.deserialize b 0).mTotalLength - mPrefixSize
              - (CFdbMsgPrefix.deserialize b 0).mHeadLength - head.payload_size) :
    (0 ≤ (CFdbMsgPrefix.deserialize b 0).mTotalLength - mPrefixSize
            - (CFdbMsgPrefix.deserialize b 0).mHeadLength - head.payload_size →
      (CFdbMsgPrefix.deserialize b 0).mTotalLength - mPrefixSize
            - (CFdbMsgPrefix.deserialize b 0).mHeadLength - head.payload_size < 2147483648 →
      parseFdbLog K deserializePb raw (some b) size sid
        = some (newDecoded K raw head (CFdbMsgPrefix.deserialize b 0) (some b) sid))
    ∧ ((CFdbMsgPrefix.deserialize b 0).mTotalLength - mPrefixSize
            - (CFdbMsgPrefix.deserialize b 0).mHeadLength - head.payload_size < 0 →
       0 ≤ (CFdbMsgPrefix.deserialize b 0).mTotalLength - mPrefixSize
            - (CFdbMsgPrefix.deserialize b 0).mHeadLength →
      parseFdbLog K deserializePb raw (some b) size sid
        = some (newDecoded K raw
            { head with payload_size := (CFdbMsgPrefix.deserialize b 0).mTotalLength
                - mPrefixSize - (CFdbMsgPrefix.deserialize b 0).mHeadLength }
            (CFdbMsgPrefix.deserialize b 0) (some b) sid))
    ∧ ((CFdbMsgPrefix.deserialize b 0).mTotalLength - mPrefixSize
            - (CFdbMsgPrefix.deserialize b 0).mHeadLength - head.payload_size < 0 →
       (CFdbMsgPrefix.deserialize b 0).mTotalLength - mPrefixSize
            - (CFdbMsgPrefix.deserialize b 0).mHeadLength < 0 →
      parseFdbLog K deserializePb raw (some b) size sid = none)
    ∧ (2147483648 ≤ (CFdbMsgPrefix.deserialize b 0).mTotalLength - mPrefixSize
            - (CFdbMsgPrefix.deserialize b 0).mHeadLength - head.payload_size →
      parseFdbLog K deserializePb raw (some b) size sid = none) := by
  have ht := readU32_range b 0
  have hh := readU32_range b (0 + 4)
  unfold parseFdbLog
  simp only [hsize, if_false, hd]
  generalize hpf : CFdbMsgPrefix.deserialize b 0 = p at *
  have hpt : p.mTotalLength = readU32 b 0 := by rw [← hpf]; rfl
  have hph : p.mHeadLength = readU32 b (0 + 4) := by rw [← hpf]; rfl
  obtain ⟨t, h⟩ := p
  simp only at hpt hph hh1 hlow ⊢
  subst hpt hph
  generalize readU32 b 0 = t at *
  generalize readU32 b (0 + 4) = h at *
  generalize hps : head.payload_size = ps at *
  simp only [mPrefixSize] at *
  have e1 : toInt32 ps = ps := toInt32_of_range _ (by omega) hp1
  rw [e1]
  refine ⟨?_, ?_, ?_, ?_⟩
  · intro h0 h1
    have e2 : toInt32 (t - 8 - h - ps) = t - 8 - h - ps := toInt32_of_range _ (by omega) h1
    rw [e2, if_neg (by omega)]
  · intro h0 h1
    have e2 : toInt32 (t - 8 - h - ps) = t - 8 - h - ps :=
      toInt32_of_range _ (by omega) (by omega)
    have e3 : toInt32 (ps + (t - 8 - h - ps)) = t - 8 - h := by
      rw [toInt32_of_range _ (by omega) (by omega)]; ring
    rw [e2, if_pos h0, e3, if_neg (by omega)]
    have e4 : toUInt32 (t - 8 - h) = t - 8 - h := by unfold toUInt32; omega
    rw [e4]
  · intro h0 h1
    have e2 : toInt32 (t - 8 - h - ps) = t - 8 - h - ps :=
      toInt32_of_range _ (by omega) (by omega)
    have e3 : toInt32 (ps + (t - 8 - h - ps)) = t - 8 - h := by
      rw [toInt32_of_range _ (by omega) (by omega)]; ring
    rw [e2, if_pos h0, e3, if_pos h1]
  · intro h0
    have e2 : toInt32 (t - 8 - h - ps) = t - 8 - h - ps - 4294967296 := by
      unfold toInt32; omega
    have e3 : toInt32 (ps + (t - 8 - h - ps - 4294967296)) = t - 8 - h - 4294967296 := by
      unfold toInt32; omega
    rw [e2, if_pos (by omega), e3, if_pos (by omega)]

/-- The encoding field lies inside the 32-bit flag word. -/
theorem encoding_mask_bit_lt (K : Consts) (hK : K.wf) (i : Nat)
    (h : K.MSG_FLAG_ENCODING_MASK.testBit i = true) : i < 32 := by
  by_contra hge
  have hg : K.MSG_GLOBAL_FLAG_MASK.testBit i = true := by
    have := congrArg (fun x => Nat.testBit x i) hK.2.2.2.2.1
    simp only [Nat.testBit_and, h, Bool.true_and] at this
    exact this
  have hlt : K.MSG_GLOBAL_FLAG_MASK < 2 ^ i :=
    lt_of_lt_of_le hK.2.2.2.2.2.2 (by
      have : (4294967296 : Nat) = 2 ^ 32 := by norm_num
      rw [this]
      exact Nat.pow_le_pow_right (by norm_num) (by omega))
  rw [Nat.testBit_lt_two_pow hlt] at hg
  cases hg

/-- The encoding field after `mFlag &= ~MSG_FLAG_ENCODING_MASK` and
`mFlag |= MSG_FLAG_REPLIED | e`, for bits `e` of the encoding field. -/
theorem encoding_field_after_reply (K : Consts) (hK : K.wf) (f e : Nat)
    (he : e &&& K.MSG_FLAG_ENCODING_MASK = e) :
    setFlag (clearFlag f K.MSG_FLAG_ENCODING_MASK) (K.MSG_FLAG_REPLIED ||| e)
        &&& K.MSG_FLAG_ENCODING_MASK = e
    ∧ clearFlag (setFlag (clearFlag f K.MSG_FLAG_ENCODING_MASK) (K.MSG_FLAG_REPLIED ||| e))
          K.MSG_FLAG_REPLIED &&& K.MSG_FLAG_ENCODING_MASK = e := by
  have key : ∀ i : Nat, (e.testBit i = (e.testBit i && K.MSG_FLAG_ENCODING_MASK.testBit i))
      ∧ (K.MSG_FLAG_ENCODING_MASK.testBit i = true → i < 32 ∧ ¬ K.bit .Replied = i) := by
    intro i
    refine ⟨?_, ?_⟩
    · have := congrArg (fun x => Nat.testBit x i) he
      simp only [Nat.testBit_and] at this
      exact this.symm
    · intro hm
      refine ⟨encoding_mask_bit_lt K hK i hm, ?_⟩
      intro hr
      rw [← hr, hK.encoding_testBit] at hm
      cases hm
  constructor
  · apply Nat.eq_of_testBit_eq
    intro i
    obtain ⟨k1, k2⟩ := key i
    simp only [Nat.testBit_and, testBit_setFlag, testBit_clearFlag, Nat.testBit_or,
      Consts.MSG_FLAG_REPLIED, testBit_bit]
    cases hm : K.MSG_FLAG_ENCODING_MASK.testBit i
    · rw [k1, hm]; simp
    · obtain ⟨hlt, hr⟩ := k2 hm
      simp [hlt, hr]
  · apply Nat.eq_of_testBit_eq
    intro i
    obtain ⟨k1, k2⟩ := key i
    simp only [Nat.testBit_and, testBit_setFlag, testBit_clearFlag, Nat.testBit_or,
      Consts.MSG_FLAG_REPLIED, testBit_bit]
    cases hm : K.MSG_FLAG_ENCODING_MASK.testBit i
    · rw [k1, hm]; simp
    · obtain ⟨hlt, hr⟩ := k2 hm
      simp [hlt, hr]

/-- The flags after `mFlag &= ~MSG_FLAG_ENCODING_MASK` and
`mFlag |= MSG_FLAG_REPLIED | e`, for bits `e` of the encoding field. -/
theorem hasFlag_after_reply (K : Consts) (hK : K.wf) (f e : Nat)
    (he : e &&& K.MSG_FLAG_ENCODING_MASK = e) (a : Flag) :
    hasFlag (setFlag (clearFlag f K.MSG_FLAG_ENCODING_MASK) (K.MSG_FLAG_REPLIED ||| e))
        (1 <<< K.bit a)
      = (hasFlag f (1 <<< K.bit a) || decide (a = Flag.Replied)) := by
  have h1 : e.testBit (K.bit a) = false := by
    have := congrArg (fun x => Nat.testBit x (K.bit a)) he
    simp only [Nat.testBit_and, hK.encoding_testBit, Bool.and_false] at this
    exact this.symm
  simp only [hasFlag_bit, testBit_setFlag, testBit_clearFlag, Nat.testBit_or,
    Consts.MSG_FLAG_REPLIED, testBit_bit, hK.encoding_testBit, hK.bit_lt, hK.bit_eq_iff, h1,
    decide_True, Bool.xor_false, Bool.and_true, Bool.or_false]
  cases f.testBit (K.bit a) <;> cases a <;> simp

/-- The outcome of `feedback` on a message that expects a reply and whose
payload serializes: the message handed to the context, the return value, and the
type and flags of the message afterwards. -/
theorem feedback_spec (K : Consts) (hK : K.wf) (ctx : CFdbContext) (m : CFdbMessage)
    (data : CFdbBasePayload) (type : Nat)
    (hno : hasFlag m.mFlag K.MSG_FLAG_NOREPLY_EXPECTED = false)
    (hs : (serialize K ctx m data none).1 = true) :
    ∃ x : CFdbMessage,
      (feedback K ctx m data type).2.2 = [Event.ctxSendAsyncEndeavor x]
      ∧ (feedback K ctx m data type).1 = ctx.sendAsyncEndeavor x
      ∧ (feedback K ctx m data type).2.1.mType = type
      ∧ (feedback K ctx m data type).2.1.mFlag &&& K.MSG_FLAG_ENCODING_MASK
          = K.MSG_FLAG_ENC_PROTOBUF
      ∧ hasFlag (feedback K ctx m data type).2.1.mFlag K.MSG_FLAG_REPLIED
          = (feedback K ctx m data type).1
      ∧ (∀ a : Flag, a ≠ Flag.Replied → a ≠ Flag.ExternalBuffer →
          hasFlag (feedback K ctx m data type).2.1.mFlag (1 <<< K.bit a)
            = hasFlag m.mFlag (1 <<< K.bit a)) := by
  have hok := hs
  clear hs
  have hf := (serialize_none_mFlag K ctx m data).1
  have he := hK.2.2.2.2.2.1
  unfold feedback
  simp only [hno, Bool.false_eq_true, if_false]
  generalize serialize K ctx m data none = r at hok hf
  obtain ⟨ok, m1⟩ := r
  simp only at hok hf
  subst hok
  simp only [Bool.not_true, Bool.false_eq_true, if_false]
  obtain ⟨e1, e2⟩ := encoding_field_after_reply K hK m1.mFlag K.MSG_FLAG_ENC_PROTOBUF he
  have hfl : ∀ a : Flag, a ≠ Flag.Replied → a ≠ Flag.ExternalBuffer →
      hasFlag (setFlag (clearFlag m1.mFlag K.MSG_FLAG_ENCODING_MASK)
          (K.MSG_FLAG_REPLIED ||| K.MSG_FLAG_ENC_PROTOBUF)) (1 <<< K.bit a)
        = hasFlag m.mFlag (1 <<< K.bit a) := by
    intro a h1 h2
    rw [hasFlag_after_reply K hK _ _ he, hf, Consts.MSG_FLAG_EXTERNAL_BUFFER,
      hasFlag_clearFlag_bit hK]
    have h3 : ¬ Flag.ExternalBuffer = a := fun h => h2 h.symm
    simp [h1, h3]
  refine ⟨{ m1 with
    mType := type,
    mFlag := setFlag (clearFlag m1.mFlag K.MSG_FLAG_ENCODING_MASK)
              (K.MSG_FLAG_REPLIED ||| K.MSG_FLAG_ENC_PROTOBUF) }, ?_⟩
  cases hs : ctx.sendAsyncEndeavor { m1 with
      mType := type,
      mFlag := setFlag (clearFlag m1.mFlag K.MSG_FLAG_ENCODING_MASK)
                (K.MSG_FLAG_REPLIED ||| K.MSG_FLAG_ENC_PROTOBUF) }
  · simp only [Bool.not_false, if_true, true_and]
    refine ⟨e2, hasFlag_replied_after_clear K hK _, ?_⟩
    intro a h1 h2
    rw [Consts.MSG_FLAG_REPLIED, hasFlag_clearFlag_bit hK, ← Consts.MSG_FLAG_REPLIED,
      hfl a h1 h2]
    have h3 : ¬ Flag.Replied = a := fun h => h1 h.symm
    simp [h3]
  · simp only [Bool.not_true, Bool.false_eq_true, if_false, true_and]
    exact ⟨e1, hasFlag_replied_after_set K _ _, hfl⟩

/-- The outcome of the raw-buffer `reply` on a message that expects a reply,
when `serialize(buffer, size)` returns: the message handed to the context, the
return value, and the type and flags of the message afterwards. -/
theorem replyRaw_spec (K : Consts) (hK : K.wf) (ctx : CFdbContext) (m : CFdbMessage)
    (buffer : Option (List Nat)) (size : Int) (enc : Nat) (log_data : Option String)
    (hno : hasFlag m.mFlag K.MSG_FLAG_NOREPLY_EXPECTED = false)
    (halloc : 0 ≤ toInt32 (K.maxReservedSize + size + m.mExtraSize))
    (hsize : buffer = none ∨ 0 ≤ size) :
    ∃ (x : CFdbMessage) (r : Bool × CFdbMessage × List Event),
      replyRaw K ctx m buffer size enc log_data = some r
      ∧ r.2.2 = [Event.ctxSendAsyncEndeavor x]
      ∧ r.1 = ctx.sendAsyncEndeavor x
      ∧ r.2.1.mType = MT_REPLY
      ∧ r.2.1.mFlag &&& K.MSG_FLAG_ENCODING_MASK
          = (enc <<< K.MSG_FLAG_ENCODING) &&& K.MSG_FLAG_ENCODING_MASK
      ∧ hasFlag r.2.1.mFlag K.MSG_FLAG_REPLIED = r.1
      ∧ (∀ a : Flag, a ≠ Flag.Replied → a ≠ Flag.ExternalBuffer → a ≠ Flag.EnableLog →
          hasFlag r.2.1.mFlag (1 <<< K.bit a) = hasFlag m.mFlag (1 <<< K.bit a)) := by
  obtain ⟨m1, hser, hf⟩ := (serializeRaw_spec K ctx m buffer size).1 halloc hsize
  have he : (enc <<< K.MSG_FLAG_ENCODING) &&& K.MSG_FLAG_ENCODING_MASK
      &&& K.MSG_FLAG_ENCODING_MASK = (enc <<< K.MSG_FLAG_ENCODING) &&& K.MSG_FLAG_ENCODING_MASK := by
    rw [Nat.and_assoc, Nat.and_self]
  unfold replyRaw
  simp only [hno, Bool.false_eq_true, if_false, hser, Bool.not_true]
  obtain ⟨e1, e2⟩ := encoding_field_after_reply K hK (setLogData K m1 log_data).mFlag
    ((enc <<< K.MSG_FLAG_ENCODING) &&& K.MSG_FLAG_ENCODING_MASK) he
  have hlog : ∀ a : Flag, a ≠ Flag.EnableLog →
      hasFlag (setLogData K m1 log_data).mFlag (1 <<< K.bit a)
        = hasFlag m1.mFlag (1 <<< K.bit a) := by
    intro a h1
    have h3 : ¬ Flag.EnableLog = a := fun h => h1 h.symm
    cases log_data with
    | none => rfl
    | some s =>
      simp only [setLogData, Consts.MSG_FLAG_ENABLE_LOG, hasFlag_setFlag_bit hK]
      simp [h3]
  have hfl : ∀ a : Flag, a ≠ Flag.Replied → a ≠ Flag.ExternalBuffer → a ≠ Flag.EnableLog →
      hasFlag (setFlag (clearFlag (setLogData K m1 log_data).mFlag K.MSG_FLAG_ENCODING_MASK)
          (K.MSG_FLAG_REPLIED ||| ((enc <<< K.MSG_FLAG_ENCODING) &&& K.MSG_FLAG_ENCODING_MASK)))
          (1 <<< K.bit a)
        = hasFlag m.mFlag (1 <<< K.bit a) := by
    intro a h1 h2 h4
    rw [hasFlag_after_reply K hK _ _ he, hlog a h4, hf, Consts.MSG_FLAG_EXTERNAL_BUFFER,
      hasFlag_setFlag_bit hK]
    have h3 : ¬ Flag.ExternalBuffer = a := fun h => h2 h.symm
    simp [h1, h3]
  refine ⟨{ setLogData K m1 log_data with
    mType := MT_REPLY,
    mFlag := setFlag (clearFlag (setLogData K m1 log_data).mFlag K.MSG_FLAG_ENCODING_MASK)
              (K.MSG_FLAG_REPLIED
                ||| ((enc <<< K.MSG_FLAG_ENCODING) &&& K.MSG_FLAG_ENCODING_MASK)) }, ?_⟩
  cases hs : ctx.sendAsyncEndeavor { setLogData K m1 log_data with
      mType := MT_REPLY,
      mFlag := setFlag (clearFlag (setLogData K m1 log_data).mFlag K.MSG_FLAG_ENCODING_MASK)
                (K.MSG_FLAG_REPLIED
                  ||| ((enc <<< K.MSG_FLAG_ENCODING) &&& K.MSG_FLAG_ENCODING_MASK)) }
  · simp only [Bool.not_false, if_true]
    refine ⟨_, rfl, rfl, rfl, rfl, e2, hasFlag_replied_after_clear K hK _, ?_⟩
    intro a h1 h2 h4
    rw [Consts.MSG_FLAG_REPLIED, hasFlag_clearFlag_bit hK, ← Consts.MSG_FLAG_REPLIED,
      hfl a h1 h2 h4]
    have h3 : ¬ Flag.Replied = a := fun h => h1 h.symm
    simp [h3]
  · simp only [Bool.not_true, Bool.false_eq_true, if_false]
    exact ⟨_, rfl, rfl, rfl, rfl, e1, hasFlag_replied_after_set K _ _, hfl⟩

/-- A message with AutoReply and without Replied and NoReplyExpected, held by
one reference: `autoReply` hands a status to the context. -/
theorem autoReply_emits (K : Consts) (hK : K.wf) (P : Proto) (ctx : CFdbContext)
    (x : CFdbMessage) (c : Int) (d : Option String)
    (ha : hasFlag x.mFlag K.MSG_FLAG_AUTO_REPLY = true)
    (hr : hasFlag x.mFlag K.MSG_FLAG_REPLIED = false)
    (hn : hasFlag x.mFlag K.MSG_FLAG_NOREPLY_EXPECTED = false) :
    autoReply K P ctx x 1 c d
      = (setErrorMsg K P ctx x MT_STATUS c d,
          [Event.ctxSendAsyncEndeavor (setErrorMsg K P ctx x MT_STATUS c d)]) := by
  have hg := (autoReply_guard K hK x.mFlag).2 ⟨ha, hr⟩
  simp [autoReply, hg, hn]

/-- The number of bytes a `memcpy` of `n` bytes reads. -/
theorem readBytes_length (b : Buffer) (n : Nat) : (Buffer.readBytes b n).length = n := by
  unfold Buffer.readBytes
  rw [List.length_map]
  change ((List.range n).flatMap fun a => [(a : Int)]).length = n
  induction n with
  | zero => rfl
  | succ k ih =>
    rw [List.range_succ, List.flatMap_append, List.length_append, ih]
    rfl

/-- The extra size the first part of `sendLog` sets, for a well-formed embedded
prefix that does not reach beyond `size`. -/
theorem sendLog_clip_bounds (K : Consts) (m : CFdbMessage) (log_data : Buffer)
    (size clipped_size : Int)
    (hwf : mPrefixSize + (CFdbMsgPrefix.deserialize log_data 0).mHeadLength
            ≤ (CFdbMsgPrefix.deserialize log_data 0).mTotalLength)
    (hts : (CFdbMsgPrefix.deserialize log_data 0).mTotalLength ≤ size)
    (hsz : size < 2147483648) :
    (0 ≤ (sendLog_clip K m log_data size clipped_size).1.mExtraSize
      ∧ (sendLog_clip K m log_data size clipped_size).1.mExtraSize ≤ size)
    ∧ ((clipped_size < 0 ∨ (0 < clipped_size
          ∧ (CFdbMsgPrefix.deserialize log_data 0).mTotalLength
              - (CFdbMsgPrefix.deserialize log_data 0).mHeadLength - mPrefixSize
            ≤ clipped_size)) →
        (sendLog_clip K m log_data size clipped_size).2 = log_data
        ∧ (sendLog_clip K m log_data size clipped_size).1.mExtraSize = size)
    ∧ (clipped_size = 0 →
        (sendLog_clip K m log_data size clipped_size).1.mExtraSize
          = mPrefixSize + (CFdbMsgPrefix.deserialize log_data 0).mHeadLength) := by
  have hh0 : 0 ≤ (CFdbMsgPrefix.deserialize log_data 0).mHeadLength :=
    (readU32_range log_data (0 + 4)).1
  generalize hp : CFdbMsgPrefix.deserialize log_data 0 = p at *
  obtain ⟨t, h⟩ := p
  simp only [mPrefixSize] at hwf hts hh0 ⊢
  have hps : toInt32 (t - h - 8) = t - h - 8 := toInt32_of_range _ (by omega) (by omega)
  have e0 : toInt32 (toUInt32 (8 + h)) = 8 + h := toInt32_toUInt32 _ (by omega) (by omega)
  by_cases hneg : clipped_size < 0
  · simp only [sendLog_clip, hneg, if_true]
    exact ⟨⟨by omega, le_refl _⟩, fun _ => ⟨trivial, trivial⟩, fun h0 => by omega⟩
  · by_cases hz : clipped_size = 0
    · subst hz
      simp only [sendLog_clip, hp, mPrefixSize, lt_self_iff_false, if_false, if_true, e0]
      refine ⟨⟨by omega, by omega⟩, ?_, fun _ => trivial⟩
      rintro (h1 | ⟨h1, _⟩) <;> exact h1.elim
    · by_cases hlt : clipped_size < t - h - 8
      · have e1 : toInt32 (toUInt32 (8 + h + clipped_size)) = 8 + h + clipped_size :=
          toInt32_toUInt32 _ (by omega) (by omega)
        simp only [sendLog_clip, hp, mPrefixSize, hneg, hz, hps, hlt, if_false, if_true, e1]
        refine ⟨⟨by omega, by omega⟩, ?_, fun h0 => h0.elim⟩
        rintro (h1 | ⟨_, h1⟩)
        · exact h1.elim
        · omega
      · simp only [sendLog_clip, hp, mPrefixSize, hneg, hz, hps, hlt, if_false]
        exact ⟨⟨by omega, le_refl _⟩, fun _ => ⟨trivial, trivial⟩, fun h0 => h0.elim⟩

/-! ## The claims, concluded -/

/-- Claim C21: `doRequest` attaches a timer exactly when a session is resolved,
NoReplyExpected is clear, `session->sendMessage(ref)` succeeds and the message
has a timer after the send.  It then makes the send and one attach, the attached
timer is the timer of the message, with the interval it had, with that session
and with the serial number the message has after the send, and its firing
callback calls `terminateMessage(serial, FDB_ST_TIMEOUT, "Message is destroyed
due to timeout.")` on that session.  `run` on a Request or SidebandRequest is
`doRequest`.  `submit` without the no-reply flag allocates the timer exactly when
`timeout > 0` and otherwise leaves `mTimer` as it was. -/
theorem C21_timer_attached (K : Consts) (hK : K.wf) (P : Proto) (O : ObjectTable)
    (ctx : CFdbContext) (m : CFdbMessage) :
    ((doRequest K P ctx m).2.filter Event.isTimerAttach ≠ [] ↔
      ∃ s : CFdbSession, (getSession K ctx m).1 = some s
        ∧ hasFlag m.mFlag K.MSG_FLAG_NOREPLY_EXPECTED = false
        ∧ (s.sendMessageRef (getSession K ctx m).2).1 = true
        ∧ (s.sendMessageRef (getSession K ctx m).2).2.mTimer ≠ none)
    ∧ (∀ (s : CFdbSession) (t : CMessageTimer), (getSession K ctx m).1 = some s →
        hasFlag m.mFlag K.MSG_FLAG_NOREPLY_EXPECTED = false →
        (s.sendMessageRef (getSession K ctx m).2).1 = true →
        (s.sendMessageRef (getSession K ctx m).2).2.mTimer = some t →
        ∃ t1 : CMessageTimer,
          (doRequest K P ctx m).2
              = [Event.sessionSendMessageRef s.sid (getSession K ctx m).2, Event.timerAttach t1]
          ∧ (doRequest K P ctx m).1.mTimer = some t1
          ∧ t1.interval = t.interval
          ∧ t1.mSession = some s.sid
          ∧ t1.mMsgSn = (s.sendMessageRef (getSession K ctx m).2).2.mSn
          ∧ (doRequest K P ctx m).1.mSn = (s.sendMessageRef (getSession K ctx m).2).2.mSn
          ∧ CMessageTimer.run K t1
              = some { session := s.sid,
                       sn := (s.sendMessageRef (getSession K ctx m).2).2.mSn,
                       code := K.FDB_ST_TIMEOUT,
                       reason := "Message is destroyed due to timeout." })
    ∧ ((m.mType = MT_REQUEST ∨ m.mType = MT_SIDEBAND_REQUEST) →
        run K P O ctx m = doRequest K P ctx m)
    ∧ (∀ (tx_flag : Nat) (timeout : Int),
        (hasFlag tx_flag FDB_MSG_TX_SYNC && ctx.isSelf) = false →
        (hasFlag tx_flag FDB_MSG_TX_NO_REPLY = false →
          (submit K ctx m tx_flag timeout).2.1.mTimer
            = (if timeout > 0 then some (CMessageTimer.new K timeout) else m.mTimer))
        ∧ (hasFlag tx_flag FDB_MSG_TX_NO_REPLY = true →
          (submit K ctx m tx_flag timeout).2.1.mTimer = m.mTimer)) := by
  have hno : hasFlag (getSession K ctx m).2.mFlag K.MSG_FLAG_NOREPLY_EXPECTED
      = hasFlag m.mFlag K.MSG_FLAG_NOREPLY_EXPECTED :=
    getSession_hasFlag K hK ctx m .NoReplyExpected (by decide)
  obtain ⟨c0, c1⟩ := doRequest_cases K P ctx m
  refine ⟨?_, ?_, ?_, ?_⟩
  · constructor
    · intro hne
      cases hg : (getSession K ctx m).1 with
      | none => exact absurd (c0 hg) hne
      | some s =>
        obtain ⟨d1, d2⟩ := c1 s hg
        cases hn : hasFlag m.mFlag K.MSG_FLAG_NOREPLY_EXPECTED with
        | true => exact absurd (d1 (hno.trans hn)) hne
        | false =>
          obtain ⟨e1, e2, _⟩ := d2 (hno.trans hn)
          refine ⟨s, rfl, rfl, ?_, ?_⟩
          · cases hb : (s.sendMessageRef (getSession K ctx m).2).1 with
            | true => rfl
            | false => exact absurd (e1 hb) hne
          · intro ht
            exact hne (e2 ht)
    · rintro ⟨s, hg, hn, hok, ht⟩
      obtain ⟨t, htt⟩ := Option.ne_none_iff_exists'.1 ht
      rw [((c1 s hg).2 (hno.trans hn)).2.2 t hok htt]
      simp [Event.isTimerAttach]
  · intro s t hg hn hok ht
    have he := ((c1 s hg).2 (hno.trans hn)).2.2 t hok ht
    refine ⟨{ t with
        mSession := some s.sid,
        mMsgSn := (s.sendMessageRef (getSession K ctx m).2).2.mSn,
        attached := true }, ?_, ?_, rfl, rfl, rfl, ?_, rfl⟩
    · rw [he]
    · rw [he]
    · rw [he]
  · exact run_request K P O ctx m
  · intro tx_flag timeout hrej
    clear c0 c1 hno
    unfold submit
    simp only [hrej, Bool.false_eq_true, if_false]
    constructor
    · intro h
      simp only [h, Bool.false_eq_true, if_false]
      by_cases ht : timeout > 0
      · simp only [ht, if_true]
        cases hasFlag tx_flag FDB_MSG_TX_SYNC <;> rfl
      · simp only [ht, if_false]
        cases hasFlag tx_flag FDB_MSG_TX_SYNC <;> rfl
    · intro h
      simp only [h, if_true]
      cases hasFlag tx_flag FDB_MSG_TX_SYNC <;> rfl

/-- Claim C21, witness: the request `exTimed` with a timer of 500 ms, serial 9, sent on
session 7; the callback of the attached timer terminates serial 9 on session 7. -/
theorem C21_timer_attached_witness :
    exConsts.wf
    ∧ (getSession exConsts exCtx exTimed).1 = some exSession
    ∧ hasFlag exTimed.mFlag exConsts.MSG_FLAG_NOREPLY_EXPECTED = false
    ∧ (exSession.sendMessageRef (getSession exConsts exCtx exTimed).2).1 = true
    ∧ (exSession.sendMessageRef (getSession exConsts exCtx exTimed).2).2.mTimer
        = some (CMessageTimer.new exConsts 500)
    ∧ (∃ t1 : CMessageTimer,
        (doRequest exConsts exProto exCtx exTimed).2
            = [Event.sessionSendMessageRef exSession.sid (getSession exConsts exCtx exTimed).2,
               Event.timerAttach t1]
        ∧ (doRequest exConsts exProto exCtx exTimed).1.mTimer = some t1
        ∧ t1.interval = (CMessageTimer.new exConsts 500).interval
        ∧ t1.mSession = some exSession.sid
        ∧ t1.mMsgSn = (exSession.sendMessageRef (getSession exConsts exCtx exTimed).2).2.mSn
        ∧ (doRequest exConsts exProto exCtx exTimed).1.mSn
            = (exSession.sendMessageRef (getSession exConsts exCtx exTimed).2).2.mSn
        ∧ CMessageTimer.run exConsts t1
            = some { session := exSession.sid,
                     sn := (exSession.sendMessageRef (getSession exConsts exCtx exTimed).2).2.mSn,
                     code := exConsts.FDB_ST_TIMEOUT,
                     reason := "Message is destroyed due to timeout." })
    ∧ ((doRequest exConsts exProto exCtx exTimed).1.mTimer.bind (CMessageTimer.run exConsts)).map
          (fun c => (c.session, c.sn, c.code))
        = some (7, 9, -3) :=
  ⟨by decide, rfl, by decide, rfl, rfl,
   (C21_timer_attached exConsts (by decide) exProto exObjects exCtx exTimed).2.1
      exSession (CMessageTimer.new exConsts 500) rfl (by decide) rfl rfl,
   by decide⟩

/-- Claim C22: after a fresh, successful `buildHeader` with encoded head size `h`:
`mHeadSize = h`, `mOffset = maxReservedSize - h - prefixSize`,
`mOffset + prefixSize + mHeadSize = maxReservedSize`, `h <= mMaxHeadSize`, and
`mOffset >= 0` when `maxReservedSize >= prefixSize + mMaxHeadSize`.  For `h >= 0`
the bytes of the buffer from `maxReservedSize` on are left as they were, and
`maxReservedSize` is where a `serialize` that returns true has written the
payload. -/
theorem C22_buildHeader_offset (K : Consts) (P : Proto) (ctx : CFdbContext) (m : CFdbMessage)
    (session : CFdbSession)
    (hhead : hasFlag m.mFlag K.MSG_FLAG_HEAD_OK = false)
    (hok : (buildHeader K P ctx m session).1 = true) :
    (buildHeader K P ctx m session).2.mHeadSize
        = toInt32 (P.headByteSize (buildHeader_msg_hdr K ctx m session).2)
    ∧ (buildHeader K P ctx m session).2.mOffset
        = K.maxReservedSize - toInt32 (P.headByteSize (buildHeader_msg_hdr K ctx m session).2)
            - mPrefixSize
    ∧ (buildHeader K P ctx m session).2.mOffset + mPrefixSize
          + (buildHeader K P ctx m session).2.mHeadSize = K.maxReservedSize
    ∧ toInt32 (P.headByteSize (buildHeader_msg_hdr K ctx m session).2) ≤ K.mMaxHeadSize
    ∧ (K.maxReservedSize ≥ mPrefixSize + K.mMaxHeadSize →
        (buildHeader K P ctx m session).2.mOffset ≥ 0)
    ∧ (0 ≤ toInt32 (P.headByteSize (buildHeader_msg_hdr K ctx m session).2) →
        ∀ buf : Buffer, m.mBuffer = some buf →
          ∃ buf1, (buildHeader K P ctx m session).2.mBuffer = some buf1
            ∧ ∀ a : Int, K.maxReservedSize ≤ a → buf1 a = buf a)
    ∧ (∀ (x : CFdbMessage) (data : CFdbBasePayload) (object : Option CFdbBaseObject),
        (serialize K ctx x data object).1 = true →
        ∃ bytes : List Nat, data.bytes = some bytes
          ∧ (serialize K ctx x data object).2.mBuffer
            = some (ctx.freshBuffer.writeBytes K.maxReservedSize
                (bytes.take (toInt32 data.byteSize).toNat))) := by
  obtain ⟨f1, f2, f3, _⟩ := buildHeader_fresh K P ctx m session hhead hok
  refine ⟨f1, ?_, ?_, ?_, ?_, ?_, ?_⟩
  · rw [f3, f1]
  · rw [f3]; ring
  · rw [← f1]; exact f2
  · intro hres
    rw [f3]
    omega
  · intro hpos buf hbuf
    exact buildHeader_keeps_payload K P ctx m session hhead hok hpos buf hbuf
  · intro x data object hs
    exact (serialize_mBuffer K ctx x data object).1 hs

/-- Claim C22, witness: the header of `exRequest` takes 20 bytes, the offset is
136 - 20 - 8 = 108. -/
theorem C22_buildHeader_offset_witness :
    hasFlag exRequest.mFlag exConsts.MSG_FLAG_HEAD_OK = false
    ∧ (buildHeader exConsts exProto exCtx exRequest exSession).1 = true
    ∧ (buildHeader exConsts exProto exCtx exRequest exSession).2.mHeadSize = 20
    ∧ (buildHeader exConsts exProto exCtx exRequest exSession).2.mOffset = 108
    ∧ (buildHeader exConsts exProto exCtx exRequest exSession).2.mOffset + mPrefixSize
          + (buildHeader exConsts exProto exCtx exRequest exSession).2.mHeadSize
        = exConsts.maxReservedSize :=
  ⟨by decide, by decide, by decide, by decide,
   (C22_buildHeader_offset exConsts exProto exCtx exRequest exSession (by decide)
      (by decide)).2.2.1⟩

/-- Claim C23: `run` is the dispatcher `run_spec` worded by type.  For a
SubscribeRequest with code Subscribe, Update or Unsubscribe and for a
SidebandRequest it is `doRequest` on the same message, for a Status and a
SidebandReply it is `doReply`, and for type Unknown and for a SubscribeRequest
with another code it makes no call and returns the message as it was. -/
theorem C23_run_by_type (K : Consts) (P : Proto) (O : ObjectTable) (ctx : CFdbContext)
    (m : CFdbMessage) :
    run K P O ctx m = run_spec K P O ctx m
    ∧ (m.mType = MT_SUBSCRIBE_REQ →
        (m.mCode = K.FDB_CODE_SUBSCRIBE ∨ m.mCode = K.FDB_CODE_UPDATE
          ∨ m.mCode = K.FDB_CODE_UNSUBSCRIBE) →
        run K P O ctx m = doRequest K P ctx m)
    ∧ (m.mType = MT_SIDEBAND_REQUEST → run K P O ctx m = doRequest K P ctx m)
    ∧ (m.mType = MT_STATUS ∨ m.mType = MT_SIDEBAND_REPLY → run K P O ctx m = doReply K ctx m)
    ∧ (m.mType = MT_UNKNOWN → run K P O ctx m = (m, []))
    ∧ (m.mType = MT_SUBSCRIBE_REQ →
        ¬ (m.mCode = K.FDB_CODE_SUBSCRIBE ∨ m.mCode = K.FDB_CODE_UPDATE
          ∨ m.mCode = K.FDB_CODE_UNSUBSCRIBE) →
        run K P O ctx m = (m, [])) := by
  have hsub : m.mType = MT_SUBSCRIBE_REQ →
      run K P O ctx m
        = (if m.mCode = K.FDB_CODE_SUBSCRIBE ∨ m.mCode = K.FDB_CODE_UPDATE
              ∨ m.mCode = K.FDB_CODE_UNSUBSCRIBE then doRequest K P ctx m else (m, [])) := by
    intro ht
    simp only [run, ht, MT_SUBSCRIBE_REQ, MT_REQUEST, MT_SIDEBAND_REQUEST, MT_REPLY,
      MT_SIDEBAND_REPLY, MT_BROADCAST, MT_STATUS, doSubscribeReq, doUnsubscribeReq]
    by_cases h1 : m.mCode = K.FDB_CODE_SUBSCRIBE ∨ m.mCode = K.FDB_CODE_UPDATE
    · have h2 : m.mCode = K.FDB_CODE_SUBSCRIBE ∨ m.mCode = K.FDB_CODE_UPDATE
          ∨ m.mCode = K.FDB_CODE_UNSUBSCRIBE := by tauto
      simp [h1, h2]
    · by_cases h3 : m.mCode = K.FDB_CODE_UNSUBSCRIBE
      · simp [h1, h3]
      · have h2 : ¬ (m.mCode = K.FDB_CODE_SUBSCRIBE ∨ m.mCode = K.FDB_CODE_UPDATE
            ∨ m.mCode = K.FDB_CODE_UNSUBSCRIBE) := by tauto
        simp [h1, h3, h2]
  refine ⟨?_, ?_, ?_, ?_, ?_, ?_⟩
  · by_cases ht : m.mType = MT_SUBSCRIBE_REQ
    · rw [hsub ht]
      simp only [run_spec, ht, if_true]
    · simp only [run_spec, ht, if_false]
      simp only [run, doStatus, ht, if_false]
      by_cases h1 : m.mType = MT_REQUEST ∨ m.mType = MT_SIDEBAND_REQUEST
      · simp only [h1, if_true]
      · simp only [h1, if_false]
        by_cases h2 : m.mType = MT_REPLY ∨ m.mType = MT_SIDEBAND_REPLY
        · have h3 : m.mType = MT_REPLY ∨ m.mType = MT_SIDEBAND_REPLY ∨ m.mType = MT_STATUS := by
            tauto
          simp only [h2, h3, if_true]
        · simp only [h2, if_false]
          by_cases h4 : m.mType = MT_STATUS
          · have h5 : ¬ m.mType = MT_BROADCAST := by
              rw [h4]; decide
            have h3 : m.mType = MT_REPLY ∨ m.mType = MT_SIDEBAND_REPLY ∨ m.mType = MT_STATUS :=
              Or.inr (Or.inr h4)
            rw [if_neg h5, if_pos h4, if_pos h3]
          · have h3 : ¬ (m.mType = MT_REPLY ∨ m.mType = MT_SIDEBAND_REPLY
                ∨ m.mType = MT_STATUS) := by tauto
            rw [if_neg h3]
            by_cases h5 : m.mType = MT_BROADCAST
            · rw [if_pos h5, if_pos h5]
            · rw [if_neg h5, if_neg h5, if_neg h4]
  · intro ht hc
    rw [hsub ht, if_pos hc]
  · intro ht
    exact run_request K P O ctx m (Or.inr ht)
  · intro ht
    exact run_reply K P O ctx m (by tauto)
  · intro ht
    simp [run, ht, MT_UNKNOWN, MT_SUBSCRIBE_REQ, MT_REQUEST, MT_SIDEBAND_REQUEST, MT_REPLY,
      MT_SIDEBAND_REPLY, MT_BROADCAST, MT_STATUS]
  · intro ht hc
    rw [hsub ht, if_neg hc]

/-- Claim C23, witness: a SubscribeRequest with code 77 is dropped; a SidebandRequest
to session 7 is sent as `doRequest` sends it. -/
theorem C23_run_by_type_witness :
    ({ exRaw with mType := MT_SUBSCRIBE_REQ, mCode := 77, mSid := 7 } : CFdbMessage).mType
        = MT_SUBSCRIBE_REQ
    ∧ ¬ (({ exRaw with mType := MT_SUBSCRIBE_REQ, mCode := 77, mSid := 7 } : CFdbMessage).mCode
            = exConsts.FDB_CODE_SUBSCRIBE
          ∨ ({ exRaw with mType := MT_SUBSCRIBE_REQ, mCode := 77, mSid := 7 } : CFdbMessage).mCode
            = exConsts.FDB_CODE_UPDATE
          ∨ ({ exRaw with mType := MT_SUBSCRIBE_REQ, mCode := 77, mSid := 7 } : CFdbMessage).mCode
            = exConsts.FDB_CODE_UNSUBSCRIBE)
    ∧ run exConsts exProto exObjects exCtx
          { exRaw with mType := MT_SUBSCRIBE_REQ, mCode := 77, mSid := 7 }
        = ({ exRaw with mType := MT_SUBSCRIBE_REQ, mCode := 77, mSid := 7 }, [])
    ∧ ({ exRaw with mType := MT_SIDEBAND_REQUEST, mSid := 7 } : CFdbMessage).mType
        = MT_SIDEBAND_REQUEST
    ∧ run exConsts exProto exObjects exCtx { exRaw with mType := MT_SIDEBAND_REQUEST, mSid := 7 }
        = doRequest exConsts exProto exCtx { exRaw with mType := MT_SIDEBAND_REQUEST, mSid := 7 }
    ∧ (doRequest exConsts exProto exCtx
          { exRaw with mType := MT_SIDEBAND_REQUEST, mSid := 7 }).2.length = 1 :=
  ⟨rfl, by decide,
   (C23_run_by_type exConsts exProto exObjects exCtx
      { exRaw with mType := MT_SUBSCRIBE_REQ, mCode := 77, mSid := 7 }).2.2.2.2.2 rfl (by decide),
   rfl,
   (C23_run_by_type exConsts exProto exObjects exCtx
      { exRaw with mType := MT_SIDEBAND_REQUEST, mSid := 7 }).2.2.1 rfl,
   by decide⟩

/-- Claim C24: with the Endpoint flag set `getSession` returns the preferred peer of
the endpoint `mEpid` (null when there is no such endpoint); when it returns a
session the message is left with the Endpoint flag cleared, `mSid` the sid of
that session and everything else, every other flag included, as it was; when it
returns null the message is unchanged.  With the Endpoint flag clear it returns
the session the context has for `mSid` and the message is unchanged. -/
theorem C24_getSession_resolves (K : Consts) (hK : K.wf) (ctx : CFdbContext) (m : CFdbMessage) :
    (hasFlag m.mFlag K.MSG_FLAG_ENDPOINT = true →
      (getSession K ctx m).1
          = (match ctx.getEndpoint m.mEpid with
             | some endpoint => endpoint.preferredPeer
             | none => none)
      ∧ (∀ s : CFdbSession, (getSession K ctx m).1 = some s →
          (getSession K ctx m).2
              = { m with mFlag := clearFlag m.mFlag K.MSG_FLAG_ENDPOINT, mSid := s.sid }
          ∧ hasFlag (getSession K ctx m).2.mFlag K.MSG_FLAG_ENDPOINT = false
          ∧ (getSession K ctx m).2.mSid = s.sid
          ∧ (∀ f : Flag, f ≠ Flag.Endpoint →
              hasFlag (getSession K ctx m).2.mFlag (1 <<< K.bit f)
                = hasFlag m.mFlag (1 <<< K.bit f)))
      ∧ ((getSession K ctx m).1 = none → (getSession K ctx m).2 = m))
    ∧ (hasFlag m.mFlag K.MSG_FLAG_ENDPOINT = false →
      (getSession K ctx m).1 = ctx.getSession m.mSid ∧ (getSession K ctx m).2 = m) := by
  constructor
  · intro he
    simp only [getSession, he, if_true]
    cases ctx.getEndpoint m.mEpid with
    | none => simp
    | some ep =>
      cases hp : ep.preferredPeer with
      | none => simp [hp]
      | some s =>
        simp only [hp, true_and, Option.some.injEq, forall_eq', reduceCtorEq, false_implies,
          and_true]
        refine ⟨?_, ?_⟩
        · simp [Consts.MSG_FLAG_ENDPOINT, hasFlag_clearFlag_bit hK]
        · intro f hf
          simp only [Consts.MSG_FLAG_ENDPOINT, hasFlag_clearFlag_bit hK]
          have : ¬ Flag.Endpoint = f := fun h => hf h.symm
          simp [this]
  · intro he
    simp [getSession, he]

/-- Claim C24, witness: a message routed by endpoint 3, whose preferred peer is
session 7; in a context without that endpoint the message is unchanged. -/
theorem C24_getSession_resolves_witness :
    exConsts.wf
    ∧ hasFlag exByEndpoint.mFlag exConsts.MSG_FLAG_ENDPOINT = true
    ∧ (getSession exConsts exCtxEndpoint exByEndpoint).1.map (fun s => s.sid) = some 7
    ∧ (getSession exConsts exCtxEndpoint exByEndpoint).1
        = (match exCtxEndpoint.getEndpoint exByEndpoint.mEpid with
           | some endpoint => endpoint.preferredPeer
           | none => none)
    ∧ (getSession exConsts exCtxEndpoint exByEndpoint).2.mSid = 7
    ∧ hasFlag (getSession exConsts exCtx exByEndpoint).2.mFlag exConsts.MSG_FLAG_ENDPOINT = true
    ∧ (getSession exConsts exCtx exByEndpoint).2 = exByEndpoint :=
  ⟨by decide, by decide, by decide,
   ((C24_getSession_resolves exConsts (by decide) exCtxEndpoint exByEndpoint).1 (by decide)).1,
   by decide, by decide,
   ((C24_getSession_resolves exConsts (by decide) exCtx exByEndpoint).1 (by decide)).2.2 rfl⟩

/-- Claim C25: for debug messages on both sides and any two clocks: on a Request,
SubscribeRequest or Broadcast header `encodeDebugInfo` stamps the send time of
the sender with its clock and writes it into `send_or_arrive_time`, and
`decodeDebugInfo` on that header sets `mSendTime` of the receiver to it; on a
Reply or Status header `encodeDebugInfo` writes `mArriveTime` of the replier into
`send_or_arrive_time` and its clock into `reply_time`, and `decodeDebugInfo` on
that header sets `mArriveTime` and `mReplyTime` of the receiver to these two
values. -/
theorem C25_debug_times_round_trip (ctxS ctxR : CFdbContext) (sender receiver : CFdbMessage)
    (msg_hdr : FdbMessageHeader)
    (hs : sender.isDebugMsg = true) (hr : receiver.isDebugMsg = true) :
    ((msg_hdr.type = MT_REQUEST ∨ msg_hdr.type = MT_SUBSCRIBE_REQ
        ∨ msg_hdr.type = MT_BROADCAST) →
      (encodeDebugInfo ctxS sender msg_hdr).1.mSendTime = ctxS.getNanoSecTimer
      ∧ (encodeDebugInfo ctxS sender msg_hdr).2.send_or_arrive_time
          = some (encodeDebugInfo ctxS sender msg_hdr).1.mSendTime
      ∧ (encodeDebugInfo ctxS sender msg_hdr).2.type = msg_hdr.type
      ∧ (decodeDebugInfo ctxR receiver (encodeDebugInfo ctxS sender msg_hdr).2).mSendTime
          = (encodeDebugInfo ctxS sender msg_hdr).1.mSendTime)
    ∧ ((msg_hdr.type = MT_REPLY ∨ msg_hdr.type = MT_STATUS) →
      (encodeDebugInfo ctxS sender msg_hdr).2.send_or_arrive_time = some sender.mArriveTime
      ∧ (encodeDebugInfo ctxS sender msg_hdr).2.reply_time = some ctxS.getNanoSecTimer
      ∧ (encodeDebugInfo ctxS sender msg_hdr).2.type = msg_hdr.type
      ∧ (decodeDebugInfo ctxR receiver (encodeDebugInfo ctxS sender msg_hdr).2).mArriveTime
          = sender.mArriveTime
      ∧ (decodeDebugInfo ctxR receiver (encodeDebugInfo ctxS sender msg_hdr).2).mReplyTime
          = ctxS.getNanoSecTimer) := by
  constructor
  · intro ht
    have hn : ¬ (msg_hdr.type = MT_REPLY ∨ msg_hdr.type = MT_STATUS) := by
      rcases ht with h | h | h <;> rw [h] <;> decide
    simp [encodeDebugInfo, decodeDebugInfo, hs, hr, ht, hn]
  · intro ht
    simp [encodeDebugInfo, decodeDebugInfo, hs, hr, ht]

/-- Claim C25, witness: a reply of a debug message that arrived at 400, encoded at
clock 1000 and decoded at clock 2000. -/
theorem C25_debug_times_round_trip_witness :
    exDebugMsg.isDebugMsg = true
    ∧ (CFdbDebugMsg.new exConsts exRaw 100 0).isDebugMsg = true
    ∧ (({ exHeader with type := MT_REPLY } : FdbMessageHeader).type = MT_REPLY
        ∨ ({ exHeader with type := MT_REPLY } : FdbMessageHeader).type = MT_STATUS)
    ∧ (decodeDebugInfo { exCtx with getNanoSecTimer := 2000 }
          (CFdbDebugMsg.new exConsts exRaw 100 0)
          (encodeDebugInfo exCtx exDebugMsg { exHeader with type := MT_REPLY }).2).mArriveTime
        = 400
    ∧ (decodeDebugInfo { exCtx with getNanoSecTimer := 2000 }
          (CFdbDebugMsg.new exConsts exRaw 100 0)
          (encodeDebugInfo exCtx exDebugMsg { exHeader with type := MT_REPLY }).2).mReplyTime
        = 1000 :=
  ⟨rfl, rfl, Or.inl rfl,
   ((C25_debug_times_round_trip exCtx { exCtx with getNanoSecTimer := 2000 } exDebugMsg
      (CFdbDebugMsg.new exConsts exRaw 100 0) { exHeader with type := MT_REPLY } rfl rfl).2
      (Or.inl rfl)).2.2.2.1,
   ((C25_debug_times_round_trip exCtx { exCtx with getNanoSecTimer := 2000 } exDebugMsg
      (CFdbDebugMsg.new exConsts exRaw 100 0) { exHeader with type := MT_REPLY } rfl rfl).2
      (Or.inl rfl)).2.2.2.2⟩

/-- Claim C26: for a non-null buffer and `size != 0` whose header parses, with a
header `payload_size` and a prefix `headLength` below `2^31` and the difference
`totalLength - prefixSize - headLength - payload_size` not below `-2^31`: every
message `parseFdbLog` returns has `payloadSize >= 0`, `extraSize >= 0` and
`prefixSize + headSize + payloadSize + extraSize = totalLength`; when the
difference is negative and `totalLength - prefixSize - headLength >= 0` a message
is returned with that value as payload size and extra size 0; when the
difference is in `[0, 2^31)` a message is returned with the payload size of the
header and the difference as extra size; when the cut-down payload size is
negative the result is null; and the result is null for a null buffer and for
`size = 0`. -/
theorem C26_parseFdbLog_sizes (K : Consts)
    (deserializePb : Buffer → Int → Int → Option FdbMessageHeader) (raw : CFdbMessage)
    (b : Buffer) (size : Int) (sid : Nat) (head : FdbMessageHeader)
    (hsize : size ≠ 0)
    (hd : deserializePb b mPrefixSize (CFdbMsgPrefix.deserialize b 0).mHeadLength = some head)
    (hp0 : 0 ≤ head.payload_size) (hp1 : head.payload_size < 2147483648)
    (hh1 : (CFdbMsgPrefix.deserialize b 0).mHeadLength < 2147483648)
    (hlow : -2147483648 ≤ (CFdbMsgPrefix.deserialize b 0).mTotalLength - mPrefixSize
              - (CFdbMsgPrefix.deserialize b 0).mHeadLength - head.payload_size) :
    (∀ x : CFdbMessage, parseFdbLog K deserializePb raw (some b) size sid = some x →
      0 ≤ x.mPayloadSize ∧ 0 ≤ x.mExtraSize
      ∧ mPrefixSize + x.mHeadSize + x.mPayloadSize + x.mExtraSize
          = (CFdbMsgPrefix.deserialize b 0).mTotalLength)
    ∧ ((CFdbMsgPrefix.deserialize b 0).mTotalLength - mPrefixSize
            - (CFdbMsgPrefix.deserialize b 0).mHeadLength - head.payload_size < 0 →
       0 ≤ (CFdbMsgPrefix.deserialize b 0).mTotalLength - mPrefixSize
            - (CFdbMsgPrefix.deserialize b 0).mHeadLength →
      ∃ x : CFdbMessage, parseFdbLog K deserializePb raw (some b) size sid = some x
        ∧ x.mPayloadSize = (CFdbMsgPrefix.deserialize b 0).mTotalLength - mPrefixSize
            - (CFdbMsgPrefix.deserialize b 0).mHeadLength
        ∧ x.mExtraSize = 0)
    ∧ (0 ≤ (CFdbMsgPrefix.deserialize b 0).mTotalLength - mPrefixSize
            - (CFdbMsgPrefix.deserialize b 0).mHeadLength - head.payload_size →
       (CFdbMsgPrefix.deserialize b 0).mTotalLength - mPrefixSize
            - (CFdbMsgPrefix.deserialize b 0).mHeadLength - head.payload_size < 2147483648 →
      ∃ x : CFdbMessage, parseFdbLog K deserializePb raw (some b) size sid = some x
        ∧ x.mPayloadSize = head.payload_size
        ∧ x.mExtraSize = (CFdbMsgPrefix.deserialize b 0).mTotalLength - mPrefixSize
            - (CFdbMsgPrefix.deserialize b 0).mHeadLength - head.payload_size)
    ∧ ((CFdbMsgPrefix.deserialize b 0).mTotalLength - mPrefixSize
            - (CFdbMsgPrefix.deserialize b 0).mHeadLength - head.payload_size < 0 →
       (CFdbMsgPrefix.deserialize b 0).mTotalLength - mPrefixSize
            - (CFdbMsgPrefix.deserialize b 0).mHeadLength < 0 →
      parseFdbLog K deserializePb raw (some b) size sid = none)
    ∧ parseFdbLog K deserializePb raw none size sid = none
    ∧ parseFdbLog K deserializePb raw (some b) 0 sid = none := by
  obtain ⟨c1, c2, c3, c4⟩ :=
    parseFdbLog_cases K deserializePb raw b size sid head hsize hd hp0 hp1 hh1 hlow
  have hh0 : 0 ≤ (CFdbMsgPrefix.deserialize b 0).mHeadLength := (readU32_range b (0 + 4)).1
  have cut : (CFdbMsgPrefix.deserialize b 0).mTotalLength - mPrefixSize
        - (CFdbMsgPrefix.deserialize b 0).mHeadLength - head.payload_size < 0 →
      0 ≤ (CFdbMsgPrefix.deserialize b 0).mTotalLength - mPrefixSize
        - (CFdbMsgPrefix.deserialize b 0).mHeadLength →
      (newDecoded K raw
          { head with payload_size := (CFdbMsgPrefix.deserialize b 0).mTotalLength
              - mPrefixSize - (CFdbMsgPrefix.deserialize b 0).mHeadLength }
          (CFdbMsgPrefix.deserialize b 0) (some b) sid).mPayloadSize
        = (CFdbMsgPrefix.deserialize b 0).mTotalLength - mPrefixSize
            - (CFdbMsgPrefix.deserialize b 0).mHeadLength
      ∧ (newDecoded K raw
          { head with payload_size := (CFdbMsgPrefix.deserialize b 0).mTotalLength
              - mPrefixSize - (CFdbMsgPrefix.deserialize b 0).mHeadLength }
          (CFdbMsgPrefix.deserialize b 0) (some b) sid).mHeadSize
        = (CFdbMsgPrefix.deserialize b 0).mHeadLength
      ∧ (newDecoded K raw
          { head with payload_size := (CFdbMsgPrefix.deserialize b 0).mTotalLength
              - mPrefixSize - (CFdbMsgPrefix.deserialize b 0).mHeadLength }
          (CFdbMsgPrefix.deserialize b 0) (some b) sid).mExtraSize = 0 := by
    intro h0 h1
    obtain ⟨s1, s2, s3⟩ := newDecoded_sizes K raw
      { head with payload_size := (CFdbMsgPrefix.deserialize b 0).mTotalLength
          - mPrefixSize - (CFdbMsgPrefix.deserialize b 0).mHeadLength }
      (CFdbMsgPrefix.deserialize b 0) (some b) sid h1 (by simp only; omega) hh0 hh1
      (by simp only; omega) (by simp only; omega)
    refine ⟨s1, s2, ?_⟩
    rw [s3]
    simp only
    omega
  refine ⟨?_, ?_, ?_, c3, rfl, ?_⟩
  · intro x hx
    by_cases h0 : (CFdbMsgPrefix.deserialize b 0).mTotalLength - mPrefixSize
        - (CFdbMsgPrefix.deserialize b 0).mHeadLength - head.payload_size < 0
    · by_cases h1 : (CFdbMsgPrefix.deserialize b 0).mTotalLength - mPrefixSize
          - (CFdbMsgPrefix.deserialize b 0).mHeadLength < 0
      · rw [c3 h0 h1] at hx
        cases hx
      · rw [c2 h0 (by omega)] at hx
        simp only [Option.some.injEq] at hx
        subst hx
        obtain ⟨s1, s2, s3⟩ := cut h0 (by omega)
        rw [s1, s2, s3]
        refine ⟨by omega, le_refl _, by omega⟩
    · by_cases h1 : (CFdbMsgPrefix.deserialize b 0).mTotalLength - mPrefixSize
          - (CFdbMsgPrefix.deserialize b 0).mHeadLength - head.payload_size < 2147483648
      · rw [c1 (by omega) h1] at hx
        simp only [Option.some.injEq] at hx
        subst hx
        obtain ⟨s1, s2, s3⟩ := newDecoded_sizes K raw head (CFdbMsgPrefix.deserialize b 0)
          (some b) sid hp0 hp1 hh0 hh1 (by omega) h1
        rw [s1, s2, s3]
        refine ⟨hp0, by omega, by omega⟩
      · rw [c4 (by omega)] at hx
        cases hx
  · intro h0 h1
    obtain ⟨s1, _, s3⟩ := cut h0 h1
    exact ⟨_, c2 h0 h1, s1, s3⟩
  · intro h0 h1
    obtain ⟨s1, _, s3⟩ := newDecoded_sizes K raw head (CFdbMsgPrefix.deserialize b 0)
      (some b) sid hp0 hp1 hh0 hh1 h0 h1
    exact ⟨_, c1 h0 h1, s1, s3⟩
  · simp [parseFdbLog]

/-- Claim C26, witness: a frame with prefix (48, 20) whose header gives a payload of
200 bytes: the payload size is cut down to 20, the extra size is 0. -/
theorem C26_parseFdbLog_sizes_witness :
    (48 : Int) ≠ 0
    ∧ exDeserializePb exLogFrame mPrefixSize (CFdbMsgPrefix.deserialize exLogFrame 0).mHeadLength
        = some { exHeader with payload_size := 200 }
    ∧ (CFdbMsgPrefix.deserialize exLogFrame 0).mTotalLength = 48
    ∧ (CFdbMsgPrefix.deserialize exLogFrame 0).mHeadLength = 20
    ∧ (∃ x : CFdbMessage,
        parseFdbLog exConsts exDeserializePb exRaw (some exLogFrame) 48 7 = some x
        ∧ x.mPayloadSize = (CFdbMsgPrefix.deserialize exLogFrame 0).mTotalLength - mPrefixSize
            - (CFdbMsgPrefix.deserialize exLogFrame 0).mHeadLength
        ∧ x.mExtraSize = 0)
    ∧ (parseFdbLog exConsts exDeserializePb exRaw (some exLogFrame) 48 7).map
        (fun x => (x.mPayloadSize, x.mHeadSize, x.mExtraSize)) = some (20, 20, 0) :=
  ⟨by decide, rfl, by decide, by decide,
   (C26_parseFdbLog_sizes exConsts exDeserializePb exRaw exLogFrame 48 7
      { exHeader with payload_size := 200 } (by decide) rfl (by decide) (by decide)
      (by decide) (by decide)).2.1 (by decide) (by decide),
   by decide⟩

/-- Claim C27: for a message without NoReplyExpected whose payload serializes,
`reply` (both overloads) and `replySideband` hand the message once to
`sendAsyncEndeavor`.  When that fails they return false and leave Replied clear,
and a later `autoReply` on the message, held by one reference and with AutoReply
set, hands a Status to the context; when it succeeds they return true with
Replied set, type Reply (SidebandReply for `replySideband`) and, as encoding
field `mFlag & MSG_FLAG_ENCODING_MASK`, `MSG_FLAG_ENC_PROTOBUF` for the payload
overloads and `(enc << MSG_FLAG_ENCODING) & MSG_FLAG_ENCODING_MASK` for the raw
buffer overload.  The payload serializes when `serialize` returns true, that is
when the serializer succeeds and the allocation size is not negative; for the
raw buffer overload, when the allocation size `maxReservedSize + size +
extraSize` and the copy length `size` are not negative, and with a negative
allocation size that overload does not return. -/
theorem C27_reply_enqueue_outcome (K : Consts) (hK : K.wf) (P : Proto) (ctx : CFdbContext)
    (m : CFdbMessage) (data : CFdbBasePayload)
    (buffer : Option (List Nat)) (size : Int) (enc : Nat) (log_data : Option String)
    (c : Int) (d : Option String)
    (hno : hasFlag m.mFlag K.MSG_FLAG_NOREPLY_EXPECTED = false) :
    ((serialize K ctx m data none).1 = true →
      (∃ x : CFdbMessage, (reply K ctx m data).2.2 = [Event.ctxSendAsyncEndeavor x]
        ∧ (ctx.sendAsyncEndeavor x = false →
            (reply K ctx m data).1 = false
            ∧ hasFlag (reply K ctx m data).2.1.mFlag K.MSG_FLAG_REPLIED = false
            ∧ (hasFlag m.mFlag K.MSG_FLAG_AUTO_REPLY = true →
                autoReply K P ctx (reply K ctx m data).2.1 1 c d
                  = (setErrorMsg K P ctx (reply K ctx m data).2.1 MT_STATUS c d,
                      [Event.ctxSendAsyncEndeavor
                        (setErrorMsg K P ctx (reply K ctx m data).2.1 MT_STATUS c d)])
                ∧ (setErrorMsg K P ctx (reply K ctx m data).2.1 MT_STATUS c d).mType
                    = MT_STATUS))
        ∧ (ctx.sendAsyncEndeavor x = true →
            (reply K ctx m data).1 = true
            ∧ hasFlag (reply K ctx m data).2.1.mFlag K.MSG_FLAG_REPLIED = true
            ∧ (reply K ctx m data).2.1.mType = MT_REPLY
            ∧ (reply K ctx m data).2.1.mFlag &&& K.MSG_FLAG_ENCODING_MASK
                = K.MSG_FLAG_ENC_PROTOBUF))
      ∧ (∃ x : CFdbMessage, (replySideband K ctx m data).2.2 = [Event.ctxSendAsyncEndeavor x]
        ∧ (ctx.sendAsyncEndeavor x = false →
            (replySideband K ctx m data).1 = false
            ∧ hasFlag (replySideband K ctx m data).2.1.mFlag K.MSG_FLAG_REPLIED = false
            ∧ (hasFlag m.mFlag K.MSG_FLAG_AUTO_REPLY = true →
                autoReply K P ctx (replySideband K ctx m data).2.1 1 c d
                  = (setErrorMsg K P ctx (replySideband K ctx m data).2.1 MT_STATUS c d,
                      [Event.ctxSendAsyncEndeavor
                        (setErrorMsg K P ctx (replySideband K ctx m data).2.1 MT_STATUS c d)])
                ∧ (setErrorMsg K P ctx (replySideband K ctx m data).2.1 MT_STATUS c d).mType
                    = MT_STATUS))
        ∧ (ctx.sendAsyncEndeavor x = true →
            (replySideband K ctx m data).1 = true
            ∧ hasFlag (replySideband K ctx m data).2.1.mFlag K.MSG_FLAG_REPLIED = true
            ∧ (replySideband K ctx m data).2.1.mType = MT_SIDEBAND_REPLY
            ∧ (replySideband K ctx m data).2.1.mFlag &&& K.MSG_FLAG_ENCODING_MASK
                = K.MSG_FLAG_ENC_PROTOBUF)))
    ∧ (0 ≤ toInt32 (K.maxReservedSize + size + m.mExtraSize) → (buffer = none ∨ 0 ≤ size) →
        ∃ (x : CFdbMessage) (r : Bool × CFdbMessage × List Event),
          replyRaw K ctx m buffer size enc log_data = some r
          ∧ r.2.2 = [Event.ctxSendAsyncEndeavor x]
          ∧ (ctx.sendAsyncEndeavor x = false →
              r.1 = false
              ∧ hasFlag r.2.1.mFlag K.MSG_FLAG_REPLIED = false
              ∧ (hasFlag m.mFlag K.MSG_FLAG_AUTO_REPLY = true →
                  autoReply K P ctx r.2.1 1 c d
                    = (setErrorMsg K P ctx r.2.1 MT_STATUS c d,
                        [Event.ctxSendAsyncEndeavor (setErrorMsg K P ctx r.2.1 MT_STATUS c d)])
                  ∧ (setErrorMsg K P ctx r.2.1 MT_STATUS c d).mType = MT_STATUS))
          ∧ (ctx.sendAsyncEndeavor x = true →
              r.1 = true
              ∧ hasFlag r.2.1.mFlag K.MSG_FLAG_REPLIED = true
              ∧ r.2.1.mType = MT_REPLY
              ∧ r.2.1.mFlag &&& K.MSG_FLAG_ENCODING_MASK
                  = (enc <<< K.MSG_FLAG_ENCODING) &&& K.MSG_FLAG_ENCODING_MASK))
    ∧ ((serialize K ctx m data none).1 = true
        ↔ (data.bytes ≠ none
            ∧ 0 ≤ toInt32 (K.maxReservedSize + toInt32 data.byteSize + m.mExtraSize)))
    ∧ (toInt32 (K.maxReservedSize + size + m.mExtraSize) < 0 →
        replyRaw K ctx m buffer size enc log_data = none) := by
  have hfb : (serialize K ctx m data none).1 = true → ∀ type : Nat,
      ∃ x : CFdbMessage, (feedback K ctx m data type).2.2 = [Event.ctxSendAsyncEndeavor x]
      ∧ (ctx.sendAsyncEndeavor x = false →
          (feedback K ctx m data type).1 = false
          ∧ hasFlag (feedback K ctx m data type).2.1.mFlag K.MSG_FLAG_REPLIED = false
          ∧ (hasFlag m.mFlag K.MSG_FLAG_AUTO_REPLY = true →
              autoReply K P ctx (feedback K ctx m data type).2.1 1 c d
                = (setErrorMsg K P ctx (feedback K ctx m data type).2.1 MT_STATUS c d,
                    [Event.ctxSendAsyncEndeavor
                      (setErrorMsg K P ctx (feedback K ctx m data type).2.1 MT_STATUS c d)])
              ∧ (setErrorMsg K P ctx (feedback K ctx m data type).2.1 MT_STATUS c d).mType
                  = MT_STATUS))
      ∧ (ctx.sendAsyncEndeavor x = true →
          (feedback K ctx m data type).1 = true
          ∧ hasFlag (feedback K ctx m data type).2.1.mFlag K.MSG_FLAG_REPLIED = true
          ∧ (feedback K ctx m data type).2.1.mType = type
          ∧ (feedback K ctx m data type).2.1.mFlag &&& K.MSG_FLAG_ENCODING_MASK
              = K.MSG_FLAG_ENC_PROTOBUF) := by
    intro hser type
    obtain ⟨x, h1, h2, h3, h4, h5, h6⟩ := feedback_spec K hK ctx m data type hno hser
    refine ⟨x, h1, ?_, ?_⟩
    · intro hs
      have hret : (feedback K ctx m data type).1 = false := by rw [h2, hs]
      have hrep : hasFlag (feedback K ctx m data type).2.1.mFlag K.MSG_FLAG_REPLIED = false := by
        rw [h5, hret]
      refine ⟨hret, hrep, ?_⟩
      intro ha
      refine ⟨autoReply_emits K hK P ctx _ c d ?_ hrep ?_,
        (setErrorMsg_status K hK P ctx _ c d).1⟩
      · rw [Consts.MSG_FLAG_AUTO_REPLY, h6 .AutoReply (by decide) (by decide)]
        exact ha
      · rw [Consts.MSG_FLAG_NOREPLY_EXPECTED, h6 .NoReplyExpected (by decide) (by decide)]
        exact hno
    · intro hs
      have hret : (feedback K ctx m data type).1 = true := by rw [h2, hs]
      exact ⟨hret, by rw [h5, hret], h3, h4⟩
  refine ⟨fun hser => ⟨hfb hser MT_REPLY, hfb hser MT_SIDEBAND_REPLY⟩, ?_,
    serialize_none_fst K ctx m data, ?_⟩
  · intro halloc hsize
    obtain ⟨x, r, h0, h1, h2, h3, h4, h5, h6⟩ :=
      replyRaw_spec K hK ctx m buffer size enc log_data hno halloc hsize
    refine ⟨x, r, h0, h1, ?_, ?_⟩
    · intro hs
      have hret : r.1 = false := by rw [h2, hs]
      have hrep : hasFlag r.2.1.mFlag K.MSG_FLAG_REPLIED = false := by
        rw [h5, hret]
      refine ⟨hret, hrep, ?_⟩
      intro ha
      refine ⟨autoReply_emits K hK P ctx _ c d ?_ hrep ?_,
        (setErrorMsg_status K hK P ctx _ c d).1⟩
      · rw [Consts.MSG_FLAG_AUTO_REPLY, h6 .AutoReply (by decide) (by decide) (by decide)]
        exact ha
      · rw [Consts.MSG_FLAG_NOREPLY_EXPECTED,
          h6 .NoReplyExpected (by decide) (by decide) (by decide)]
        exact hno
    · intro hs
      have hret : r.1 = true := by rw [h2, hs]
      exact ⟨hret, by rw [h5, hret], h3, h4⟩
  · intro hneg
    unfold replyRaw
    simp only [hno, Bool.false_eq_true, if_false,
      (serializeRaw_spec K ctx m buffer size).2 hneg]

/-- Claim C27, witness: a reply on `exAutoReply` in a context whose enqueue fails, and
in one whose enqueue succeeds; a raw-buffer reply of two bytes. -/
theorem C27_reply_enqueue_outcome_witness :
    exConsts.wf
    ∧ hasFlag exAutoReply.mFlag exConsts.MSG_FLAG_NOREPLY_EXPECTED = false
    ∧ (serialize exConsts exCtxBusy exAutoReply exPayload none).1 = true
    ∧ (∃ x : CFdbMessage,
        (reply exConsts exCtxBusy exAutoReply exPayload).2.2 = [Event.ctxSendAsyncEndeavor x]
        ∧ exCtxBusy.sendAsyncEndeavor x = false)
    ∧ (reply exConsts exCtxBusy exAutoReply exPayload).1 = false
    ∧ hasFlag (reply exConsts exCtxBusy exAutoReply exPayload).2.1.mFlag
        exConsts.MSG_FLAG_REPLIED = false
    ∧ (autoReply exConsts exProto exCtxBusy
          (reply exConsts exCtxBusy exAutoReply exPayload).2.1 1 (-3) none).2.length = 1
    ∧ (serialize exConsts exCtx exAutoReply exPayload none).1 = true
    ∧ (reply exConsts exCtx exAutoReply exPayload).1 = true
    ∧ (reply exConsts exCtx exAutoReply exPayload).2.1.mFlag
          &&& exConsts.MSG_FLAG_ENCODING_MASK = exConsts.MSG_FLAG_ENC_PROTOBUF
    ∧ 0 ≤ toInt32 (exConsts.maxReservedSize + 2 + exAutoReply.mExtraSize)
    ∧ (∃ r : Bool × CFdbMessage × List Event,
        replyRaw exConsts exCtx exAutoReply (some [1, 2]) 2 1 none = some r ∧ r.2.2.length = 1) :=
  ⟨by decide, by decide, by decide, ⟨_, rfl, rfl⟩, by decide, by decide, by decide, by decide,
   by decide,
   (Exists.elim
      ((C27_reply_enqueue_outcome exConsts (by decide) exProto exCtx exAutoReply exPayload
        none 0 0 none (-3) none (by decide)).1 (by decide)).1
      (fun _ h => (h.2.2 rfl).2.2.2)),
   by decide,
   (Exists.elim
      ((C27_reply_enqueue_outcome exConsts (by decide) exProto exCtx exAutoReply exPayload
        (some [1, 2]) 2 1 none (-3) none (by decide)).2.1 (by decide) (Or.inr (by decide)))
      (fun _ h => Exists.elim h
        (fun r h2 => ⟨r, h2.1, by rw [h2.2.1]; rfl⟩)))⟩

/-- Claim C28, counterexample: log data with the well-formed prefix (28, 20), hence an
empty embedded payload, `size = 100` and `clipped_size = 0`: `clipped_size` is at
least `totalLength - headLength - prefixSize = 0`, yet the extra size is 28, not
`size`. -/
theorem C28_zero_clip_of_empty_payload :
    mPrefixSize + (CFdbMsgPrefix.deserialize exLogDataEmpty 0).mHeadLength
        ≤ (CFdbMsgPrefix.deserialize exLogDataEmpty 0).mTotalLength
    ∧ (CFdbMsgPrefix.deserialize exLogDataEmpty 0).mTotalLength ≤ 100
    ∧ (0 : Int) ≥ (CFdbMsgPrefix.deserialize exLogDataEmpty 0).mTotalLength
          - (CFdbMsgPrefix.deserialize exLogDataEmpty 0).mHeadLength - mPrefixSize
    ∧ (sendLog exConsts exCtx exRaw exPayload exLogDataEmpty 100 0 true).1 = true
    ∧ (sendLog exConsts exCtx exRaw exPayload exLogDataEmpty 100 0 true).2.1.mExtraSize = 28
    ∧ (sendLog exConsts exCtx exRaw exPayload exLogDataEmpty 100 0 true).2.1.mExtraSize ≠ 100 := by
  decide

/-- Claim C28, amended: for a well-formed embedded prefix
(`prefixSize + headLength <= totalLength <= size`, `size` an `int32_t`), every
message `sendLog` hands over, and the message it leaves unless a session send
has been made, has `0 <= extraSize <= size`; when `clipped_size < 0`, or
`clipped_size > 0` and `clipped_size >= totalLength - headLength - prefixSize`,
the log data is left as it is and `extraSize = size`; when `clipped_size = 0`,
`extraSize = prefixSize + headLength`, also for an empty embedded payload.  The
copy out of the log data, made when `size != 0`, takes `extraSize` bytes. -/
theorem C28_sendLog_extra_bounds (K : Consts) (ctx : CFdbContext) (m : CFdbMessage)
    (data : CFdbBasePayload) (log_data : Buffer) (size clipped_size : Int)
    (send_as_job : Bool)
    (hwf : mPrefixSize + (CFdbMsgPrefix.deserialize log_data 0).mHeadLength
            ≤ (CFdbMsgPrefix.deserialize log_data 0).mTotalLength)
    (hts : (CFdbMsgPrefix.deserialize log_data 0).mTotalLength ≤ size)
    (hsz : size < 2147483648) :
    (∀ e ∈ (sendLog K ctx m data log_data size clipped_size send_as_job).2.2.2,
        ∀ x, e.msg? = some x → 0 ≤ x.mExtraSize ∧ x.mExtraSize ≤ size)
    ∧ ((∀ e ∈ (sendLog K ctx m data log_data size clipped_size send_as_job).2.2.2,
          e.isSessionSend = false) →
        0 ≤ (sendLog K ctx m data log_data size clipped_size send_as_job).2.1.mExtraSize
        ∧ (sendLog K ctx m data log_data size clipped_size send_as_job).2.1.mExtraSize ≤ size)
    ∧ ((clipped_size < 0 ∨ (0 < clipped_size
          ∧ (CFdbMsgPrefix.deserialize log_data 0).mTotalLength
              - (CFdbMsgPrefix.deserialize log_data 0).mHeadLength - mPrefixSize
            ≤ clipped_size)) →
        (sendLog K ctx m data log_data size clipped_size send_as_job).2.2.1 = log_data
        ∧ (∀ e ∈ (sendLog K ctx m data log_data size clipped_size send_as_job).2.2.2,
            ∀ x, e.msg? = some x → x.mExtraSize = size)
        ∧ ((∀ e ∈ (sendLog K ctx m data log_data size clipped_size send_as_job).2.2.2,
              e.isSessionSend = false) →
            (sendLog K ctx m data log_data size clipped_size send_as_job).2.1.mExtraSize = size))
    ∧ (clipped_size = 0 →
        (∀ e ∈ (sendLog K ctx m data log_data size clipped_size send_as_job).2.2.2,
            ∀ x, e.msg? = some x →
              x.mExtraSize = mPrefixSize + (CFdbMsgPrefix.deserialize log_data 0).mHeadLength)
        ∧ ((∀ e ∈ (sendLog K ctx m data log_data size clipped_size send_as_job).2.2.2,
              e.isSessionSend = false) →
            (sendLog K ctx m data log_data size clipped_size send_as_job).2.1.mExtraSize
              = mPrefixSize + (CFdbMsgPrefix.deserialize log_data 0).mHeadLength))
    ∧ (∀ (x : CFdbMessage) (log : Buffer) (buf : Buffer), size ≠ 0 → x.mBuffer = some buf →
        (sendLog_copy x log size).mBuffer
            = some (buf.writeBytes (getExtraBufferOffset x)
                (Buffer.readBytes log x.mExtraSize.toNat))
        ∧ (Buffer.readBytes log x.mExtraSize.toNat).length = x.mExtraSize.toNat) := by
  obtain ⟨u1, u2, u3⟩ := sendLog_uses_clip K ctx m data log_data size clipped_size send_as_job
  obtain ⟨b1, b2, b3⟩ := sendLog_clip_bounds K m log_data size clipped_size hwf hts hsz
  refine ⟨?_, ?_, ?_, ?_, ?_⟩
  · intro e he x hx
    rw [u2 e he x hx]
    exact b1
  · intro hall
    rw [u3 hall]
    exact b1
  · intro hc
    obtain ⟨a, b⟩ := b2 hc
    refine ⟨by rw [u1, a], ?_, ?_⟩
    · intro e he x hx
      rw [u2 e he x hx, b]
    · intro hall
      rw [u3 hall, b]
  · intro h0
    refine ⟨?_, ?_⟩
    · intro e he x hx
      rw [u2 e he x hx, b3 h0]
    · intro hall
      rw [u3 hall, b3 h0]
  · intro x log buf hs hb
    refine ⟨?_, ?_⟩
    · simp only [sendLog_copy, hs, ne_eq, not_false_eq_true, if_true, hb, Option.map_some']
    · exact readBytes_length log _

/-- Claim C28, witness: log data with prefix (120, 20) and `size = 120`: with
`clipped_size = 32` the extra size lies in `[0, 120]`, with `clipped_size = -1` it
is 120. -/
theorem C28_sendLog_extra_bounds_witness :
    mPrefixSize + (CFdbMsgPrefix.deserialize exLogData 0).mHeadLength
        ≤ (CFdbMsgPrefix.deserialize exLogData 0).mTotalLength
    ∧ (CFdbMsgPrefix.deserialize exLogData 0).mTotalLength ≤ 120
    ∧ (120 : Int) < 2147483648
    ∧ (∀ e ∈ (sendLog exConsts exCtx exRaw exPayload exLogData 120 32 true).2.2.2,
        e.isSessionSend = false)
    ∧ 0 ≤ (sendLog exConsts exCtx exRaw exPayload exLogData 120 32 true).2.1.mExtraSize
    ∧ (sendLog exConsts exCtx exRaw exPayload exLogData 120 32 true).2.1.mExtraSize ≤ 120
    ∧ (sendLog exConsts exCtx exRaw exPayload exLogData 120 (-1) true).2.1.mExtraSize = 120 :=
  ⟨by decide, by decide, by decide, by decide,
   ((C28_sendLog_extra_bounds exConsts exCtx exRaw exPayload exLogData 120 32 true
      (by decide) (by decide) (by decide)).2.1 (by decide)).1,
   ((C28_sendLog_extra_bounds exConsts exCtx exRaw exPayload exLogData 120 32 true
      (by decide) (by decide) (by decide)).2.1 (by decide)).2,
   ((C28_sendLog_extra_bounds exConsts exCtx exRaw exPayload exLogData 120 (-1) true
      (by decide) (by decide) (by decide)).2.2.1 (Or.inl (by decide))).2.2 (by decide)⟩

end Fdbus
